import Mathlib

/-!
# The graphics state machine of `src/graphics/graphics.c`

A shallow embedding of the immediate-mode graphics core: the process-wide
`GraphicsState`, the transform stack, the layer stack, the state setters and
the draw submission, followed by theorems about them.

Conventions of the embedding.

* The C global `state` is passed explicitly; every operation is a function
  from states to states.  `lovrThrow` / a failing `lovrAssert` do not return:
  they are modelled by `Outcome.fatal`, which carries the state as it is at the
  moment of the throw (side effects made before the throw persist, as in C).
* Objects living outside the module (canvases, shaders, fonts, materials,
  explicit meshes) are `Handle`s; a nullable pointer is an `Option Handle`.
  The number of retains held on an object is `GraphicsState.refs`.
* Calls into OpenGL and into the GPU abstraction are appended, in order, to
  `GraphicsState.trace`.
* `float` values are only stored, copied and compared by the code modelled
  here; they are represented by rationals.  The functions of the math library
  and the constants that are declared outside `src/` are fields of `Platform`.
-/

namespace Lovr

/-! ## Values -/

/-- A C `float`.  The modelled code stores, copies and compares floats; every
computation on them is delegated to the math library (see `Platform`). -/
abbrev CFloat := ℚ

/-- A `float[16]`, the storage behind a `mat4`. -/
abbrev Mat := Fin 16 → CFloat

/-- A `float[3]`, the storage behind a `vec3`. -/
structure Vec3 where
  x : CFloat
  y : CFloat
  z : CFloat
deriving DecidableEq

/-- The address of an object owned by another module (never `NULL`). -/
abbrev Handle := Nat

/-- From `graphics.h`. -/
def MAX_TRANSFORMS : Int := 64

/-- The `Color` struct: four floats. -/
structure Color where
  r : CFloat
  g : CFloat
  b : CFloat
  a : CFloat
deriving DecidableEq

inductive BlendMode where
  | BLEND_ALPHA
  | BLEND_ADD
  | BLEND_SUBTRACT
  | BLEND_MULTIPLY
  | BLEND_LIGHTEN
  | BLEND_DARKEN
  | BLEND_SCREEN
  | BLEND_REPLACE
deriving DecidableEq, Repr

inductive BlendAlphaMode where
  | BLEND_ALPHA_MULTIPLY
  | BLEND_PREMULTIPLIED
deriving DecidableEq, Repr

inductive CompareMode where
  | COMPARE_NONE
  | COMPARE_EQUAL
  | COMPARE_NEQUAL
  | COMPARE_LESS
  | COMPARE_LEQUAL
  | COMPARE_GREATER
  | COMPARE_GEQUAL
deriving DecidableEq, Repr

inductive Winding where
  | WINDING_CLOCKWISE
  | WINDING_COUNTERCLOCKWISE
deriving DecidableEq, Repr

/-- The selector of a default shader (`DefaultShader` of `graphics/shader.h`);
a field left out of a `GraphicsDraw` literal selects `SHADER_DEFAULT`. -/
inductive DefaultShader where
  | SHADER_DEFAULT
  | SHADER_CUBE
  | SHADER_PANO
  | SHADER_FONT
  | SHADER_FILL
deriving DecidableEq, Repr

/-- The `MeshDrawMode` values used by `graphics.c`. -/
inductive MeshDrawMode where
  | MESH_POINTS
  | MESH_LINES
  | MESH_LINE_STRIP
  | MESH_LINE_LOOP
  | MESH_TRIANGLE_STRIP
  | MESH_TRIANGLES
  | MESH_TRIANGLE_FAN
deriving DecidableEq, Repr

inductive FilterMode where
  | FILTER_NEAREST
  | FILTER_BILINEAR
  | FILTER_TRILINEAR
  | FILTER_ANISOTROPIC
deriving DecidableEq, Repr

structure TextureFilter where
  mode : FilterMode
  anisotropy : CFloat
deriving DecidableEq

/-- The `TextureType` values; the enum is declared in `graphics/texture.h`,
which is not part of `src/`. -/
inductive TextureType where
  | TEXTURE_2D
  | TEXTURE_CUBE
  | TEXTURE_ARRAY
  | TEXTURE_VOLUME
deriving DecidableEq, Repr

/-- The `MaterialTexture` slots used by `graphics.c`; the enum is declared in
`graphics/material.h`, which is not part of `src/`. -/
inductive MaterialTexture where
  | TEXTURE_DIFFUSE
  | TEXTURE_ENVIRONMENT_MAP
deriving DecidableEq, Repr

/-- A value of the enum `HorizontalAlign` of `graphics/font.h`, which is not
part of `src/`, as its integer value. -/
abbrev HorizontalAlign := Int

/-- A value of the enum `VerticalAlign` of `graphics/font.h`, which is not part
of `src/`, as its integer value. -/
abbrev VerticalAlign := Int

/-- From `graphics.h`. -/
structure GraphicsLimits where
  initialized : Bool
  pointSizes : CFloat × CFloat
  textureSize : Int
  textureMSAA : Int
  textureAnisotropy : CFloat
deriving DecidableEq

/-- The OpenGL enumerants that `graphics.c` passes to the driver. -/
inductive GLenum where
  | GL_ZERO
  | GL_ONE
  | GL_DST_COLOR
  | GL_SRC_ALPHA
  | GL_ONE_MINUS_SRC_ALPHA
  | GL_ONE_MINUS_SRC_COLOR
  | GL_FUNC_ADD
  | GL_FUNC_REVERSE_SUBTRACT
  | GL_MAX
  | GL_MIN
  | GL_CULL_FACE
  | GL_DEPTH_TEST
  | GL_STENCIL_TEST
  | GL_ALWAYS
  | GL_EQUAL
  | GL_NOTEQUAL
  | GL_LESS
  | GL_LEQUAL
  | GL_GREATER
  | GL_GEQUAL
  | GL_KEEP
  | GL_CW
  | GL_CCW
  | GL_FRONT_AND_BACK
  | GL_LINE
  | GL_FILL
  | GL_REPLACE
  | GL_INCR
  | GL_DECR
  | GL_INCR_WRAP
  | GL_DECR_WRAP
  | GL_INVERT
  | GL_POINT_SIZE_RANGE
  | GL_MAX_TEXTURE_SIZE
  | GL_MAX_SAMPLES
  | GL_MAX_TEXTURE_MAX_ANISOTROPY_EXT
deriving DecidableEq, Repr

/-- What `glCheckFramebufferStatus` can answer, as far as `graphics.c`
distinguishes the answers. -/
inductive FramebufferStatus where
  | GL_FRAMEBUFFER_COMPLETE
  | GL_FRAMEBUFFER_INCOMPLETE_DIMENSIONS
  | otherIncomplete
deriving DecidableEq, Repr

/-- The fatal errors raised by `lovrThrow` and `lovrAssert` in `graphics.c`,
one per message. -/
inductive Fatal where
  /-- "Unbalanced matrix stack (more pushes than pops?)" -/
  | morePushesThanPops
  /-- "Unbalanced matrix stack (more pops than pushes?)" -/
  | morePopsThanPushes
  /-- "Attempt to set %d canvases (the maximum is %d)" -/
  | tooManyCanvases
  /-- "Layer overflow" -/
  | layerOverflow
  /-- "Layer underflow" -/
  | layerUnderflow
  /-- "All multicanvas canvases must have the same dimensions" -/
  | canvasDimensions
  /-- "Unable to bind framebuffer" -/
  | unableToBindFramebuffer
  /-- "Only 2D and cube textures can be used as skyboxes" -/
  | skyboxTextureType
deriving DecidableEq, Repr

/-- The result of running an operation: it returned (`done`), or it raised a
fatal error (`fatal`) and left the state as it was at the throw, or it wrote
outside the array it indexes (`undefined`).  C does not define what such a
write does (the storage behind `float transforms[MAX_TRANSFORMS][16]` is
`int transform` and the fields after it); the operation is followed no further,
and `undefined` keeps the state as it was at the write. -/
inductive Outcome (σ : Type) where
  | done (s : σ)
  | fatal (e : Fatal) (s : σ)
  | undefined (s : σ)

/-- The state an operation leaves behind when it returned or threw, and the
state at the write when its behaviour is undefined. -/
def Outcome.state {σ : Type} : Outcome σ → σ
  | .done s => s
  | .fatal _ s => s
  | .undefined s => s

/-- Sequencing: the next operation runs only if the previous one returned. -/
def Outcome.andThen {σ : Type} (o : Outcome σ) (f : σ → Outcome σ) : Outcome σ :=
  match o with
  | .done s => f s
  | .fatal e s => .fatal e s
  | .undefined s => .undefined s

/-- Whether the operation returned, with defined behaviour. -/
def Outcome.isDone {σ : Type} : Outcome σ → Bool
  | .done _ => true
  | .fatal _ _ => false
  | .undefined _ => false

/-- Whether the operation ran into behaviour the C language leaves undefined. -/
def Outcome.isUndefined {σ : Type} : Outcome σ → Bool
  | .done _ => false
  | .fatal _ _ => false
  | .undefined _ => true

/-- Whether the operation raised the given fatal error. -/
def Outcome.raised {σ : Type} (o : Outcome σ) (e : Fatal) : Bool :=
  match o with
  | .done _ => false
  | .fatal e' _ => decide (e' = e)
  | .undefined _ => false

/-! ## The data model -/

/-- A layer of the layer stack.  Its declaration is not part of `src/`; the
fields are those `graphics.c` reads and writes: `canvas[MAX_CANVASES]`,
`canvasCount`, `user`, `viewport[4]`, `projection` and `view`. -/
structure Layer where
  canvas : Nat → Handle
  canvasCount : Int
  user : Bool
  viewport : Fin 4 → Nat
  projection : Mat
  view : Mat

/-- Modelled from the spec: the mesh object of `graphics/mesh.h`, which is not
part of `src/`.  It has a draw mode, a draw range, vertex storage for `count`
vertices of 8 floats, index storage with an element count and an element size
(a count of 0 means the mesh is drawn non-indexed), and an optional attached
material. -/
structure Mesh where
  drawMode : MeshDrawMode
  rangeStart : Int
  rangeCount : Int
  count : Nat
  vertices : Nat → CFloat
  indexCount : Nat
  indexSize : Nat
  indices : Nat → Nat
  material : Option Handle

/-- The mesh a draw uses: the dynamic mesh `state.mesh`, or a mesh object
handed in by the caller. -/
inductive MeshRef where
  | dynamic
  | explicit (h : Handle)
deriving DecidableEq, Repr

/-- The draw request `GraphicsDraw`, with the fields `graphics.c` uses.  A
field left out of a C compound literal is zero; the defaults below are those
zeros. -/
structure GraphicsDraw where
  mesh : Option Handle := none
  mode : MeshDrawMode
  vertexCount : Nat := 0
  vertexData : Nat → CFloat := fun _ => 0
  indexCount : Nat := 0
  indexData : Nat → Nat := fun _ => 0
  rangeStart : Int := 0
  rangeCount : Int := 0
  shader : DefaultShader := DefaultShader.SHADER_DEFAULT
  material : Option Handle := none
  transform : Option Mat := none
  instances : Int := 0

/-- The command handed to `gpuDraw`. -/
structure GpuDrawCommand where
  layer : Layer
  shader : Handle
  material : Handle
  transform : Mat
  mesh : MeshRef
  color : Color
  pointSize : CFloat
  instances : Int

/-- A call that leaves the module: an OpenGL call, a call of the GPU
abstraction, or the multisample resolve of a canvas.  A framebuffer is named by
the canvas whose id is bound (`none` is framebuffer 0). -/
inductive Call where
  | glClearColor (r g b a : CFloat)
  | glBlendEquation (mode : GLenum)
  | glBlendFuncSeparate (srcRGB dstRGB srcAlpha dstAlpha : GLenum)
  | glEnable (cap : GLenum)
  | glDisable (cap : GLenum)
  | glDepthFunc (func : GLenum)
  | glDepthMask (flag : Bool)
  | glLineWidth (width : CFloat)
  | glStencilFunc (func : GLenum) (ref : Int) (mask : Nat)
  | glStencilOp (sfail dpfail dppass : GLenum)
  | glFrontFace (mode : GLenum)
  | glPolygonMode (face mode : GLenum)
  | gpuBindFramebuffer (canvas : Option Handle)
  | glFramebufferTexture2D (attachment : Nat) (texture : Handle)
  | glDrawBuffers (n : Int)
  | glCheckFramebufferStatus
  | lovrCanvasResolve (canvas : Handle)
  | gpuDraw (command : GpuDrawCommand)
  | glColorMask (r g b a : Bool)
  | glGetFloatv (pname : GLenum)
  | glGetIntegerv (pname : GLenum)
  | lovrMaterialSetTexture (material : Handle) (textureType : MaterialTexture)
      (texture : Option Handle)

/-- The global `state` of `graphics.c`, together with the part of the outside
world the module acts on: the retain counts of the objects it references
(`refs`), the allocator of new objects (`nextHandle`), the materials attached
to caller-owned meshes (`meshMaterial`) and the calls issued so far (`trace`,
oldest first).  `transforms` and `layers` are indexed by integers.  The
operations index them at the depths `transform` and `layer`, which leave the
declared bounds only when a push or a pop has thrown; the one write that
leaves the bounds while the depth is inside them, the second row of the copy
of `lovrGraphicsPush` at depth `MAX_TRANSFORMS - 2`, is undefined behaviour
(see `lovrGraphicsPush`). -/
structure GraphicsState where
  initialized : Bool
  gammaCorrect : Bool
  defaultShaders : DefaultShader → Option Handle
  defaultMaterial : Option Handle
  defaultFont : Option Handle
  mesh : Mesh
  defaultFilter : TextureFilter
  transforms : Int → Mat
  transform : Int
  layers : Int → Layer
  layer : Int
  backgroundColor : Color
  blendMode : BlendMode
  blendAlphaMode : BlendAlphaMode
  color : Color
  culling : Bool
  depthTest : CompareMode
  depthWrite : Bool
  font : Option Handle
  limits : GraphicsLimits
  lineWidth : CFloat
  pointSize : CFloat
  shader : Option Handle
  stencilEnabled : Bool
  stencilWriting : Bool
  stencilMode : CompareMode
  stencilValue : Int
  winding : Winding
  wireframe : Bool
  refs : Handle → Int
  nextHandle : Handle
  meshMaterial : Handle → Option Handle
  trace : List Call

/-- How `memcpy` behaves when source and destination overlap, which C leaves
undefined: every source byte is read before any is written (`snapshot`), or
the bytes are copied one after the other from the lowest address
(`ascending`). -/
inductive CopyOrder where
  | snapshot
  | ascending
deriving DecidableEq, Repr

/-- What `graphics.c` takes from outside `src/`: the two bounds `MAX_CANVASES`
and `MAX_LAYERS`, the behaviour of an overlapping `memcpy`, the matrix and
colour functions of the math library, the size of the window framebuffer, the
answer of the driver to `glCheckFramebufferStatus` for a list of colour
attachments, the functions `cos` and `sin` of the C library, `vec3_normalize`
of the math library, the rounding of a `float` difference that decides a
branch, and the limits the driver reports. -/
structure Platform where
  MAX_CANVASES : Int
  MAX_LAYERS : Int
  overlap : CopyOrder
  mat4_identity : Mat
  mat4_multiply : Mat → Mat → Mat
  mat4_translate : Mat → CFloat → CFloat → CFloat → Mat
  mat4_rotate : Mat → CFloat → CFloat → CFloat → CFloat → Mat
  mat4_scale : Mat → CFloat → CFloat → CFloat → Mat
  /-- The matrix `mat4_perspective(m, .01f, 100.f, 67 * M_PI / 180., (float) w / h)`
  writes for a `w` by `h` framebuffer. -/
  mat4_perspective : Int → Int → Mat
  lovrMathGammaToLinear : CFloat → CFloat
  framebufferWidth : Int
  framebufferHeight : Int
  glCheckFramebufferStatus : List Handle → FramebufferStatus
  cos : CFloat → CFloat
  sin : CFloat → CFloat
  vec3_normalize : Vec3 → Vec3
  /-- The `float` difference `a - b` of two `float` values: the difference
  rounded to `float`. -/
  floatSub : CFloat → CFloat → CFloat
  /-- The two floats `glGetFloatv` writes for the point size range. -/
  pointSizeRange : CFloat × CFloat
  /-- The value `glGetIntegerv(GL_MAX_TEXTURE_SIZE, ...)` writes. -/
  maxTextureSize : Int
  /-- The value `glGetIntegerv(GL_MAX_SAMPLES, ...)` writes. -/
  maxSamples : Int
  /-- The value `glGetFloatv(GL_MAX_TEXTURE_MAX_ANISOTROPY_EXT, ...)` writes. -/
  maxAnisotropy : CFloat
  /-- What `lovrTextureGetType` returns for a texture. -/
  lovrTextureGetType : Handle → TextureType
  /-- The field `pixelDensity` of the font a pointer names. -/
  fontPixelDensity : Option Handle → CFloat
  /-- The field `texture` of the font a pointer names. -/
  fontTexture : Option Handle → Option Handle
  /-- What `lovrFontRender(font, str, wrap, halign, valign, vertices, &offsety,
  &vertexCount)` does: the vertex storage it leaves, `offsety` and
  `vertexCount`. -/
  lovrFontRender : Option Handle → String → CFloat → HorizontalAlign → VerticalAlign →
    (Nat → CFloat) → (Nat → CFloat) × CFloat × Nat

/-- Appends a call to the trace. -/
def emit (c : Call) (s : GraphicsState) : GraphicsState :=
  { s with trace := s.trace ++ [c] }

/-- Modelled from the spec: `lovrRetain` of `util.h`, which is not part of
`src/`.  Objects are reference-counted; retaining adds one reference, and
retaining `NULL` does nothing. -/
def lovrRetain (o : Option Handle) (s : GraphicsState) : GraphicsState :=
  match o with
  | none => s
  | some h => { s with refs := Function.update s.refs h (s.refs h + 1) }

/-- Modelled from the spec: `lovrRelease` of `util.h`, which is not part of
`src/`.  Releasing drops one reference (the object is freed when none is
left), and releasing `NULL` does nothing. -/
def lovrRelease (o : Option Handle) (s : GraphicsState) : GraphicsState :=
  match o with
  | none => s
  | some h => { s with refs := Function.update s.refs h (s.refs h - 1) }

/-- Modelled from the spec: the constructors of other modules
(`lovrShaderCreateDefault`, `lovrMaterialCreate`, `lovrFontCreate`,
`lovrRasterizerCreate`), which are not part of `src/`.  Each returns a new
object, distinct from the ones created before, holding one reference. -/
def createObject (s : GraphicsState) : Handle × GraphicsState :=
  (s.nextHandle,
   { s with refs := Function.update s.refs s.nextHandle 1, nextHandle := s.nextHandle + 1 })

/-! ## Transforms -/

/-- Embeds `memcpy` of `n` consecutive elements from index `src` to index `dst`,
copying in ascending order. -/
def memcpyAscending {α : Type} (mem : Int → α) (dst src : Int) : Nat → (Int → α)
  | 0 => mem
  | n + 1 =>
    let m := memcpyAscending mem dst src n
    Function.update m (dst + n) (m (src + n))

/-- Embeds `memcpy` of `n` consecutive elements from index `src` to index `dst`,
reading the whole source first. -/
def memcpySnapshot {α : Type} (mem : Int → α) (dst src : Int) (n : Nat) : Int → α :=
  fun i => if dst ≤ i ∧ i < dst + n then mem (src + (i - dst)) else mem i

/-- Embeds `memcpy(&mem[dst], &mem[src], n * sizeof(mem[0]))`. -/
def memcpy {α : Type} (ord : CopyOrder) (mem : Int → α) (dst src : Int) (n : Nat) : Int → α :=
  match ord with
  | .snapshot => memcpySnapshot mem dst src n
  | .ascending => memcpyAscending mem dst src n

/-- Embeds `lovrGraphicsPush`.  The `memcpy` copies `2 * 16` floats, that is two rows
of `float transforms[MAX_TRANSFORMS][16]`: rows `transform - 1` and
`transform` onto rows `transform` and `transform + 1`.  When row
`transform + 1` is not a row of the array (the push at depth
`MAX_TRANSFORMS - 2`), the copy writes past the array and the behaviour is
undefined. -/
def lovrGraphicsPush (P : Platform) (s : GraphicsState) : Outcome GraphicsState :=
  let s := { s with transform := s.transform + 1 }
  if s.transform ≥ MAX_TRANSFORMS then
    .fatal .morePushesThanPops s
  else if s.transform + 1 ≥ MAX_TRANSFORMS then
    .undefined s
  else
    .done { s with transforms := memcpy P.overlap s.transforms s.transform (s.transform - 1) 2 }

/-- Embeds `lovrGraphicsPop`. -/
def lovrGraphicsPop (s : GraphicsState) : Outcome GraphicsState :=
  let s := { s with transform := s.transform - 1 }
  if s.transform < 0 then .fatal .morePopsThanPushes s else .done s

/-- Embeds `lovrGraphicsOrigin`. -/
def lovrGraphicsOrigin (P : Platform) (s : GraphicsState) : GraphicsState :=
  { s with transforms := Function.update s.transforms s.transform P.mat4_identity }

/-- Embeds `lovrGraphicsTranslate`. -/
def lovrGraphicsTranslate (P : Platform) (x y z : CFloat) (s : GraphicsState) : GraphicsState :=
  let m := P.mat4_translate (s.transforms s.transform) x y z
  { s with transforms := Function.update s.transforms s.transform m }

/-- Embeds `lovrGraphicsRotate`. -/
def lovrGraphicsRotate (P : Platform) (angle ax ay az : CFloat) (s : GraphicsState) :
    GraphicsState :=
  let m := P.mat4_rotate (s.transforms s.transform) angle ax ay az
  { s with transforms := Function.update s.transforms s.transform m }

/-- Embeds `lovrGraphicsScale`. -/
def lovrGraphicsScale (P : Platform) (x y z : CFloat) (s : GraphicsState) : GraphicsState :=
  let m := P.mat4_scale (s.transforms s.transform) x y z
  { s with transforms := Function.update s.transforms s.transform m }

/-- Embeds `lovrGraphicsMatrixTransform`. -/
def lovrGraphicsMatrixTransform (P : Platform) (transform : Mat) (s : GraphicsState) :
    GraphicsState :=
  let m := P.mat4_multiply (s.transforms s.transform) transform
  { s with transforms := Function.update s.transforms s.transform m }

/-- A call of the transform stack's push or pop. -/
inductive StackCall where
  | push
  | pop
deriving DecidableEq, Repr

/-- Runs one call of `lovrGraphicsPush` or `lovrGraphicsPop`. -/
def StackCall.run (P : Platform) (c : StackCall) (s : GraphicsState) : Outcome GraphicsState :=
  match c with
  | .push => lovrGraphicsPush P s
  | .pop => lovrGraphicsPop s

/-- Runs a sequence of push and pop calls in order; a call that does not
return ends the sequence. -/
def runStackCalls (P : Platform) : List StackCall → GraphicsState → Outcome GraphicsState
  | [], s => .done s
  | c :: cs, s => (c.run P s).andThen (runStackCalls P cs)

/-! ## State setters and getters -/

/-- Embeds `gammaCorrectColor`, returning the colour it leaves in `*color`. -/
def gammaCorrectColor (P : Platform) (s : GraphicsState) (color : Color) : Color :=
  if s.gammaCorrect then
    { r := P.lovrMathGammaToLinear color.r
      g := P.lovrMathGammaToLinear color.g
      b := P.lovrMathGammaToLinear color.b
      a := color.a }
  else color

/-- Embeds `lovrGraphicsGetBackgroundColor`. -/
def lovrGraphicsGetBackgroundColor (s : GraphicsState) : Color :=
  s.backgroundColor

/-- Embeds `lovrGraphicsSetBackgroundColor`. -/
def lovrGraphicsSetBackgroundColor (P : Platform) (color : Color) (s : GraphicsState) :
    GraphicsState :=
  let s := { s with backgroundColor := color }
  let color := gammaCorrectColor P s color
  emit (.glClearColor color.r color.g color.b color.a) s

/-- Embeds `lovrGraphicsGetBlendMode`: the values written to `*mode` and `*alphaMode`. -/
def lovrGraphicsGetBlendMode (s : GraphicsState) : BlendMode × BlendAlphaMode :=
  (s.blendMode, s.blendAlphaMode)

/-- The value of the local `srcRGB` of `lovrGraphicsSetBlendMode` when the
`switch` is entered. -/
def blendSrcRGB (mode : BlendMode) (alphaMode : BlendAlphaMode) : GLenum :=
  let srcRGB := if mode = .BLEND_MULTIPLY then GLenum.GL_DST_COLOR else GLenum.GL_ONE
  if srcRGB = .GL_ONE ∧ alphaMode = .BLEND_ALPHA_MULTIPLY then .GL_SRC_ALPHA else srcRGB

/-- Embeds `lovrGraphicsSetBlendMode`. -/
def lovrGraphicsSetBlendMode (mode : BlendMode) (alphaMode : BlendAlphaMode)
    (s : GraphicsState) : GraphicsState :=
  let srcRGB := blendSrcRGB mode alphaMode
  match mode with
  | .BLEND_ALPHA =>
    emit (.glBlendFuncSeparate srcRGB .GL_ONE_MINUS_SRC_ALPHA .GL_ONE .GL_ONE_MINUS_SRC_ALPHA)
      (emit (.glBlendEquation .GL_FUNC_ADD) s)
  | .BLEND_ADD =>
    emit (.glBlendFuncSeparate srcRGB .GL_ONE .GL_ZERO .GL_ONE)
      (emit (.glBlendEquation .GL_FUNC_ADD) s)
  | .BLEND_SUBTRACT =>
    emit (.glBlendFuncSeparate srcRGB .GL_ONE .GL_ZERO .GL_ONE)
      (emit (.glBlendEquation .GL_FUNC_REVERSE_SUBTRACT) s)
  | .BLEND_MULTIPLY =>
    emit (.glBlendFuncSeparate srcRGB .GL_ZERO .GL_DST_COLOR .GL_ZERO)
      (emit (.glBlendEquation .GL_FUNC_ADD) s)
  | .BLEND_LIGHTEN =>
    emit (.glBlendFuncSeparate srcRGB .GL_ZERO .GL_ONE .GL_ZERO)
      (emit (.glBlendEquation .GL_MAX) s)
  | .BLEND_DARKEN =>
    emit (.glBlendFuncSeparate srcRGB .GL_ZERO .GL_ONE .GL_ZERO)
      (emit (.glBlendEquation .GL_MIN) s)
  | .BLEND_SCREEN =>
    emit (.glBlendFuncSeparate srcRGB .GL_ONE_MINUS_SRC_COLOR .GL_ONE .GL_ONE_MINUS_SRC_COLOR)
      (emit (.glBlendEquation .GL_FUNC_ADD) s)
  | .BLEND_REPLACE =>
    emit (.glBlendFuncSeparate srcRGB .GL_ZERO .GL_ONE .GL_ZERO)
      (emit (.glBlendEquation .GL_FUNC_ADD) s)

/-- Embeds `lovrGraphicsGetColor`. -/
def lovrGraphicsGetColor (s : GraphicsState) : Color :=
  s.color

/-- Embeds `lovrGraphicsSetColor`. -/
def lovrGraphicsSetColor (color : Color) (s : GraphicsState) : GraphicsState :=
  { s with color := color }

/-- Embeds `lovrGraphicsIsCullingEnabled`. -/
def lovrGraphicsIsCullingEnabled (s : GraphicsState) : Bool :=
  s.culling

/-- Embeds `lovrGraphicsSetCullingEnabled`. -/
def lovrGraphicsSetCullingEnabled (culling : Bool) (s : GraphicsState) : GraphicsState :=
  if culling ≠ s.culling then
    let s := { s with culling := culling }
    if culling then emit (.glEnable .GL_CULL_FACE) s else emit (.glDisable .GL_CULL_FACE) s
  else s

/-- Embeds `lovrGraphicsGetDefaultFilter`. -/
def lovrGraphicsGetDefaultFilter (s : GraphicsState) : TextureFilter :=
  s.defaultFilter

/-- Embeds `lovrGraphicsSetDefaultFilter`. -/
def lovrGraphicsSetDefaultFilter (filter : TextureFilter) (s : GraphicsState) : GraphicsState :=
  { s with defaultFilter := filter }

/-- Embeds `convertCompareMode`. -/
def convertCompareMode : CompareMode → GLenum
  | .COMPARE_NONE => .GL_ALWAYS
  | .COMPARE_EQUAL => .GL_EQUAL
  | .COMPARE_NEQUAL => .GL_NOTEQUAL
  | .COMPARE_LESS => .GL_LESS
  | .COMPARE_LEQUAL => .GL_LEQUAL
  | .COMPARE_GREATER => .GL_GREATER
  | .COMPARE_GEQUAL => .GL_GEQUAL

/-- Embeds `lovrGraphicsGetDepthTest`: the values written to `*mode` and `*write`. -/
def lovrGraphicsGetDepthTest (s : GraphicsState) : CompareMode × Bool :=
  (s.depthTest, s.depthWrite)

/-- Embeds `lovrGraphicsSetDepthTest`. -/
def lovrGraphicsSetDepthTest (mode : CompareMode) (write : Bool) (s : GraphicsState) :
    GraphicsState :=
  let s :=
    if s.depthTest ≠ mode then
      let s := { s with depthTest := mode }
      if mode ≠ .COMPARE_NONE then
        emit (.glEnable .GL_DEPTH_TEST) (emit (.glDepthFunc (convertCompareMode mode)) s)
      else emit (.glDisable .GL_DEPTH_TEST) s
    else s
  if s.depthWrite ≠ write then
    emit (.glDepthMask write) { s with depthWrite := write }
  else s

/-- Embeds `lovrGraphicsSetFont`. -/
def lovrGraphicsSetFont (font : Option Handle) (s : GraphicsState) : GraphicsState :=
  let s := lovrRetain font s
  let s := lovrRelease s.font s
  { s with font := font }

/-- Embeds `lovrGraphicsIsGammaCorrect`. -/
def lovrGraphicsIsGammaCorrect (s : GraphicsState) : Bool :=
  s.gammaCorrect

/-- Embeds `lovrGraphicsSetGammaCorrect`. -/
def lovrGraphicsSetGammaCorrect (gammaCorrect : Bool) (s : GraphicsState) : GraphicsState :=
  { s with gammaCorrect := gammaCorrect }

/-- Embeds `lovrGraphicsGetLineWidth`. -/
def lovrGraphicsGetLineWidth (s : GraphicsState) : CFloat :=
  s.lineWidth

/-- Embeds `lovrGraphicsSetLineWidth`. -/
def lovrGraphicsSetLineWidth (width : CFloat) (s : GraphicsState) : GraphicsState :=
  emit (.glLineWidth width) { s with lineWidth := width }

/-- Embeds `lovrGraphicsGetPointSize`. -/
def lovrGraphicsGetPointSize (s : GraphicsState) : CFloat :=
  s.pointSize

/-- Embeds `lovrGraphicsSetPointSize`. -/
def lovrGraphicsSetPointSize (size : CFloat) (s : GraphicsState) : GraphicsState :=
  { s with pointSize := size }

/-- Embeds `lovrGraphicsGetShader`. -/
def lovrGraphicsGetShader (s : GraphicsState) : Option Handle :=
  s.shader

/-- Embeds `lovrGraphicsSetShader`. -/
def lovrGraphicsSetShader (shader : Option Handle) (s : GraphicsState) : GraphicsState :=
  if shader ≠ s.shader then
    let s := lovrRetain shader s
    let s := lovrRelease s.shader s
    { s with shader := shader }
  else s

/-- Embeds `lovrGraphicsGetStencilTest`: the values written to `*mode` and `*value`. -/
def lovrGraphicsGetStencilTest (s : GraphicsState) : CompareMode × Int :=
  (s.stencilMode, s.stencilValue)

/-- The value of the local `glMode` of `lovrGraphicsSetStencilTest` after its
`switch`. -/
def stencilGlMode : CompareMode → GLenum
  | .COMPARE_EQUAL => .GL_EQUAL
  | .COMPARE_NEQUAL => .GL_NOTEQUAL
  | .COMPARE_LESS => .GL_GREATER
  | .COMPARE_LEQUAL => .GL_GEQUAL
  | .COMPARE_GREATER => .GL_LESS
  | .COMPARE_GEQUAL => .GL_LEQUAL
  | .COMPARE_NONE => .GL_ALWAYS

/-- Embeds `lovrGraphicsSetStencilTest`. -/
def lovrGraphicsSetStencilTest (mode : CompareMode) (value : Int) (s : GraphicsState) :
    GraphicsState :=
  let s := { s with stencilMode := mode, stencilValue := value }
  if s.stencilWriting then s
  else if mode ≠ .COMPARE_NONE then
    let s :=
      if ¬ s.stencilEnabled then
        { emit (.glEnable .GL_STENCIL_TEST) s with stencilEnabled := true }
      else s
    emit (.glStencilOp .GL_KEEP .GL_KEEP .GL_KEEP)
      (emit (.glStencilFunc (stencilGlMode mode) value 255) s)
  else if s.stencilEnabled then
    { emit (.glDisable .GL_STENCIL_TEST) s with stencilEnabled := false }
  else s

/-- Embeds `lovrGraphicsGetWinding`. -/
def lovrGraphicsGetWinding (s : GraphicsState) : Winding :=
  s.winding

/-- Embeds `lovrGraphicsSetWinding`. -/
def lovrGraphicsSetWinding (winding : Winding) (s : GraphicsState) : GraphicsState :=
  if winding ≠ s.winding then
    let s := { s with winding := winding }
    let glWinding := if winding = .WINDING_CLOCKWISE then GLenum.GL_CW else GLenum.GL_CCW
    emit (.glFrontFace glWinding) s
  else s

/-- Embeds `lovrGraphicsIsWireframe`. -/
def lovrGraphicsIsWireframe (s : GraphicsState) : Bool :=
  s.wireframe

/-- Embeds `lovrGraphicsSetWireframe`, in a build without `EMSCRIPTEN`. -/
def lovrGraphicsSetWireframe (wireframe : Bool) (s : GraphicsState) : GraphicsState :=
  if s.wireframe ≠ wireframe then
    let s := { s with wireframe := wireframe }
    emit (.glPolygonMode .GL_FRONT_AND_BACK (if wireframe then .GL_LINE else .GL_FILL)) s
  else s

/-! ## The layer stack -/

/-- The entries `a[0]`, ..., `a[n - 1]` of an array. -/
def firstEntries (a : Nat → Handle) (n : Nat) : List Handle :=
  (List.range n).map a

/-- The loop `for (i = 0; i < count; i++) lovrRetain(canvas[i])`, over the
entries it visits. -/
def retainEach (cs : List Handle) (s : GraphicsState) : GraphicsState :=
  cs.foldl (fun s c => lovrRetain (some c) s) s

/-- The loop `for (i = 0; i < count; i++) lovrRelease(canvas[i])`, over the
entries it visits. -/
def releaseEach (cs : List Handle) (s : GraphicsState) : GraphicsState :=
  cs.foldl (fun s c => lovrRelease (some c) s) s

/-- The loop of `lovrGraphicsPushLayer` that attaches `canvas[i]` to colour
attachment `i`, for `i` from `start` and `n` iterations. -/
def attachEach (canvas : Nat → Handle) (start : Nat) : Nat → GraphicsState → GraphicsState
  | 0, s => s
  | n + 1, s => attachEach canvas (start + 1) n (emit (.glFramebufferTexture2D start (canvas start)) s)

/-- Embeds `lovrGraphicsPushLayer`. -/
def lovrGraphicsPushLayer (P : Platform) (canvas : Nat → Handle) (count : Int) (user : Bool)
    (s : GraphicsState) : Outcome GraphicsState :=
  if ¬ count ≤ P.MAX_CANVASES then .fatal .tooManyCanvases s
  else
    let s := { s with layer := s.layer + 1 }
    if ¬ s.layer < P.MAX_LAYERS then .fatal .layerOverflow s
    else
      let s := retainEach (firstEntries canvas count.toNat) s
      let prevLayer := s.layers (s.layer - 1)
      let s := releaseEach (firstEntries prevLayer.canvas prevLayer.canvasCount.toNat) s
      let layer : Layer := { prevLayer with canvasCount := count, user := user }
      let s := { s with layers := Function.update s.layers s.layer layer }
      if count > 0 then
        let layer : Layer :=
          { layer with canvas := fun i => if i < count.toNat then canvas i else layer.canvas i }
        let s := { s with layers := Function.update s.layers s.layer layer }
        let s := emit (.gpuBindFramebuffer (some (canvas 0))) s
        let s := attachEach canvas 0 count.toNat s
        let s := emit (.glDrawBuffers count) s
        let s := emit .glCheckFramebufferStatus s
        let status := P.glCheckFramebufferStatus (firstEntries canvas count.toNat)
        if ¬ status ≠ .GL_FRAMEBUFFER_INCOMPLETE_DIMENSIONS then .fatal .canvasDimensions s
        else if ¬ status = .GL_FRAMEBUFFER_COMPLETE then .fatal .unableToBindFramebuffer s
        else .done s
      else .done s

/-- Embeds `lovrGraphicsPopLayer`. -/
def lovrGraphicsPopLayer (s : GraphicsState) : Outcome GraphicsState :=
  let layer := s.layers s.layer
  let s := if layer.canvasCount > 0 then emit (.lovrCanvasResolve (layer.canvas 0)) s else s
  let s := { s with layer := s.layer - 1 }
  if ¬ s.layer ≥ 0 then .fatal .layerUnderflow s else .done s

/-- Embeds `lovrGraphicsGetCanvas`: the canvases copied to `canvas` and the value
written to `*count`. -/
def lovrGraphicsGetCanvas (s : GraphicsState) : List Handle × Int :=
  let layer := s.layers s.layer
  if layer.user then (firstEntries layer.canvas layer.canvasCount.toNat, layer.canvasCount)
  else ([], 0)

/-- Embeds `lovrGraphicsSetCanvas`. -/
def lovrGraphicsSetCanvas (P : Platform) (canvas : Nat → Handle) (count : Int)
    (s : GraphicsState) : Outcome GraphicsState :=
  (if (s.layers s.layer).user then lovrGraphicsPopLayer s else .done s).andThen
    (lovrGraphicsPushLayer P canvas count true)

/-- Embeds `lovrGraphicsSetCamera`. -/
def lovrGraphicsSetCamera (projection view : Mat) (s : GraphicsState) : GraphicsState :=
  let layer : Layer := { s.layers s.layer with projection := projection, view := view }
  { s with layers := Function.update s.layers s.layer layer }

/-- The four entries of a viewport array. -/
def viewportOf (x y width height : Nat) : Fin 4 → Nat :=
  fun i => if i = 0 then x else if i = 1 then y else if i = 2 then width else height

/-- Embeds `lovrGraphicsSetViewport`. -/
def lovrGraphicsSetViewport (x y width height : Nat) (s : GraphicsState) : GraphicsState :=
  let layer : Layer := { s.layers s.layer with viewport := viewportOf x y width height }
  { s with layers := Function.update s.layers s.layer layer }

/-- Embeds `lovrGraphicsReset`.  The `memcpy` into the viewport reinterprets the
`int` values as `uint32_t`. -/
def lovrGraphicsReset (P : Platform) (s : GraphicsState) : Outcome GraphicsState :=
  let w := P.framebufferWidth
  let h := P.framebufferHeight
  let s := { s with transform := 0 }
  let s := { s with layer := 0 }
  let layer : Layer :=
    { s.layers s.layer with
      viewport := viewportOf 0 0 (w % 2 ^ 32).toNat (h % 2 ^ 32).toNat
      projection := P.mat4_perspective w h
      view := P.mat4_identity }
  let s := { s with layers := Function.update s.layers s.layer layer }
  let s := lovrGraphicsSetBackgroundColor P { r := 0, g := 0, b := 0, a := 1 } s
  let s := lovrGraphicsSetBlendMode .BLEND_ALPHA .BLEND_ALPHA_MULTIPLY s
  (lovrGraphicsSetCanvas P (fun _ => 0) 0 s).andThen fun s =>
    let s := lovrGraphicsSetColor { r := 1, g := 1, b := 1, a := 1 } s
    let s := lovrGraphicsSetCullingEnabled false s
    let s := lovrGraphicsSetDefaultFilter { mode := .FILTER_TRILINEAR, anisotropy := 0 } s
    let s := lovrGraphicsSetDepthTest .COMPARE_LEQUAL true s
    let s := lovrGraphicsSetFont none s
    let s := lovrGraphicsSetLineWidth 1 s
    let s := lovrGraphicsSetPointSize 1 s
    let s := lovrGraphicsSetShader none s
    let s := lovrGraphicsSetStencilTest .COMPARE_NONE 0 s
    let s := lovrGraphicsSetWinding .WINDING_COUNTERCLOCKWISE s
    let s := lovrGraphicsSetWireframe false s
    .done (lovrGraphicsOrigin P s)

/-! ## Draw submission -/

/-- Conversion of an `int` value to `uint32_t`. -/
def toUInt32 (n : Int) : Nat :=
  (n % 2 ^ 32).toNat

/-- Conversion of a value to `int` (two's complement, 32 bits). -/
def toInt32 (n : Int) : Int :=
  (n + 2 ^ 31) % 2 ^ 32 - 2 ^ 31

/-- Modelled from the spec: `lovrMeshResize` of `graphics/mesh.h`, which is not
part of `src/`.  It ensures capacity for at least `count` vertices, growing and
never shrinking the allocation. -/
def lovrMeshResize (m : Mesh) (count : Nat) : Mesh :=
  { m with count := max m.count count }

/-- Modelled from the spec: `lovrMeshWriteIndices` of `graphics/mesh.h`, which
is not part of `src/`.  It sets the number and the size of the indices (a
count of 0 leaves the mesh non-indexed) and returns a view of the index
storage positioned at its start. -/
def lovrMeshWriteIndices (m : Mesh) (count size : Nat) : Mesh :=
  { m with indexCount := count, indexSize := size }

/-- Modelled from the spec: `lovrMeshSetDrawMode` of `graphics/mesh.h`, which
is not part of `src/`. -/
def lovrMeshSetDrawMode (m : Mesh) (mode : MeshDrawMode) : Mesh :=
  { m with drawMode := mode }

/-- Modelled from the spec: `lovrMeshSetDrawRange` of `graphics/mesh.h`, which
is not part of `src/`. -/
def lovrMeshSetDrawRange (m : Mesh) (start count : Int) : Mesh :=
  { m with rangeStart := start, rangeCount := count }

/-- Embeds `lovrGraphicsGetVertexPointer`.  The pointer it returns is the start of
the vertex storage of the dynamic mesh, `s.mesh.vertices` from index 0. -/
def lovrGraphicsGetVertexPointer (count : Nat) (s : GraphicsState) : GraphicsState :=
  { s with mesh := lovrMeshResize s.mesh count }

/-- Embeds `memcpy(dst, src, n * sizeof(*dst))` between two distinct arrays. -/
def copyInto {α : Type} (dst src : Nat → α) (n : Nat) : Nat → α :=
  fun i => if i < n then src i else dst i

/-- Embeds `lovrGraphicsGetDefaultMaterial`. -/
def lovrGraphicsGetDefaultMaterial (s : GraphicsState) : Handle × GraphicsState :=
  match s.defaultMaterial with
  | some m => (m, s)
  | none =>
    let (m, s) := createObject s
    (m, { s with defaultMaterial := some m })

/-- The shader resolution of `lovrGraphicsDraw`: the bound shader, else the
default shader of the selector, created and cached when there is none yet. -/
def resolveShader (selector : DefaultShader) (s : GraphicsState) : Handle × GraphicsState :=
  let shader := match s.shader with
    | some h => some h
    | none => s.defaultShaders selector
  match shader with
  | some h => (h, s)
  | none =>
    let (h, s) := createObject s
    (h, { s with defaultShaders := Function.update s.defaultShaders selector (some h) })

/-- The mesh resolution of `lovrGraphicsDraw`: an explicit mesh is used as it
is; otherwise the dynamic mesh gets the draw mode and range of the request and
the inline vertex and index data.

The counts `vertex.count` and `index.count` are `uint32_t`: they are read
modulo `2 ^ 32`.  The conditional that selects `drawCount` has the type
`unsigned int` and is converted to `int`.  The product `vertex.count * 8` is
taken in `uint32_t`, so it wraps at `2 ^ 32`, before the multiplication by
`sizeof(float)` in `size_t`; `size_t` has 64 bits, so that the byte counts of
the two copies do not wrap again, and the first copy moves
`vertex.count * 8 mod 2 ^ 32` floats. -/
def resolveMesh (draw : GraphicsDraw) (s : GraphicsState) : MeshRef × GraphicsState :=
  match draw.mesh with
  | some h => (.explicit h, s)
  | none =>
    let vertexCount : Nat := draw.vertexCount % 2 ^ 32
    let indexCount : Nat := draw.indexCount % 2 ^ 32
    let drawCount : Int :=
      toInt32 (if draw.rangeCount ≠ 0 then (toUInt32 draw.rangeCount : Int)
        else if indexCount ≠ 0 then (indexCount : Int) else (vertexCount : Int))
    let s := { s with mesh := lovrMeshSetDrawMode s.mesh draw.mode }
    let s := { s with mesh := lovrMeshSetDrawRange s.mesh draw.rangeStart drawCount }
    if vertexCount ≠ 0 then
      let s := lovrGraphicsGetVertexPointer vertexCount s
      let s := { s with mesh :=
        { s.mesh with
          vertices := copyInto s.mesh.vertices draw.vertexData (vertexCount * 8 % 2 ^ 32) } }
      if indexCount ≠ 0 then
        let s := { s with mesh := lovrMeshWriteIndices s.mesh indexCount 2 }
        let s := { s with mesh :=
          { s.mesh with indices := copyInto s.mesh.indices draw.indexData indexCount } }
        (.dynamic, s)
      else (.dynamic, { s with mesh := lovrMeshWriteIndices s.mesh 0 0 })
    else (.dynamic, s)

/-- Embeds `lovrMeshGetMaterial` on the mesh of a draw. -/
def lovrMeshGetMaterial (mesh : MeshRef) (s : GraphicsState) : Option Handle :=
  match mesh with
  | .dynamic => s.mesh.material
  | .explicit h => s.meshMaterial h

/-- The material resolution of `lovrGraphicsDraw`. -/
def resolveMaterial (draw : GraphicsDraw) (mesh : MeshRef) (s : GraphicsState) :
    Handle × GraphicsState :=
  let material := match draw.material with
    | some m => some m
    | none => lovrMeshGetMaterial mesh s
  match material with
  | some m => (m, s)
  | none => lovrGraphicsGetDefaultMaterial s

/-- Embeds `lovrGraphicsDraw`. -/
def lovrGraphicsDraw (P : Platform) (draw : GraphicsDraw) (s : GraphicsState) :
    Outcome GraphicsState :=
  (match draw.transform with
    | some transform =>
      (lovrGraphicsPush P s).andThen fun s => .done (lovrGraphicsMatrixTransform P transform s)
    | none => .done s).andThen fun s =>
  let (shader, s) := resolveShader draw.shader s
  let (mesh, s) := resolveMesh draw s
  let (material, s) := resolveMaterial draw mesh s
  let s := emit (.gpuDraw
    { layer := s.layers s.layer
      shader := shader
      material := material
      transform := s.transforms s.transform
      mesh := mesh
      color := s.color
      pointSize := s.pointSize
      instances := draw.instances }) s
  match draw.transform with
  | some _ => lovrGraphicsPop s
  | none => .done s

/-- The draw commands among a list of calls, oldest first. -/
def gpuDrawCommands : List Call → List GpuDrawCommand
  | [] => []
  | .gpuDraw c :: cs => c :: gpuDrawCommands cs
  | _ :: cs => gpuDrawCommands cs

/-- The number of multisample resolves of canvas `c` among a list of calls. -/
def resolveCount (c : Handle) : List Call → Nat
  | [] => 0
  | .lovrCanvasResolve c' :: cs => (if c' = c then 1 else 0) + resolveCount c cs
  | _ :: cs => resolveCount c cs

/-- Whether a call is one of the blend state transitions `glBlendEquation`
and `glBlendFuncSeparate`. -/
def Call.isBlendCall : Call → Bool
  | .glBlendEquation _ => true
  | .glBlendFuncSeparate _ _ _ _ => true
  | _ => false

/-! ## Concrete states -/

/-- The all-zero layer. -/
def zeroLayer : Layer :=
  { canvas := fun _ => 0
    canvasCount := 0
    user := false
    viewport := fun _ => 0
    projection := fun _ => 0
    view := fun _ => 0 }

/-- The `static GraphicsState state` as the C runtime initialises it, every
field zero, with the dynamic mesh as `lovrMeshCreate(64, format, MESH_TRIANGLES,
MESH_STREAM)` leaves it; no object is referenced and no call has been issued. -/
def zeroState : GraphicsState :=
  { initialized := false
    gammaCorrect := false
    defaultShaders := fun _ => none
    defaultMaterial := none
    defaultFont := none
    mesh :=
      { drawMode := .MESH_TRIANGLES
        rangeStart := 0
        rangeCount := 0
        count := 64
        vertices := fun _ => 0
        indexCount := 0
        indexSize := 0
        indices := fun _ => 0
        material := none }
    defaultFilter := { mode := .FILTER_NEAREST, anisotropy := 0 }
    transforms := fun _ _ => 0
    transform := 0
    layers := fun _ => zeroLayer
    layer := 0
    backgroundColor := { r := 0, g := 0, b := 0, a := 0 }
    blendMode := .BLEND_ALPHA
    blendAlphaMode := .BLEND_ALPHA_MULTIPLY
    color := { r := 0, g := 0, b := 0, a := 0 }
    culling := false
    depthTest := .COMPARE_NONE
    depthWrite := false
    font := none
    limits :=
      { initialized := false
        pointSizes := (0, 0)
        textureSize := 0
        textureMSAA := 0
        textureAnisotropy := 0 }
    lineWidth := 0
    pointSize := 0
    shader := none
    stencilEnabled := false
    stencilWriting := false
    stencilMode := .COMPARE_NONE
    stencilValue := 0
    winding := .WINDING_CLOCKWISE
    wireframe := false
    refs := fun _ => 0
    nextHandle := 1
    meshMaterial := fun _ => none
    trace := [] }

/-- The 4 by 4 identity, column-major. -/
def identityMat : Mat :=
  fun i => if i.val % 5 = 0 then 1 else 0

/-- Entry `k` of a matrix, 0 beyond the sixteen entries. -/
def Mat.entry (m : Mat) (k : Nat) : CFloat :=
  if h : k < 16 then m ⟨k, h⟩ else 0

/-- The product of two column-major 4 by 4 matrices in exact arithmetic. -/
def sampleMultiply (m n : Mat) : Mat :=
  fun i =>
    m.entry (i.val % 4) * n.entry (i.val / 4 * 4)
      + m.entry (4 + i.val % 4) * n.entry (i.val / 4 * 4 + 1)
      + m.entry (8 + i.val % 4) * n.entry (i.val / 4 * 4 + 2)
      + m.entry (12 + i.val % 4) * n.entry (i.val / 4 * 4 + 3)

/-- A column-major 4 by 4 matrix with its first three columns scaled by `x`,
`y` and `z`: the matrix times the scaling, in exact arithmetic. -/
def sampleScale (m : Mat) (x y z : CFloat) : Mat :=
  fun i =>
    if i.val / 4 = 0 then m i * x
    else if i.val / 4 = 1 then m i * y
    else if i.val / 4 = 2 then m i * z
    else m i

/-- A column-major 4 by 4 matrix times the translation by `(x, y, z)`, in
exact arithmetic. -/
def sampleTranslate (m : Mat) (x y z : CFloat) : Mat :=
  fun i =>
    if i.val / 4 = 3 then
      m.entry (i.val % 4) * x + m.entry (4 + i.val % 4) * y + m.entry (8 + i.val % 4) * z + m i
    else m i

/-- A platform for evaluating the operations on concrete inputs: the bounds
`MAX_CANVASES = 4` and `MAX_LAYERS = 4`, a driver that finds every framebuffer
complete, an 800 by 600 window, the matrix product, scaling and translation
in exact arithmetic, a `float` difference without rounding error, and
stand-ins for the functions that need trigonometry, roots or powers (rotation,
perspective, gamma, `cos`, `sin`, normalisation). -/
def samplePlatform : Platform :=
  { MAX_CANVASES := 4
    MAX_LAYERS := 4
    overlap := .snapshot
    mat4_identity := identityMat
    mat4_multiply := sampleMultiply
    mat4_translate := sampleTranslate
    mat4_rotate := fun m _ _ _ _ => m
    mat4_scale := sampleScale
    mat4_perspective := fun _ _ => identityMat
    lovrMathGammaToLinear := fun x => x * x
    framebufferWidth := 800
    framebufferHeight := 600
    glCheckFramebufferStatus := fun _ => .GL_FRAMEBUFFER_COMPLETE
    cos := fun t => 1 - t * t / 2
    sin := fun t => t
    vec3_normalize := fun v => v
    floatSub := fun a b => a - b
    pointSizeRange := (1, 64)
    maxTextureSize := 4096
    maxSamples := 4
    maxAnisotropy := 16
    lovrTextureGetType := fun texture =>
      if texture = 20 then .TEXTURE_2D else if texture = 21 then .TEXTURE_CUBE
      else .TEXTURE_ARRAY
    fontPixelDensity := fun _ => 32
    fontTexture := fun _ => some 30
    lovrFontRender := fun _ str _ _ _ vertices => (vertices, 0, str.length * 6) }

/-- The state reached from `s` by `lovrGraphicsOrigin`, two pushes, a scale by
2 and two pops: depth 0 again, with the scaled matrix left in slot 2. -/
def afterNestedScale (P : Platform) (s : GraphicsState) : GraphicsState :=
  (((((lovrGraphicsPush P (lovrGraphicsOrigin P s)).andThen (lovrGraphicsPush P)).andThen
    fun s => .done (lovrGraphicsScale P 2 2 2 s)).andThen lovrGraphicsPop).andThen
      lovrGraphicsPop).state

/-- The canvas array whose entries all are the canvas `c`; with a count of 1
it is the one-canvas array `{ c }`. -/
def singleCanvas (c : Handle) : Nat → Handle :=
  fun _ => c

/-- The state after `lovrGraphicsReset` on the zero state. -/
def resetState : GraphicsState :=
  (lovrGraphicsReset samplePlatform zeroState).state

/-- The post-reset state after `MAX_TRANSFORMS - 2` calls of `lovrGraphicsPush`. -/
def deepState : GraphicsState :=
  (runStackCalls samplePlatform (List.replicate 62 .push) resetState).state

/-- The post-reset state after `lovrGraphicsSetCanvas` with the one canvas 7. -/
def canvasSetState : GraphicsState :=
  (lovrGraphicsSetCanvas samplePlatform (singleCanvas 7) 1 resetState).state

/-- Runs `lovrGraphicsSetCanvas` calls in order, each with its canvas array and
count; a call that throws ends the sequence. -/
def runSetCanvas (P : Platform) :
    List ((Nat → Handle) × Int) → GraphicsState → Outcome GraphicsState
  | [], s => .done s
  | (canvas, count) :: cs, s =>
    (lovrGraphicsSetCanvas P canvas count s).andThen (runSetCanvas P cs)

/-- The calls issued between the state `before` and the later state `after`. -/
def callsSince (before after : GraphicsState) : List Call :=
  after.trace.drop before.trace.length

/-- A request as `lovrGraphicsTriangle` builds it in fill mode: mode
`MESH_TRIANGLES` and three inline vertices; mesh, material, transform and
instance count are left unspecified. -/
def triangleRequest : GraphicsDraw :=
  { mode := .MESH_TRIANGLES
    vertexCount := 3
    vertexData := fun i => (i : CFloat) }

/-! ## Lazily filled state -/

/-- Embeds `lovrGraphicsGetFont`: the font it returns and the state it leaves.
The rasterizer and the font it creates when there is no default font yet are
new objects (see `createObject`). -/
def lovrGraphicsGetFont (s : GraphicsState) : Option Handle × GraphicsState :=
  if s.font = none then
    let s :=
      if s.defaultFont = none then
        let (rasterizer, s) := createObject s
        let (font, s) := createObject s
        let s := { s with defaultFont := some font }
        lovrRelease (some rasterizer) s
      else s
    let s := lovrGraphicsSetFont s.defaultFont s
    (s.font, s)
  else (s.font, s)

/-- Embeds `lovrGraphicsGetLimits`, in a build without `EMSCRIPTEN`: the
limits it returns and the state it leaves. -/
def lovrGraphicsGetLimits (P : Platform) (s : GraphicsState) : GraphicsLimits × GraphicsState :=
  if ¬ s.limits.initialized = true then
    let s := emit (.glGetFloatv .GL_POINT_SIZE_RANGE) s
    let s := { s with limits := { s.limits with pointSizes := P.pointSizeRange } }
    let s := emit (.glGetIntegerv .GL_MAX_TEXTURE_SIZE) s
    let s := { s with limits := { s.limits with textureSize := P.maxTextureSize } }
    let s := emit (.glGetIntegerv .GL_MAX_SAMPLES) s
    let s := { s with limits := { s.limits with textureMSAA := P.maxSamples } }
    let s := emit (.glGetFloatv .GL_MAX_TEXTURE_MAX_ANISOTROPY_EXT) s
    let s := { s with limits := { s.limits with textureAnisotropy := P.maxAnisotropy } }
    let s := { s with limits := { s.limits with initialized := true } }
    (s.limits, s)
  else (s.limits, s)

/-- The state getters of `graphics.c`. -/
inductive Getter where
  | GetBackgroundColor
  | GetBlendMode
  | GetCanvas
  | GetColor
  | IsCullingEnabled
  | GetDefaultFilter
  | GetDepthTest
  | GetFont
  | IsGammaCorrect
  | GetLimits
  | GetLineWidth
  | GetPointSize
  | GetShader
  | GetStencilTest
  | GetWinding
  | IsWireframe
deriving DecidableEq, Repr

/-- What a state getter hands to its caller, as its result or through its
pointer parameters. -/
inductive GetterValue where
  | color (c : Color)
  | blendMode (mode : BlendMode) (alphaMode : BlendAlphaMode)
  | canvas (canvas : List Handle) (count : Int)
  | flag (b : Bool)
  | filter (f : TextureFilter)
  | depthTest (mode : CompareMode) (write : Bool)
  | object (o : Option Handle)
  | limits (l : GraphicsLimits)
  | number (x : CFloat)
  | stencilTest (mode : CompareMode) (value : Int)
  | winding (w : Winding)

/-- A call of a state getter: what it hands to its caller and the state it
leaves.  The body of each getter other than `lovrGraphicsGetFont` and
`lovrGraphicsGetLimits` is a `return` of a field of `state`, or copies fields
of `state` to the locations its parameters point to; it assigns no field of
`state` and calls no function of the module, so that it leaves the state it
was called in. -/
def Getter.call (P : Platform) : Getter → GraphicsState → GetterValue × GraphicsState
  | .GetBackgroundColor, s => (.color (lovrGraphicsGetBackgroundColor s), s)
  | .GetBlendMode, s =>
    (.blendMode (lovrGraphicsGetBlendMode s).1 (lovrGraphicsGetBlendMode s).2, s)
  | .GetCanvas, s => (.canvas (lovrGraphicsGetCanvas s).1 (lovrGraphicsGetCanvas s).2, s)
  | .GetColor, s => (.color (lovrGraphicsGetColor s), s)
  | .IsCullingEnabled, s => (.flag (lovrGraphicsIsCullingEnabled s), s)
  | .GetDefaultFilter, s => (.filter (lovrGraphicsGetDefaultFilter s), s)
  | .GetDepthTest, s =>
    (.depthTest (lovrGraphicsGetDepthTest s).1 (lovrGraphicsGetDepthTest s).2, s)
  | .GetFont, s => (.object (lovrGraphicsGetFont s).1, (lovrGraphicsGetFont s).2)
  | .IsGammaCorrect, s => (.flag (lovrGraphicsIsGammaCorrect s), s)
  | .GetLimits, s => (.limits (lovrGraphicsGetLimits P s).1, (lovrGraphicsGetLimits P s).2)
  | .GetLineWidth, s => (.number (lovrGraphicsGetLineWidth s), s)
  | .GetPointSize, s => (.number (lovrGraphicsGetPointSize s), s)
  | .GetShader, s => (.object (lovrGraphicsGetShader s), s)
  | .GetStencilTest, s =>
    (.stencilTest (lovrGraphicsGetStencilTest s).1 (lovrGraphicsGetStencilTest s).2, s)
  | .GetWinding, s => (.winding (lovrGraphicsGetWinding s), s)
  | .IsWireframe, s => (.flag (lovrGraphicsIsWireframe s), s)

/-- The number of retains a slot of the state holds on the object `h`: one
when the slot holds `h`, none otherwise. -/
def slotRetains (slot : Option Handle) (h : Handle) : Int :=
  if slot = some h then 1 else 0

/-- A call of `lovrGraphicsSetShader` or `lovrGraphicsSetFont`. -/
inductive SlotCall where
  | setShader (shader : Option Handle)
  | setFont (font : Option Handle)
deriving DecidableEq, Repr

/-- Runs `lovrGraphicsSetShader` and `lovrGraphicsSetFont` calls in order. -/
def runSlotCalls : List SlotCall → GraphicsState → GraphicsState
  | [], s => s
  | .setShader x :: cs, s => runSlotCalls cs (lovrGraphicsSetShader x s)
  | .setFont x :: cs, s => runSlotCalls cs (lovrGraphicsSetFont x s)

/-- The fields of the state that the shader, mesh and material resolution of
`lovrGraphicsDraw` and its `gpuDraw` never write: all but the dynamic mesh,
the default shaders, the default material, the retain counts, the allocator
and the trace. -/
structure PipelineEq (s s' : GraphicsState) : Prop where
  initialized : s'.initialized = s.initialized
  gammaCorrect : s'.gammaCorrect = s.gammaCorrect
  defaultFont : s'.defaultFont = s.defaultFont
  defaultFilter : s'.defaultFilter = s.defaultFilter
  transforms : s'.transforms = s.transforms
  transform : s'.transform = s.transform
  layers : s'.layers = s.layers
  layer : s'.layer = s.layer
  backgroundColor : s'.backgroundColor = s.backgroundColor
  blendMode : s'.blendMode = s.blendMode
  blendAlphaMode : s'.blendAlphaMode = s.blendAlphaMode
  color : s'.color = s.color
  culling : s'.culling = s.culling
  depthTest : s'.depthTest = s.depthTest
  depthWrite : s'.depthWrite = s.depthWrite
  font : s'.font = s.font
  limits : s'.limits = s.limits
  lineWidth : s'.lineWidth = s.lineWidth
  pointSize : s'.pointSize = s.pointSize
  shader : s'.shader = s.shader
  stencilEnabled : s'.stencilEnabled = s.stencilEnabled
  stencilWriting : s'.stencilWriting = s.stencilWriting
  stencilMode : s'.stencilMode = s.stencilMode
  stencilValue : s'.stencilValue = s.stencilValue
  winding : s'.winding = s.winding
  wireframe : s'.wireframe = s.wireframe
  meshMaterial : s'.meshMaterial = s.meshMaterial

/-! ## Primitives -/

inductive DrawMode where
  | DRAW_MODE_FILL
  | DRAW_MODE_LINE
deriving DecidableEq, Repr

inductive ArcMode where
  | ARC_MODE_PIE
  | ARC_MODE_OPEN
  | ARC_MODE_CLOSED
deriving DecidableEq, Repr

/-- The `double` constant `M_PI` of `math.h`, exactly. -/
def M_PI : CFloat := 884279719003555 / 281474976710656

/-- The `float` nearest to `2 * M_PI`: the value a `float` variable holds after
`theta2 = 2 * M_PI`. -/
def TWO_PI_F : CFloat := 13176795 / 2097152

/-- The value of `sizeof(float)`. -/
def sizeofFloat : Nat := 4

/-- The value of `sizeof(uint32_t)`. -/
def sizeofUInt32 : Nat := 4

/-- An array given by its initialiser list; entries past the list are 0. -/
def arrayOf (l : List CFloat) : Nat → CFloat :=
  fun i => l.getD i 0

/-- An index array given by its initialiser list. -/
def indexArrayOf (l : List Nat) : Nat → Nat :=
  fun i => l.getD i 0

/-- Stores `vals` at `buf[offset]`, `buf[offset + 1]`, ...: a `memcpy` to the
pointer `buf + offset`, or a run of `*p++ = v` from there. -/
def storeAt {α : Type} (buf : Nat → α) (offset : Nat) (vals : List α) : Nat → α :=
  fun i => if offset ≤ i then (vals[i - offset]?).getD (buf i) else buf i

/-- Stores the chunks one after the other, the pointer starting at `offset` and
advancing by `stride` elements after each chunk. -/
def storeStrided {α : Type} (buf : Nat → α) (offset stride : Nat) : List (List α) → Nat → α
  | [] => buf
  | c :: cs => storeStrided (storeAt buf offset c) (offset + stride) stride cs

/-- What a loop `for (i = start; i < start + n; i++)` writes in all, its body
writing `body i`. -/
def loopWrites {α : Type} (body : Nat → List α) (start : Nat) : Nat → List α
  | 0 => []
  | n + 1 => body start ++ loopWrites body (start + 1) n

/-- Embeds `vec3_init`: the copy of a vector. -/
def vec3_init (u : Vec3) : Vec3 :=
  u

/-- Modelled from the spec: `vec3_cross` of `math/vec3.h`, which is not part of
`src/`.  The cross product of `v` and `u`, which the C function stores in `v`
and returns; in exact arithmetic. -/
def vec3_cross (v u : Vec3) : Vec3 :=
  { x := v.y * u.z - v.z * u.y
    y := v.z * u.x - v.x * u.z
    z := v.x * u.y - v.y * u.x }

/-- Embeds `lovrGraphicsPoints`. -/
def lovrGraphicsPoints (P : Platform) (count : Nat) (s : GraphicsState) : Outcome GraphicsState :=
  lovrGraphicsDraw P { mode := .MESH_POINTS, rangeStart := 0, rangeCount := toInt32 count } s

/-- Embeds `lovrGraphicsLine`. -/
def lovrGraphicsLine (P : Platform) (count : Nat) (s : GraphicsState) : Outcome GraphicsState :=
  lovrGraphicsDraw P { mode := .MESH_LINE_STRIP, rangeStart := 0, rangeCount := toInt32 count } s

/-- The request `lovrGraphicsTriangle` hands to `lovrGraphicsDraw`.  Arithmetic
on floats is exact here. -/
def triangleDraw (mode : DrawMode) (points : Nat → CFloat) : GraphicsDraw :=
  if mode = .DRAW_MODE_LINE then
    { mode := .MESH_LINE_LOOP
      vertexCount := 3
      vertexData := arrayOf
        [points 0, points 1, points 2, 0, 0, 0, 0, 0,
         points 3, points 4, points 5, 0, 0, 0, 0, 0,
         points 6, points 7, points 8, 0, 0, 0, 0, 0] }
  else
    let normal := vec3_cross (vec3_init ⟨points 0, points 1, points 2⟩)
      ⟨points 3, points 4, points 5⟩
    { mode := .MESH_TRIANGLES
      vertexCount := 3
      vertexData := arrayOf
        [points 0, points 1, points 2, normal.x, normal.y, normal.z, 0, 0,
         points 3, points 4, points 5, normal.x, normal.y, normal.z, 0, 0,
         points 6, points 7, points 8, normal.x, normal.y, normal.z, 0, 0] }

set_option linter.unusedVariables false in
/-- Embeds `lovrGraphicsTriangle`; `points` is the array `float points[9]`.
The C function does not use its `material` argument. -/
def lovrGraphicsTriangle (P : Platform) (mode : DrawMode) (material : Option Handle)
    (points : Nat → CFloat) (s : GraphicsState) : Outcome GraphicsState :=
  lovrGraphicsDraw P (triangleDraw mode points) s

/-- The vertex data of `lovrGraphicsPlane` in line mode. -/
def planeLineVertices : List CFloat :=
  [-0.5, 0.5, 0,  0, 0, 0, 0, 0,
   0.5, 0.5, 0,   0, 0, 0, 0, 0,
   0.5, -0.5, 0,  0, 0, 0, 0, 0,
   -0.5, -0.5, 0, 0, 0, 0, 0, 0]

/-- The vertex data of `lovrGraphicsPlane` in fill mode. -/
def planeFillVertices : List CFloat :=
  [-0.5, 0.5, 0,  0, 0, -1, 0, 1,
   -0.5, -0.5, 0, 0, 0, -1, 0, 0,
   0.5, 0.5, 0,   0, 0, -1, 1, 1,
   0.5, -0.5, 0,  0, 0, -1, 1, 0]

/-- Embeds `lovrGraphicsPlane`; a mode that is neither line nor fill draws
nothing. -/
def lovrGraphicsPlane (P : Platform) (mode : DrawMode) (material : Option Handle)
    (transform : Option Mat) (s : GraphicsState) : Outcome GraphicsState :=
  if mode = .DRAW_MODE_LINE then
    lovrGraphicsDraw P
      { transform := transform
        material := material
        mode := .MESH_LINE_LOOP
        vertexCount := 4
        vertexData := arrayOf planeLineVertices } s
  else if mode = .DRAW_MODE_FILL then
    lovrGraphicsDraw P
      { transform := transform
        material := material
        mode := .MESH_TRIANGLE_STRIP
        vertexCount := 4
        vertexData := arrayOf planeFillVertices } s
  else .done s

/-- The vertex data of `lovrGraphicsBox` in line mode. -/
def boxLineVertices : List CFloat :=
  [-0.5, 0.5, -0.5,  0, 0, 0, 0, 0,
   0.5, 0.5, -0.5,   0, 0, 0, 0, 0,
   0.5, -0.5, -0.5,  0, 0, 0, 0, 0,
   -0.5, -0.5, -0.5, 0, 0, 0, 0, 0,
   -0.5, 0.5, 0.5,   0, 0, 0, 0, 0,
   0.5, 0.5, 0.5,    0, 0, 0, 0, 0,
   0.5, -0.5, 0.5,   0, 0, 0, 0, 0,
   -0.5, -0.5, 0.5,  0, 0, 0, 0, 0]

/-- The index data of `lovrGraphicsBox` in line mode. -/
def boxLineIndices : List Nat :=
  [0, 1, 1, 2, 2, 3, 3, 0,
   4, 5, 5, 6, 6, 7, 7, 4,
   0, 4, 1, 5, 2, 6, 3, 7]

/-- The vertex data of `lovrGraphicsBox` in fill mode: front, right, back,
left, bottom, the two adjust vertices, top. -/
def boxFillVertices : List CFloat :=
  [-0.5, -0.5, -0.5,  0, 0, -1, 0, 0,
   -0.5, 0.5, -0.5,   0, 0, -1, 0, 1,
   0.5, -0.5, -0.5,   0, 0, -1, 1, 0,
   0.5, 0.5, -0.5,    0, 0, -1, 1, 1,
   0.5, 0.5, -0.5,    1, 0, 0,  0, 1,
   0.5, 0.5, 0.5,     1, 0, 0,  1, 1,
   0.5, -0.5, -0.5,   1, 0, 0,  0, 0,
   0.5, -0.5, 0.5,    1, 0, 0,  1, 0,
   0.5, -0.5, 0.5,    0, 0, 1,  0, 0,
   0.5, 0.5, 0.5,     0, 0, 1,  0, 1,
   -0.5, -0.5, 0.5,   0, 0, 1,  1, 0,
   -0.5, 0.5, 0.5,    0, 0, 1,  1, 1,
   -0.5, 0.5, 0.5,   -1, 0, 0,  0, 1,
   -0.5, 0.5, -0.5,  -1, 0, 0,  1, 1,
   -0.5, -0.5, 0.5,  -1, 0, 0,  0, 0,
   -0.5, -0.5, -0.5, -1, 0, 0,  1, 0,
   -0.5, -0.5, -0.5,  0, -1, 0, 0, 0,
   0.5, -0.5, -0.5,   0, -1, 0, 1, 0,
   -0.5, -0.5, 0.5,   0, -1, 0, 0, 1,
   0.5, -0.5, 0.5,    0, -1, 0, 1, 1,
   0.5, -0.5, 0.5,    0, 1, 0,  0, 1,
   -0.5, 0.5, -0.5,   0, 1, 0,  0, 1,
   -0.5, 0.5, -0.5,   0, 1, 0,  0, 1,
   -0.5, 0.5, 0.5,    0, 1, 0,  0, 0,
   0.5, 0.5, -0.5,    0, 1, 0,  1, 1,
   0.5, 0.5, 0.5,     0, 1, 0,  1, 0]

/-- The request `lovrGraphicsBox` hands to `lovrGraphicsDraw`. -/
def boxDraw (mode : DrawMode) (material : Option Handle) (transform : Option Mat) :
    GraphicsDraw :=
  if mode = .DRAW_MODE_LINE then
    { transform := transform
      material := material
      mode := .MESH_LINES
      vertexCount := 8
      vertexData := arrayOf boxLineVertices
      indexCount := 24
      indexData := indexArrayOf boxLineIndices }
  else
    { transform := transform
      material := material
      mode := .MESH_TRIANGLE_STRIP
      vertexCount := 26
      vertexData := arrayOf boxFillVertices }

/-- Embeds `lovrGraphicsBox`. -/
def lovrGraphicsBox (P : Platform) (mode : DrawMode) (material : Option Handle)
    (transform : Option Mat) (s : GraphicsState) : Outcome GraphicsState :=
  lovrGraphicsDraw P (boxDraw mode material transform) s

/-- The values of `theta1` and `theta2` of `lovrGraphicsArc` after its first
statement.  The difference `theta1 - theta2` is the `float` difference, whose
magnitude `fabsf` returns and the comparison converts to `double` unchanged;
`theta2` receives `2 * M_PI` rounded to `float`. -/
def arcAngles (P : Platform) (theta1 theta2 : CFloat) : CFloat × CFloat :=
  if |P.floatSub theta1 theta2| ≥ 2 * M_PI then (0, TWO_PI_F) else (theta1, theta2)

/-- The value of the local `hasCenterPoint` of `lovrGraphicsArc`. -/
def arcHasCenterPoint (P : Platform) (arcMode : ArcMode) (theta1 theta2 : CFloat) : Bool :=
  decide (arcMode = .ARC_MODE_PIE ∧
    |P.floatSub (arcAngles P theta1 theta2).1 (arcAngles P theta1 theta2).2| < 2 * M_PI)

/-- The value of the local `count` of `lovrGraphicsArc`. -/
def arcCount (P : Platform) (arcMode : ArcMode) (theta1 theta2 : CFloat) (segments : Int) :
    Nat :=
  toUInt32 (segments + 1 + (if arcHasCenterPoint P arcMode theta1 theta2 then 1 else 0))

/-- The vertices the loop of `lovrGraphicsArc` writes in `n` iterations that
start at the angle `theta`, one chunk of 8 floats per iteration. -/
def arcPerimeter (P : Platform) (angleShift : CFloat) : CFloat → Nat → List (List CFloat)
  | _, 0 => []
  | theta, n + 1 =>
    let x := P.cos theta * 0.5
    let y := P.sin theta * 0.5
    [x, y, 0, 0, 0, 1, x + 0.5, 1 - (y + 0.5)] :: arcPerimeter P angleShift (theta + angleShift) n

/-- The vertices `lovrGraphicsArc` writes, in order: the centre when there is
one, then the perimeter.  The angle step and the coordinates are taken in
exact arithmetic. -/
def arcVertices (P : Platform) (arcMode : ArcMode) (theta1 theta2 : CFloat) (segments : Int) :
    List (List CFloat) :=
  let angles := arcAngles P theta1 theta2
  (if arcHasCenterPoint P arcMode theta1 theta2 then [[0, 0, 0, 0, 0, 1, 0.5, 0.5]] else []) ++
    arcPerimeter P ((angles.2 - angles.1) / segments) angles.1 (segments + 1).toNat

/-- Embeds `lovrGraphicsArc`. -/
def lovrGraphicsArc (P : Platform) (mode : DrawMode) (arcMode : ArcMode)
    (material : Option Handle) (transform : Option Mat) (theta1 theta2 : CFloat)
    (segments : Int) (s : GraphicsState) : Outcome GraphicsState :=
  let count := arcCount P arcMode theta1 theta2 segments
  let s := lovrGraphicsGetVertexPointer count s
  let s := { s with mesh := lovrMeshWriteIndices s.mesh 0 0 }
  let vertices := storeStrided s.mesh.vertices 0 8 (arcVertices P arcMode theta1 theta2 segments)
  let s := { s with mesh := { s.mesh with vertices := vertices } }
  lovrGraphicsDraw P
    { transform := transform
      material := material
      mode :=
        if mode = .DRAW_MODE_LINE then
          (if arcMode = .ARC_MODE_OPEN then .MESH_LINE_STRIP else .MESH_LINE_LOOP)
        else .MESH_TRIANGLE_FAN
      rangeStart := 0
      rangeCount := toInt32 count } s

/-- Embeds `lovrGraphicsCircle`; the `float` parameter `theta2` of the arc
receives `2 * M_PI` rounded to `float`. -/
def lovrGraphicsCircle (P : Platform) (mode : DrawMode) (material : Option Handle)
    (transform : Option Mat) (segments : Int) (s : GraphicsState) : Outcome GraphicsState :=
  lovrGraphicsArc P mode .ARC_MODE_OPEN material transform 0 TWO_PI_F segments s

/-- The value of `capped && r`, 1 or 0. -/
def capFlag (capped : Bool) (r : CFloat) : Int :=
  if capped = true ∧ r ≠ 0 then 1 else 0

/-- The value of the local `vertexCount` of `lovrGraphicsCylinder`. -/
def cylinderVertexCount (r1 r2 : CFloat) (capped : Bool) (segments : Int) : Nat :=
  toUInt32 (capFlag capped r1 * (segments + 2) + capFlag capped r2 * (segments + 2)
    + 2 * (segments + 1))

/-- The value of the local `indexCount` of `lovrGraphicsCylinder`. -/
def cylinderIndexCount (r1 r2 : CFloat) (capped : Bool) (segments : Int) : Nat :=
  toUInt32 (3 * segments * (capFlag capped r1 + capFlag capped r2 + 2))

/-- The eight floats `PUSH_CYLINDER_VERTEX(x, y, z, nx, ny, nz)` writes. -/
def pushCylinderVertex (x y z nx ny nz : CFloat) : List CFloat :=
  [x, y, z, nx, ny, nz, 0, 0]

/-- The three indices `PUSH_CYLINDER_TRIANGLE(i1, i2, i3)` writes. -/
def pushCylinderTriangle (i1 i2 i3 : Int) : List Nat :=
  [toUInt32 i1, toUInt32 i2, toUInt32 i3]

/-- The vectors `p`, `q` and `axis` of `lovrGraphicsCylinder` when its ring loop
starts.  Arithmetic on floats is exact here. -/
def cylinderBasis (P : Platform) (x1 y1 z1 x2 y2 z2 : CFloat) : Vec3 × Vec3 × Vec3 :=
  let axis : Vec3 := ⟨x1 - x2, y1 - y2, z1 - z2⟩
  let n : Vec3 := ⟨x1 - x2, y1 - y2, z1 - z2⟩
  let p := vec3_init n
  let p : Vec3 := if n.x = 0 ∧ n.z = 0 then { p with x := p.x + 1 } else { p with y := p.y + 1 }
  let q := vec3_init p
  let q := vec3_cross q n
  let n := vec3_cross n q
  let p := vec3_init n
  (P.vec3_normalize p, P.vec3_normalize q, P.vec3_normalize axis)

/-- The floats the ring loop of `lovrGraphicsCylinder` writes in iteration `i`:
two vertices. -/
def cylinderRingVertices (P : Platform) (x1 y1 z1 x2 y2 z2 r1 r2 : CFloat) (segments : Int)
    (p q : Vec3) (i : Nat) : List CFloat :=
  let theta : CFloat := i * (2 * M_PI) / segments
  let n : Vec3 :=
    ⟨P.cos theta * p.x + P.sin theta * q.x, P.cos theta * p.y + P.sin theta * q.y,
      P.cos theta * p.z + P.sin theta * q.z⟩
  pushCylinderVertex (x1 + r1 * n.x) (y1 + r1 * n.y) (z1 + r1 * n.z) n.x n.y n.z ++
    pushCylinderVertex (x2 + r2 * n.x) (y2 + r2 * n.y) (z2 + r2 * n.z) n.x n.y n.z

/-- The floats `lovrGraphicsCylinder` writes through `vertices.floats`, in
order: the ring, the top cap when there is one, the bottom cap when there is
one.  `baseVertex[j]` reads float `j` of the ring. -/
def cylinderVertices (P : Platform) (x1 y1 z1 x2 y2 z2 r1 r2 : CFloat) (capped : Bool)
    (segments : Int) : List CFloat :=
  let basis := cylinderBasis P x1 y1 z1 x2 y2 z2
  let p := basis.1
  let q := basis.2.1
  let axis := basis.2.2
  let ring := loopWrites (cylinderRingVertices P x1 y1 z1 x2 y2 z2 r1 r2 segments p q) 0
    (segments + 1).toNat
  let baseVertex : Nat → CFloat := fun j => ring.getD j 0
  let top :=
    if capped = true ∧ r1 ≠ 0 then
      pushCylinderVertex x1 y1 z1 axis.x axis.y axis.z ++
        loopWrites (fun i =>
          let j := i * 2 * 8
          pushCylinderVertex (baseVertex (j + 0)) (baseVertex (j + 1)) (baseVertex (j + 2))
            axis.x axis.y axis.z) 0 (segments + 1).toNat
    else []
  let bottom :=
    if capped = true ∧ r2 ≠ 0 then
      pushCylinderVertex x2 y2 z1 (-axis.x) (-axis.y) (-axis.z) ++
        loopWrites (fun i =>
          let j := i * 2 * 8 + 8
          pushCylinderVertex (baseVertex (j + 0)) (baseVertex (j + 1)) (baseVertex (j + 2))
            (-axis.x) (-axis.y) (-axis.z)) 0 (segments + 1).toNat
    else []
  ring ++ top ++ bottom

/-- The indices the index loop of `lovrGraphicsCylinder` writes in iteration
`i`. -/
def cylinderSegmentIndices (r1 r2 : CFloat) (capped : Bool) (segments : Int) (i : Nat) :
    List Nat :=
  let topOffset : Int := (segments + 1) * 2
  let bottomOffset : Int := (segments + 1) * 2 + (1 + segments + 1) * capFlag capped r1
  let j : Int := 2 * i
  pushCylinderTriangle j (j + 1) (j + 2) ++
    pushCylinderTriangle (j + 1) (j + 3) (j + 2) ++
    (if capped = true ∧ r1 ≠ 0 then
      pushCylinderTriangle topOffset (topOffset + i + 1) (topOffset + i + 2) else []) ++
    (if capped = true ∧ r2 ≠ 0 then
      pushCylinderTriangle bottomOffset (bottomOffset + i + 1) (bottomOffset + i + 2) else [])

/-- The indices `lovrGraphicsCylinder` writes through `indices.ints`, in
order. -/
def cylinderIndices (r1 r2 : CFloat) (capped : Bool) (segments : Int) : List Nat :=
  loopWrites (cylinderSegmentIndices r1 r2 capped segments) 0 segments.toNat

/-- Embeds `lovrGraphicsCylinder`. -/
def lovrGraphicsCylinder (P : Platform) (material : Option Handle)
    (x1 y1 z1 x2 y2 z2 r1 r2 : CFloat) (capped : Bool) (segments : Int) (s : GraphicsState) :
    Outcome GraphicsState :=
  let vertexCount := cylinderVertexCount r1 r2 capped segments
  let indexCount := cylinderIndexCount r1 r2 capped segments
  let s := lovrGraphicsGetVertexPointer vertexCount s
  let s := { s with mesh := lovrMeshWriteIndices s.mesh indexCount sizeofUInt32 }
  let vertices := storeAt s.mesh.vertices 0
    (cylinderVertices P x1 y1 z1 x2 y2 z2 r1 r2 capped segments)
  let s := { s with mesh := { s.mesh with vertices := vertices } }
  let indices := storeAt s.mesh.indices 0 (cylinderIndices r1 r2 capped segments)
  let s := { s with mesh := { s.mesh with indices := indices } }
  lovrGraphicsDraw P
    { material := material
      mode := .MESH_TRIANGLES
      rangeStart := 0
      rangeCount := toInt32 indexCount } s

/-- The eight floats `lovrGraphicsSphere` writes for the grid point `(i, j)`. -/
def sphereVertex (P : Platform) (segments : Int) (i j : Nat) : List CFloat :=
  let v : CFloat := i / segments
  let u : CFloat := j / segments
  let x := P.sin (u * 2 * M_PI) * P.sin (v * M_PI)
  let y := P.cos (v * M_PI)
  let z := -P.cos (u * 2 * M_PI) * P.sin (v * M_PI)
  [x, y, z, x, y, z, u, 1 - v]

/-- The vertices `lovrGraphicsSphere` writes, in order, one chunk per grid
point. -/
def sphereVertices (P : Platform) (segments : Int) : List (List CFloat) :=
  loopWrites (fun i => loopWrites (fun j => [sphereVertex P segments i j]) 0
    (segments + 1).toNat) 0 (segments + 1).toNat

/-- The six indices `lovrGraphicsSphere` writes for the quad `(i, j)`. -/
def sphereQuad (segments : Int) (i j : Nat) : List Nat :=
  let offset0 := toUInt32 (i * (segments + 1))
  let offset1 := toUInt32 ((i + 1) * (segments + 1))
  let i0 := (offset0 + j) % 2 ^ 32
  let i1 := (offset1 + j) % 2 ^ 32
  [i0, i1, (i0 + 1) % 2 ^ 32, i1, (i1 + 1) % 2 ^ 32, (i0 + 1) % 2 ^ 32]

/-- The indices `lovrGraphicsSphere` writes, in order, one chunk per quad. -/
def sphereIndices (segments : Int) : List (List Nat) :=
  loopWrites (fun i => loopWrites (fun j => [sphereQuad segments i j]) 0 segments.toNat) 0
    segments.toNat

/-- Embeds `lovrGraphicsSphere`.  After each vertex the pointer `vertices.floats`
advances by `8 * sizeof(float)` floats, and after each quad `indices.ints`
advances by `6 * sizeof(uint32_t)` indices. -/
def lovrGraphicsSphere (P : Platform) (material : Option Handle) (transform : Option Mat)
    (segments : Int) (s : GraphicsState) : Outcome GraphicsState :=
  let s := lovrGraphicsGetVertexPointer (toUInt32 ((segments + 1) * (segments + 1))) s
  let indexCount := toUInt32 (segments * segments * 6)
  let s := { s with mesh := lovrMeshWriteIndices s.mesh indexCount sizeofUInt32 }
  let vertices := storeStrided s.mesh.vertices 0 (8 * sizeofFloat) (sphereVertices P segments)
  let s := { s with mesh := { s.mesh with vertices := vertices } }
  let indices := storeStrided s.mesh.indices 0 (6 * sizeofUInt32) (sphereIndices segments)
  let s := { s with mesh := { s.mesh with indices := indices } }
  lovrGraphicsDraw P
    { transform := transform
      material := material
      mode := .MESH_TRIANGLES
      rangeStart := 0
      rangeCount := segments * segments * 6 } s

/-- The position of vertex `v` in vertex data of 8 floats a vertex. -/
def vertexPosition (data : Nat → CFloat) (v : Nat) : Vec3 :=
  ⟨data (8 * v), data (8 * v + 1), data (8 * v + 2)⟩

/-- The normal of vertex `v` in vertex data of 8 floats a vertex. -/
def vertexNormal (data : Nat → CFloat) (v : Nat) : Vec3 :=
  ⟨data (8 * v + 3), data (8 * v + 4), data (8 * v + 5)⟩

/-- The dot product of two vectors, in exact arithmetic. -/
def Vec3.dot (u v : Vec3) : CFloat :=
  u.x * v.x + u.y * v.y + u.z * v.z

/-- The difference of two vectors, in exact arithmetic. -/
def Vec3.sub (u v : Vec3) : Vec3 :=
  ⟨u.x - v.x, u.y - v.y, u.z - v.z⟩

/-- The faces of the box in the order of the fill-mode vertex data. -/
inductive BoxFace where
  | front
  | right
  | back
  | left
  | bottom
  | top
deriving DecidableEq, Repr

/-- The index of the first of the four vertices of a face in the fill-mode
vertex data; the two adjust vertices are vertices 20 and 21. -/
def BoxFace.start : BoxFace → Nat
  | .front => 0
  | .right => 4
  | .back => 8
  | .left => 12
  | .bottom => 16
  | .top => 22

/-- The triangle with corners (1,0,0), (0,1,0) and (0,0,1), as the array
`float points[9]`. -/
def cornerTriangle : Nat → CFloat :=
  arrayOf [1, 0, 0, 0, 1, 0, 0, 0, 1]

/-- The same triangle translated by (1,1,1). -/
def shiftedTriangle : Nat → CFloat :=
  arrayOf [2, 1, 1, 1, 2, 1, 1, 1, 2]

/-! ## The stencil write scope -/

inductive StencilAction where
  | STENCIL_REPLACE
  | STENCIL_INCREMENT
  | STENCIL_DECREMENT
  | STENCIL_INCREMENT_WRAP
  | STENCIL_DECREMENT_WRAP
  | STENCIL_INVERT
deriving DecidableEq, Repr

/-- The value of the local `glAction` of `lovrGraphicsStencil` after its
`switch`. -/
def stencilGlAction : StencilAction → GLenum
  | .STENCIL_REPLACE => .GL_REPLACE
  | .STENCIL_INCREMENT => .GL_INCR
  | .STENCIL_DECREMENT => .GL_DECR
  | .STENCIL_INCREMENT_WRAP => .GL_INCR_WRAP
  | .STENCIL_DECREMENT_WRAP => .GL_DECR_WRAP
  | .STENCIL_INVERT => .GL_INVERT

/-- Embeds `lovrGraphicsStencil`.  The callback is what `callback(userdata)`
does to the state; when it throws, control leaves `lovrGraphicsStencil` at
once. -/
def lovrGraphicsStencil (action : StencilAction) (replaceValue : Int)
    (callback : GraphicsState → Outcome GraphicsState) (s : GraphicsState) :
    Outcome GraphicsState :=
  let mode := (lovrGraphicsGetDepthTest s).1
  let write := (lovrGraphicsGetDepthTest s).2
  let s := lovrGraphicsSetDepthTest mode false s
  let s := emit (.glColorMask false false false false) s
  let s :=
    if ¬ s.stencilEnabled then
      { emit (.glEnable .GL_STENCIL_TEST) s with stencilEnabled := true }
    else s
  let glAction := stencilGlAction action
  let s := emit (.glStencilFunc .GL_ALWAYS replaceValue 255) s
  let s := emit (.glStencilOp .GL_KEEP .GL_KEEP glAction) s
  let s := { s with stencilWriting := true }
  (callback s).andThen fun s =>
  let s := { s with stencilWriting := false }
  let s := emit (.glColorMask true true true true) s
  let s := lovrGraphicsSetDepthTest mode write s
  .done (lovrGraphicsSetStencilTest s.stencilMode s.stencilValue s)

/-- A callback of `lovrGraphicsStencil`, given by the calls it makes into the
module, in order: `lovrGraphicsSetStencilTest`, `lovrGraphicsSetDepthTest`,
`lovrGraphicsDraw`, and `lovrGraphicsStencil` with a callback of its own. -/
inductive CallbackBody where
  | ret
  | setStencilTest (mode : CompareMode) (value : Int) (next : CallbackBody)
  | setDepthTest (mode : CompareMode) (write : Bool) (next : CallbackBody)
  | draw (request : GraphicsDraw) (next : CallbackBody)
  | stencil (action : StencilAction) (replaceValue : Int) (callback next : CallbackBody)

/-- Runs a callback; a call that throws ends it. -/
def CallbackBody.run (P : Platform) : CallbackBody → GraphicsState → Outcome GraphicsState
  | .ret => fun s => .done s
  | .setStencilTest mode value next => fun s =>
    next.run P (lovrGraphicsSetStencilTest mode value s)
  | .setDepthTest mode write next => fun s =>
    next.run P (lovrGraphicsSetDepthTest mode write s)
  | .draw request next => fun s => (lovrGraphicsDraw P request s).andThen (next.run P)
  | .stencil action replaceValue callback next => fun s =>
    (lovrGraphicsStencil action replaceValue (callback.run P) s).andThen (next.run P)

/-- The value of the local `topOffset` of `lovrGraphicsCylinder`. -/
def cylinderTopOffset (segments : Int) : Int :=
  (segments + 1) * 2

/-- The value of the local `bottomOffset` of `lovrGraphicsCylinder`. -/
def cylinderBottomOffset (r1 : CFloat) (capped : Bool) (segments : Int) : Int :=
  (segments + 1) * 2 + (1 + segments + 1) * capFlag capped r1

/-- The indices of the two ring triangles the index loop of
`lovrGraphicsCylinder` writes in iteration `i`. -/
def cylinderRingTriangles (i : Nat) : List Nat :=
  let j : Int := 2 * i
  pushCylinderTriangle j (j + 1) (j + 2) ++ pushCylinderTriangle (j + 1) (j + 3) (j + 2)

/-- The indices of the top-cap triangle of iteration `i`. -/
def cylinderTopTriangle (segments : Int) (i : Nat) : List Nat :=
  let topOffset := cylinderTopOffset segments
  pushCylinderTriangle topOffset (topOffset + i + 1) (topOffset + i + 2)

/-- The indices of the bottom-cap triangle of iteration `i`. -/
def cylinderBottomTriangle (r1 : CFloat) (capped : Bool) (segments : Int) (i : Nat) : List Nat :=
  let bottomOffset := cylinderBottomOffset r1 capped segments
  pushCylinderTriangle bottomOffset (bottomOffset + i + 1) (bottomOffset + i + 2)

/-- The floats the ring loop of `lovrGraphicsCylinder` writes. -/
def cylinderRing (P : Platform) (x1 y1 z1 x2 y2 z2 r1 r2 : CFloat) (segments : Int) :
    List CFloat :=
  let basis := cylinderBasis P x1 y1 z1 x2 y2 z2
  loopWrites (cylinderRingVertices P x1 y1 z1 x2 y2 z2 r1 r2 segments basis.1 basis.2.1) 0
    (segments + 1).toNat

/-- The floats the top-cap block of `lovrGraphicsCylinder` writes: the centre
and one vertex per ring position, or nothing without a top cap. -/
def cylinderTopCap (P : Platform) (x1 y1 z1 x2 y2 z2 r1 r2 : CFloat) (capped : Bool)
    (segments : Int) : List CFloat :=
  let axis := (cylinderBasis P x1 y1 z1 x2 y2 z2).2.2
  let baseVertex : Nat → CFloat :=
    fun j => (cylinderRing P x1 y1 z1 x2 y2 z2 r1 r2 segments).getD j 0
  if capped = true ∧ r1 ≠ 0 then
    pushCylinderVertex x1 y1 z1 axis.x axis.y axis.z ++
      loopWrites (fun i =>
        let j := i * 2 * 8
        pushCylinderVertex (baseVertex (j + 0)) (baseVertex (j + 1)) (baseVertex (j + 2))
          axis.x axis.y axis.z) 0 (segments + 1).toNat
  else []

/-- The floats the bottom-cap block of `lovrGraphicsCylinder` writes, or
nothing without a bottom cap. -/
def cylinderBottomCap (P : Platform) (x1 y1 z1 x2 y2 z2 r1 r2 : CFloat) (capped : Bool)
    (segments : Int) : List CFloat :=
  let axis := (cylinderBasis P x1 y1 z1 x2 y2 z2).2.2
  let baseVertex : Nat → CFloat :=
    fun j => (cylinderRing P x1 y1 z1 x2 y2 z2 r1 r2 segments).getD j 0
  if capped = true ∧ r2 ≠ 0 then
    pushCylinderVertex x2 y2 z1 (-axis.x) (-axis.y) (-axis.z) ++
      loopWrites (fun i =>
        let j := i * 2 * 8 + 8
        pushCylinderVertex (baseVertex (j + 0)) (baseVertex (j + 1)) (baseVertex (j + 2))
          (-axis.x) (-axis.y) (-axis.z)) 0 (segments + 1).toNat
  else []

/-! ## Skybox and text -/

/-- The vertex data of `lovrGraphicsSkybox`. -/
def skyboxVertices : List CFloat :=
  [-1, 1, 1,  0, 0, 0, 0, 0,
   -1, -1, 1, 0, 0, 0, 0, 0,
   1, 1, 1,   0, 0, 0, 0, 0,
   1, -1, 1,  0, 0, 0, 0, 0]

/-- The request `lovrGraphicsSkybox` hands to `lovrGraphicsDraw` for a texture
of the given type. -/
def skyboxDraw (type : TextureType) : GraphicsDraw :=
  { shader := if type = .TEXTURE_CUBE then .SHADER_CUBE else .SHADER_PANO
    mode := .MESH_TRIANGLE_STRIP
    vertexCount := 4
    vertexData := arrayOf skyboxVertices }

set_option linter.unusedVariables false in
/-- Embeds `lovrGraphicsSkybox`.  The C function does not use `angle`, `ax`,
`ay` and `az`. -/
def lovrGraphicsSkybox (P : Platform) (texture : Handle) (angle ax ay az : CFloat)
    (s : GraphicsState) : Outcome GraphicsState :=
  let type := P.lovrTextureGetType texture
  if ¬ (type = .TEXTURE_CUBE ∨ type = .TEXTURE_2D) then .fatal .skyboxTextureType s
  else
    let materialTexture :=
      if type = .TEXTURE_CUBE then MaterialTexture.TEXTURE_ENVIRONMENT_MAP
      else MaterialTexture.TEXTURE_DIFFUSE
    let winding := s.winding
    let s := lovrGraphicsSetWinding .WINDING_COUNTERCLOCKWISE s
    let material := (lovrGraphicsGetDefaultMaterial s).1
    let s := (lovrGraphicsGetDefaultMaterial s).2
    let s := emit (.lovrMaterialSetTexture material materialTexture (some texture)) s
    (lovrGraphicsDraw P (skyboxDraw type) s).andThen fun s =>
      let s := emit (.lovrMaterialSetTexture material materialTexture none) s
      .done (lovrGraphicsSetWinding winding s)

/-- The state in which `lovrGraphicsSkybox` calls `lovrGraphicsDraw`. -/
def skyboxDrawState (P : Platform) (texture : Handle) (s : GraphicsState) : GraphicsState :=
  let type := P.lovrTextureGetType texture
  let materialTexture :=
    if type = .TEXTURE_CUBE then MaterialTexture.TEXTURE_ENVIRONMENT_MAP
    else MaterialTexture.TEXTURE_DIFFUSE
  let s := lovrGraphicsSetWinding .WINDING_COUNTERCLOCKWISE s
  let material := (lovrGraphicsGetDefaultMaterial s).1
  let s := (lovrGraphicsGetDefaultMaterial s).2
  emit (.lovrMaterialSetTexture material materialTexture (some texture)) s

/-- The value of `strlen(str) * 6` converted to `uint32_t`. -/
def printMaxVertices (str : String) : Nat :=
  (str.utf8ByteSize * 6) % 2 ^ 32

/-- What `lovrFontRender` returns in `lovrGraphicsPrint`: the vertex storage it
leaves, `offsety` and `vertexCount`. -/
def printRender (P : Platform) (str : String) (wrap : CFloat) (halign : HorizontalAlign)
    (valign : VerticalAlign) (s : GraphicsState) : (Nat → CFloat) × CFloat × Nat :=
  P.lovrFontRender (lovrGraphicsGetFont s).1 str wrap halign valign
    (lovrGraphicsGetVertexPointer (printMaxVertices str) (lovrGraphicsGetFont s).2).mesh.vertices

/-- The state `lovrGraphicsPrint` reaches before `lovrGraphicsPush`: the font
is looked up, the dynamic mesh is resized, and `lovrFontRender` has written the
vertices. -/
def printRendered (P : Platform) (str : String) (wrap : CFloat) (halign : HorizontalAlign)
    (valign : VerticalAlign) (s : GraphicsState) : GraphicsState :=
  let rendered := printRender P str wrap halign valign s
  let s := (lovrGraphicsGetFont s).2
  let s := lovrGraphicsGetVertexPointer (printMaxVertices str) s
  let s := { s with mesh := { s.mesh with vertices := rendered.1 } }
  { s with mesh := lovrMeshWriteIndices s.mesh 0 0 }

/-- The state `lovrGraphicsPrint` reaches before it looks up the default
material, from the state `sp` its `lovrGraphicsPush` returned; `s` is the state
the print started in. -/
def printTransformed (P : Platform) (str : String) (transform : Mat) (wrap : CFloat)
    (halign : HorizontalAlign) (valign : VerticalAlign) (s sp : GraphicsState) :
    GraphicsState :=
  let scale := 1 / P.fontPixelDensity (lovrGraphicsGetFont s).1
  let offsety := (printRender P str wrap halign valign s).2.1
  let sp := lovrGraphicsMatrixTransform P transform sp
  let sp := lovrGraphicsScale P scale scale scale sp
  lovrGraphicsTranslate P 0 offsety 0 sp

/-- The value of the local `material` of `lovrGraphicsPrint`. -/
def printMaterial (P : Platform) (str : String) (transform : Mat) (wrap : CFloat)
    (halign : HorizontalAlign) (valign : VerticalAlign) (s sp : GraphicsState) : Handle :=
  (lovrGraphicsGetDefaultMaterial (printTransformed P str transform wrap halign valign s sp)).1

/-- The state in which `lovrGraphicsPrint` reads the depth test. -/
def printPrepared (P : Platform) (str : String) (transform : Mat) (wrap : CFloat)
    (halign : HorizontalAlign) (valign : VerticalAlign) (s sp : GraphicsState) :
    GraphicsState :=
  emit (.lovrMaterialSetTexture (printMaterial P str transform wrap halign valign s sp)
      .TEXTURE_DIFFUSE (P.fontTexture (lovrGraphicsGetFont s).1))
    (lovrGraphicsGetDefaultMaterial (printTransformed P str transform wrap halign valign s sp)).2

/-- The state in which `lovrGraphicsPrint` calls `lovrGraphicsDraw`. -/
def printDrawState (P : Platform) (str : String) (transform : Mat) (wrap : CFloat)
    (halign : HorizontalAlign) (valign : VerticalAlign) (s sp : GraphicsState) :
    GraphicsState :=
  lovrGraphicsSetDepthTest (printPrepared P str transform wrap halign valign s sp).depthTest false
    (printPrepared P str transform wrap halign valign s sp)

/-- The request `lovrGraphicsPrint` hands to `lovrGraphicsDraw`. -/
def printDraw (material : Handle) (vertexCount : Nat) : GraphicsDraw :=
  { shader := .SHADER_FONT
    material := some material
    mode := .MESH_TRIANGLES
    rangeStart := 0
    rangeCount := toInt32 vertexCount }

/-- Embeds `lovrGraphicsPrint`.  Arithmetic on floats is exact here. -/
def lovrGraphicsPrint (P : Platform) (str : String) (transform : Mat) (wrap : CFloat)
    (halign : HorizontalAlign) (valign : VerticalAlign) (s : GraphicsState) :
    Outcome GraphicsState :=
  let font := (lovrGraphicsGetFont s).1
  let s := (lovrGraphicsGetFont s).2
  let scale := 1 / P.fontPixelDensity font
  let maxVertices := printMaxVertices str
  let s := lovrGraphicsGetVertexPointer maxVertices s
  let rendered := P.lovrFontRender font str wrap halign valign s.mesh.vertices
  let s := { s with mesh := { s.mesh with vertices := rendered.1 } }
  let offsety := rendered.2.1
  let vertexCount := rendered.2.2
  let s := { s with mesh := lovrMeshWriteIndices s.mesh 0 0 }
  (lovrGraphicsPush P s).andThen fun s =>
    let s := lovrGraphicsMatrixTransform P transform s
    let s := lovrGraphicsScale P scale scale scale s
    let s := lovrGraphicsTranslate P 0 offsety 0 s
    let material := (lovrGraphicsGetDefaultMaterial s).1
    let s := (lovrGraphicsGetDefaultMaterial s).2
    let s := emit (.lovrMaterialSetTexture material .TEXTURE_DIFFUSE (P.fontTexture font)) s
    let mode := (lovrGraphicsGetDepthTest s).1
    let write := (lovrGraphicsGetDepthTest s).2
    let s := lovrGraphicsSetDepthTest mode false s
    (lovrGraphicsDraw P (printDraw material vertexCount) s).andThen fun s =>
      let s := lovrGraphicsSetDepthTest mode write s
      let s := emit (.lovrMaterialSetTexture material .TEXTURE_DIFFUSE none) s
      lovrGraphicsPop s

/-- The argument of the last `glFrontFace` among the calls, if there is one. -/
def hardwareFrontFace : List Call → Option GLenum
  | [] => none
  | .glFrontFace mode :: cs => (hardwareFrontFace cs).or (some mode)
  | _ :: cs => hardwareFrontFace cs

/-- The argument of the last `glDepthMask` among the calls, if there is one. -/
def hardwareDepthMask : List Call → Option Bool
  | [] => none
  | .glDepthMask flag :: cs => (hardwareDepthMask cs).or (some flag)
  | _ :: cs => hardwareDepthMask cs

/-- The value of the local `glWinding` of `lovrGraphicsSetWinding`. -/
def glWindingOf (winding : Winding) : GLenum :=
  if winding = .WINDING_CLOCKWISE then .GL_CW else .GL_CCW

/-- The fields a scoped depth-write override must give back, and the calls
issued so far: `s'` has them as `s` does. -/
structure DepthFrame (s s' : GraphicsState) : Prop where
  depthTest : s'.depthTest = s.depthTest
  depthWrite : s'.depthWrite = s.depthWrite
  transform : s'.transform = s.transform
  trace : s'.trace = s.trace

/-! ## Theorems: the transform stack -/

theorem lovrGraphicsPush_depth (P : Platform) (s s' : GraphicsState)
    (h : lovrGraphicsPush P s = .done s') : s'.transform = s.transform + 1 := by
  unfold lovrGraphicsPush at h
  simp only at h
  split_ifs at h
  cases h; rfl

theorem lovrGraphicsPop_depth (s s' : GraphicsState)
    (h : lovrGraphicsPop s = .done s') : s'.transform = s.transform - 1 := by
  unfold lovrGraphicsPop at h
  simp only at h
  split at h
  · cases h
  · cases h; rfl

theorem runStackCalls_depth (P : Platform) (cs : List StackCall) :
    ∀ s s' : GraphicsState, runStackCalls P cs s = .done s' →
      s'.transform = s.transform + (cs.count .push : Int) - (cs.count .pop : Int) := by
  induction cs with
  | nil =>
    intro s s' h
    simp only [runStackCalls] at h
    cases h
    simp
  | cons c cs ih =>
    intro s s' h
    simp only [runStackCalls] at h
    cases hc : c.run P s with
    | fatal e s1 => rw [hc] at h; simp [Outcome.andThen] at h
    | undefined s1 => rw [hc] at h; simp [Outcome.andThen] at h
    | done s1 =>
      rw [hc] at h
      simp only [Outcome.andThen] at h
      have h1 := ih s1 s' h
      cases c with
      | push =>
        have h2 := lovrGraphicsPush_depth P s s1 hc
        simp only [List.count_cons_self, List.count_cons_of_ne (by decide : StackCall.pop ≠ .push)]
        rw [h1, h2]; push_cast; ring
      | pop =>
        have h2 := lovrGraphicsPop_depth s s1 hc
        simp only [List.count_cons_self, List.count_cons_of_ne (by decide : StackCall.push ≠ .pop)]
        rw [h1, h2]; push_cast; ring

/-- A returning `lovrGraphicsPush` changes the depth and the transform rows
only. -/
theorem lovrGraphicsPush_frame (P : Platform) (s s' : GraphicsState)
    (h : lovrGraphicsPush P s = .done s') :
    s' = { s with
      transform := s.transform + 1
      transforms := memcpy P.overlap s.transforms (s.transform + 1) (s.transform + 1 - 1) 2 } := by
  unfold lovrGraphicsPush at h
  simp only at h
  split_ifs at h
  cases h; rfl

/-- At depth `MAX_TRANSFORMS - 2` the second row of the copy of
`lovrGraphicsPush` lies past the array: the push raises no error and its
behaviour is undefined. -/
theorem lovrGraphicsPush_past_array (P : Platform) (s : GraphicsState)
    (h : s.transform = MAX_TRANSFORMS - 2) :
    lovrGraphicsPush P s = .undefined { s with transform := MAX_TRANSFORMS - 1 } := by
  simp [lovrGraphicsPush, h, MAX_TRANSFORMS]

/-- From a depth `d` with `d + n < MAX_TRANSFORMS - 1`, `n` calls of
`lovrGraphicsPush` in a row return, at depth `d + n`, with the trace and the
depth test as they were. -/
theorem runStackCalls_pushes (P : Platform) (n : Nat) :
    ∀ s : GraphicsState, s.transform + n + 1 < MAX_TRANSFORMS →
      ∃ s', runStackCalls P (List.replicate n .push) s = .done s' ∧
        s'.transform = s.transform + n ∧ s'.trace = s.trace ∧
        s'.depthTest = s.depthTest ∧ s'.depthWrite = s.depthWrite ∧ s'.font = s.font := by
  induction n with
  | zero =>
    intro s _
    exact ⟨s, rfl, by simp, rfl, rfl, rfl, rfl⟩
  | succ n ih =>
    intro s h
    have hp : lovrGraphicsPush P s = .done
        { s with
          transform := s.transform + 1
          transforms :=
            memcpy P.overlap s.transforms (s.transform + 1) (s.transform + 1 - 1) 2 } := by
      have h1 : ¬ s.transform + 1 ≥ MAX_TRANSFORMS := by push_cast at h; omega
      have h2 : ¬ s.transform + 1 + 1 ≥ MAX_TRANSFORMS := by push_cast at h; omega
      simp only [lovrGraphicsPush, h1, h2, if_false]
    obtain ⟨s', r1, r2, r3, r4, r5, r6⟩ := ih
      { s with
        transform := s.transform + 1
        transforms := memcpy P.overlap s.transforms (s.transform + 1) (s.transform + 1 - 1) 2 }
      (by push_cast at h ⊢; omega)
    refine ⟨s', ?_, ?_, r3, r4, r5, r6⟩
    · simp only [List.replicate_succ, runStackCalls, StackCall.run, hp, Outcome.andThen]
      exact r1
    · rw [r2]; push_cast; ring

theorem resetState_transform : resetState.transform = 0 := by
  decide

/-- The state `deepState` is reached by returning calls and has depth
`MAX_TRANSFORMS - 2`. -/
theorem deepState_depth :
    (runStackCalls samplePlatform (List.replicate 62 .push) resetState).isDone = true ∧
      deepState.transform = MAX_TRANSFORMS - 2 := by
  obtain ⟨s', r1, r2, -⟩ := runStackCalls_pushes samplePlatform 62 resetState
    (by rw [resetState_transform]; decide)
  unfold deepState
  rw [r1]
  refine ⟨rfl, ?_⟩
  simp only [Outcome.state, r2, resetState_transform]
  decide

/-- Balanced returning sequences of pushes and pops end at the depth they
started at. -/
theorem runStackCalls_balanced (P : Platform) (s s' : GraphicsState) (cs : List StackCall)
    (hrun : runStackCalls P cs s = .done s')
    (hbal : cs.count .push = cs.count .pop) : s'.transform = s.transform := by
  rw [runStackCalls_depth P cs s s' hrun, hbal]; ring

/-- C2: a sequence of `lovrGraphicsPush` / `lovrGraphicsPop` calls with as many
pushes as pops that returns ends at the depth it started at, and
`lovrGraphicsPop` at depth 0 raises the fatal "more pops than pushes" error
(leaving the depth at -1).  But a push at depth `MAX_TRANSFORMS - 2` raises no
error and does not return a defined state, because its copy writes a row past
the array: the balanced sequence push, pop run at that depth, in which no call
raises an error, has no defined final depth. -/
theorem push_pop_balanced_depth (P : Platform) (s s' s0 t : GraphicsState) (cs : List StackCall)
    (hrun : runStackCalls P cs s = .done s')
    (hbal : cs.count .push = cs.count .pop)
    (h0 : s0.transform = 0) (ht : t.transform = MAX_TRANSFORMS - 2) :
    s'.transform = s.transform ∧
      lovrGraphicsPop s0 = .fatal .morePopsThanPushes { s0 with transform := -1 } ∧
      lovrGraphicsPush P t = .undefined { t with transform := MAX_TRANSFORMS - 1 } ∧
      runStackCalls P [.push, .pop] t = .undefined { t with transform := MAX_TRANSFORMS - 1 } := by
  refine ⟨runStackCalls_balanced P s s' cs hrun hbal, ?_, lovrGraphicsPush_past_array P t ht, ?_⟩
  · unfold lovrGraphicsPop
    simp [h0]
  · simp only [runStackCalls, StackCall.run, lovrGraphicsPush_past_array P t ht, Outcome.andThen]

theorem push_pop_balanced_depth_witness :
    (runStackCalls samplePlatform [.push, .push, .pop, .push, .pop, .pop] zeroState).isDone = true ∧
    (runStackCalls samplePlatform [.push, .push, .pop, .push, .pop, .pop] zeroState).state.transform
      = zeroState.transform ∧
    (lovrGraphicsPop zeroState).raised .morePopsThanPushes = true ∧
    (runStackCalls samplePlatform (List.replicate 62 .push) resetState).isDone = true ∧
    (lovrGraphicsPush samplePlatform deepState).isUndefined = true ∧
    (runStackCalls samplePlatform [.push, .pop] deepState).isUndefined = true :=
  have h := push_pop_balanced_depth samplePlatform zeroState
    (runStackCalls samplePlatform [.push, .push, .pop, .push, .pop, .pop] zeroState).state
    zeroState deepState [.push, .push, .pop, .push, .pop, .pop] rfl (by decide) rfl
    deepState_depth.2
  ⟨rfl, h.1, by rw [h.2.1]; rfl, deepState_depth.1, by rw [h.2.2.1]; rfl, by rw [h.2.2.2]; rfl⟩

theorem memcpy_two_rows (ord : CopyOrder) (mem : Int → Mat) (t : Int) :
    memcpy ord mem t (t - 1) 2 t = mem (t - 1) ∧
      ∀ i : Int, i < t ∨ t + 1 < i → memcpy ord mem t (t - 1) 2 i = mem i := by
  cases ord with
  | snapshot =>
    constructor
    · simp [memcpy, memcpySnapshot]
    · intro i hi
      have : ¬ (t ≤ i ∧ i < t + 2) := by omega
      simp [memcpy, memcpySnapshot, this]
  | ascending =>
    constructor
    · simp [memcpy, memcpyAscending, Function.update]
    · intro i hi
      have h1 : i ≠ t + 1 := by omega
      have h2 : i ≠ t := by omega
      simp [memcpy, memcpyAscending, Function.update, h1, h2]

/-- What `lovrGraphicsPush` does at a depth `d < MAX_TRANSFORMS - 2`, where
both rows of its copy are rows of the array: the depth grows by one, the new
top slot holds the old top matrix, and the slots up to the old top and those
above slot `d + 2` keep their matrices. -/
theorem lovrGraphicsPush_below_bound (P : Platform) (s : GraphicsState)
    (h : s.transform + 2 < MAX_TRANSFORMS) :
    ∃ s', lovrGraphicsPush P s = .done s' ∧ s'.transform = s.transform + 1 ∧
      s'.transforms (s.transform + 1) = s.transforms s.transform ∧
      ∀ i : Int, i ≤ s.transform ∨ s.transform + 2 < i → s'.transforms i = s.transforms i := by
  have hlt : ¬ s.transform + 1 ≥ MAX_TRANSFORMS := by omega
  have hlt2 : ¬ s.transform + 1 + 1 ≥ MAX_TRANSFORMS := by omega
  have hp : lovrGraphicsPush P s = .done
      { s with
        transform := s.transform + 1
        transforms := memcpy P.overlap s.transforms (s.transform + 1) (s.transform + 1 - 1) 2 } := by
    simp only [lovrGraphicsPush, hlt, hlt2, if_false]
  refine ⟨_, hp, rfl, ?_, ?_⟩
  · have := (memcpy_two_rows P.overlap s.transforms (s.transform + 1)).1
    simpa using this
  · intro i hi
    exact (memcpy_two_rows P.overlap s.transforms (s.transform + 1)).2 i (by omega)

/-- At depth `MAX_TRANSFORMS - 1` the push raises "more pushes than pops". -/
theorem lovrGraphicsPush_at_bound (P : Platform) (s : GraphicsState)
    (h : s.transform = MAX_TRANSFORMS - 1) :
    lovrGraphicsPush P s = .fatal .morePushesThanPops { s with transform := MAX_TRANSFORMS } := by
  simp [lovrGraphicsPush, h]

/-- The overlapping copy of `lovrGraphicsPush` also writes slot `d + 2`: with
the old matrix of slot `d + 1` when the source is read first, with the old top
matrix when the copy runs in ascending order. -/
theorem lovrGraphicsPush_slot_above_top (P : Platform) (s : GraphicsState)
    (h : s.transform + 2 < MAX_TRANSFORMS) :
    (lovrGraphicsPush P s).state.transforms (s.transform + 2) =
      match P.overlap with
      | .snapshot => s.transforms (s.transform + 1)
      | .ascending => s.transforms s.transform := by
  have hlt : ¬ s.transform + 1 ≥ MAX_TRANSFORMS := by omega
  have hlt2 : ¬ MAX_TRANSFORMS ≤ s.transform + 2 := by omega
  have e1 : s.transform + 2 - (s.transform + 1) = 1 := by omega
  have e2 : s.transform + 1 - 1 + 1 = s.transform + 1 := by omega
  have e3 : s.transform + 1 + 1 = s.transform + 2 := by omega
  have e4 : s.transform + 1 ≠ s.transform + 2 := by omega
  have e5 : s.transform + 1 ≤ s.transform + 2 ∧ s.transform + 2 < s.transform + 1 + 2 := by omega
  cases ho : P.overlap <;>
  simp [lovrGraphicsPush, hlt, hlt2, Outcome.state, memcpy, memcpySnapshot, memcpyAscending,
    Function.update, ho, e1, e2, e3, e4, e5]

/-- C3: `lovrGraphicsPush` writes the slot above the new top.  After origin,
push, push, scale by 2, pop, pop the depth is 0 and slot 2 holds the scaled
matrix; the next push returns with depth 1 and has replaced the matrix of
slot 2 by the identity, whichever order the overlapping `memcpy` copies in. -/
theorem lovrGraphicsPush_overwrites_slot_above_top :
    ∀ ord : CopyOrder,
      (afterNestedScale { samplePlatform with overlap := ord } zeroState).transform = 0 ∧
      (lovrGraphicsPush { samplePlatform with overlap := ord }
        (afterNestedScale { samplePlatform with overlap := ord } zeroState)).isDone = true ∧
      (lovrGraphicsPush { samplePlatform with overlap := ord }
        (afterNestedScale { samplePlatform with overlap := ord } zeroState)).state.transform = 1 ∧
      (lovrGraphicsPush { samplePlatform with overlap := ord }
        (afterNestedScale { samplePlatform with overlap := ord } zeroState)).state.transforms 2
          = identityMat ∧
      (afterNestedScale { samplePlatform with overlap := ord } zeroState).transforms 2
          ≠ identityMat := by
  intro ord
  refine ⟨?_, ?_, ?_, ?_, ?_⟩
  · cases ord <;>
    simp [afterNestedScale, lovrGraphicsPush, lovrGraphicsPop, lovrGraphicsOrigin,
      lovrGraphicsScale, Outcome.andThen, Outcome.state, memcpy, memcpySnapshot, memcpyAscending,
      Function.update, zeroState, MAX_TRANSFORMS, samplePlatform]
  · cases ord <;>
    simp [afterNestedScale, lovrGraphicsPush, lovrGraphicsPop, lovrGraphicsOrigin,
      lovrGraphicsScale, Outcome.andThen, Outcome.state, Outcome.isDone, memcpy, memcpySnapshot,
      memcpyAscending, Function.update, zeroState, MAX_TRANSFORMS, samplePlatform]
  · cases ord <;>
    simp [afterNestedScale, lovrGraphicsPush, lovrGraphicsPop, lovrGraphicsOrigin,
      lovrGraphicsScale, Outcome.andThen, Outcome.state, memcpy, memcpySnapshot, memcpyAscending,
      Function.update, zeroState, MAX_TRANSFORMS, samplePlatform]
  · cases ord <;>
    simp [afterNestedScale, lovrGraphicsPush, lovrGraphicsPop, lovrGraphicsOrigin,
      lovrGraphicsScale, Outcome.andThen, Outcome.state, memcpy, memcpySnapshot, memcpyAscending,
      Function.update, zeroState, MAX_TRANSFORMS, samplePlatform]
  · intro h
    have h0 := congrFun h 0
    revert h0
    cases ord <;>
    simp [afterNestedScale, lovrGraphicsPush, lovrGraphicsPop, lovrGraphicsOrigin,
      lovrGraphicsScale, Outcome.andThen, Outcome.state, memcpy, memcpySnapshot, memcpyAscending,
      Function.update, zeroState, MAX_TRANSFORMS, samplePlatform, sampleScale, identityMat]

/-! ## Theorems: the layer stack -/

@[simp] theorem retainEach_layer (cs : List Handle) (s : GraphicsState) :
    (retainEach cs s).layer = s.layer ∧ (retainEach cs s).layers = s.layers ∧
      (retainEach cs s).trace = s.trace := by
  unfold retainEach
  induction cs generalizing s with
  | nil => simp
  | cons c cs ih =>
    simp only [List.foldl_cons]
    have := ih (lovrRetain (some c) s)
    simpa [lovrRetain] using this

@[simp] theorem releaseEach_layer (cs : List Handle) (s : GraphicsState) :
    (releaseEach cs s).layer = s.layer ∧ (releaseEach cs s).layers = s.layers ∧
      (releaseEach cs s).trace = s.trace := by
  unfold releaseEach
  induction cs generalizing s with
  | nil => simp
  | cons c cs ih =>
    simp only [List.foldl_cons]
    have := ih (lovrRelease (some c) s)
    simpa [lovrRelease] using this

theorem resolveCount_append (c : Handle) (xs ys : List Call) :
    resolveCount c (xs ++ ys) = resolveCount c xs + resolveCount c ys := by
  induction xs with
  | nil => simp [resolveCount]
  | cons x xs ih =>
    cases x <;> simp [resolveCount, ih, Nat.add_assoc]

theorem attachEach_fields (canvas : Nat → Handle) (n : Nat) :
    ∀ (start : Nat) (s : GraphicsState),
      (attachEach canvas start n s).layer = s.layer ∧
      (attachEach canvas start n s).layers = s.layers ∧
      (attachEach canvas start n s).refs = s.refs ∧
      ∀ c, resolveCount c (attachEach canvas start n s).trace = resolveCount c s.trace := by
  induction n with
  | zero => intro start s; simp [attachEach]
  | succ n ih =>
    intro start s
    have := ih (start + 1) (emit (.glFramebufferTexture2D start (canvas start)) s)
    simpa [attachEach, emit, resolveCount_append, resolveCount] using this



theorem lovrGraphicsPushLayer_done (P : Platform) (canvas : Nat → Handle) (count : Int)
    (user : Bool) (s s' : GraphicsState)
    (h : lovrGraphicsPushLayer P canvas count user s = .done s') :
    count ≤ P.MAX_CANVASES ∧ s.layer + 1 < P.MAX_LAYERS ∧
    s'.layer = s.layer + 1 ∧
    (s'.layers (s.layer + 1)).canvasCount = count ∧
    (s'.layers (s.layer + 1)).user = user ∧
    (∀ i : Nat, (i : Int) < count → (s'.layers (s.layer + 1)).canvas i = canvas i) ∧
    (s'.layers (s.layer + 1)).viewport = (s.layers s.layer).viewport ∧
    (s'.layers (s.layer + 1)).projection = (s.layers s.layer).projection ∧
    (s'.layers (s.layer + 1)).view = (s.layers s.layer).view ∧
    (∀ j : Int, j ≠ s.layer + 1 → s'.layers j = s.layers j) ∧
    (∀ c, resolveCount c s'.trace = resolveCount c s.trace) := by
  unfold lovrGraphicsPushLayer at h
  simp only [retainEach_layer, releaseEach_layer, add_sub_cancel_right] at h
  generalize hs1 : releaseEach _ (retainEach _ _) = s1 at h
  have h1 : s1.layer = s.layer + 1 ∧ s1.layers = s.layers ∧ s1.trace = s.trace := by
    subst hs1; simp
  obtain ⟨h1a, h1b, h1c⟩ := h1
  split at h
  · cases h
  rename_i hc
  split at h
  · cases h
  rename_i hl
  have hc' : count ≤ P.MAX_CANVASES := by simpa using hc
  have hl' : s.layer + 1 < P.MAX_LAYERS := by simpa using hl
  split at h
  · rename_i hpos
    split at h
    · cases h
    split at h
    · cases h
    cases h
    refine ⟨hc', hl', ?_, ?_, ?_, ?_, ?_, ?_, ?_, ?_, ?_⟩
    · simp [emit, attachEach_fields]
    · simp [emit, attachEach_fields]
    · simp [emit, attachEach_fields]
    · intro i hi
      simp [emit, attachEach_fields]
      intro hle
      omega
    · simp [emit, attachEach_fields]
    · simp [emit, attachEach_fields]
    · simp [emit, attachEach_fields]
    · intro j hj
      simp [emit, attachEach_fields, Function.update, hj]
    · intro c
      simp [emit, attachEach_fields, resolveCount_append, resolveCount]
  · rename_i hpos
    cases h
    refine ⟨hc', hl', ?_, ?_, ?_, ?_, ?_, ?_, ?_, ?_, ?_⟩
    · simp
    · simp
    · simp
    · intro i hi
      omega
    · simp
    · simp
    · simp
    · intro j hj
      simp [Function.update, hj]
    · intro c
      simp


theorem lovrGraphicsPushLayer_returns (P : Platform) (canvas : Nat → Handle) (count : Int)
    (user : Bool) (s : GraphicsState)
    (hc : count ≤ P.MAX_CANVASES) (hl : s.layer + 1 < P.MAX_LAYERS)
    (hs : 0 < count →
      P.glCheckFramebufferStatus (firstEntries canvas count.toNat) = .GL_FRAMEBUFFER_COMPLETE) :
    ∃ s', lovrGraphicsPushLayer P canvas count user s = .done s' := by
  unfold lovrGraphicsPushLayer
  by_cases hpos : count > 0
  · simp [hc, hl, hpos, hs hpos]
  · simp [hc, hl, hpos]

/-- C4: with `count` above `MAX_CANVASES`, `lovrGraphicsPushLayer` raises the
fatal "Attempt to set %d canvases" error and the state at the throw is the
state before the call: layer depth, layers, retain counts and the trace of
hardware calls are unchanged. -/
theorem lovrGraphicsPushLayer_too_many_canvases (P : Platform) (canvas : Nat → Handle)
    (count : Int) (user : Bool) (s : GraphicsState) (h : count > P.MAX_CANVASES) :
    lovrGraphicsPushLayer P canvas count user s = .fatal .tooManyCanvases s := by
  have : ¬ count ≤ P.MAX_CANVASES := by omega
  simp [lovrGraphicsPushLayer, this]

theorem lovrGraphicsPushLayer_too_many_canvases_witness :
    (5 : Int) > samplePlatform.MAX_CANVASES ∧
      lovrGraphicsPushLayer samplePlatform (singleCanvas 7) 5 true zeroState
        = .fatal .tooManyCanvases zeroState :=
  ⟨by decide,
    lovrGraphicsPushLayer_too_many_canvases samplePlatform (singleCanvas 7) 5 true zeroState
      (by decide)⟩

/-- C5: at a layer depth `d` with `0 ≤ d < MAX_LAYERS - 1` (and at least two
canvases allowed), pushing the user layer `[T1, T2]`, a complete framebuffer,
and popping it again both return, leave the layer depth at `d`, and resolve
`T1` exactly once and no other canvas, so never `T2` when it is another canvas
than `T1`. -/
theorem pushLayer_popLayer_roundtrip (P : Platform) (s : GraphicsState) (canvas : Nat → Handle)
    (T1 T2 : Handle) (h0 : 0 ≤ s.layer) (hd : s.layer < P.MAX_LAYERS - 1)
    (hmax : 2 ≤ P.MAX_CANVASES) (hT1 : canvas 0 = T1) (hT2 : canvas 1 = T2)
    (hfb : P.glCheckFramebufferStatus [T1, T2] = .GL_FRAMEBUFFER_COMPLETE) :
    ∃ s1 s2, lovrGraphicsPushLayer P canvas 2 true s = .done s1 ∧
      lovrGraphicsPopLayer s1 = .done s2 ∧
      s2.layer = s.layer ∧
      resolveCount T1 s2.trace = resolveCount T1 s.trace + 1 ∧
      (T2 ≠ T1 → resolveCount T2 s2.trace = resolveCount T2 s.trace) ∧
      ∀ c, c ≠ T1 → resolveCount c s2.trace = resolveCount c s.trace := by
  have hentries : firstEntries canvas (2 : Int).toNat = [T1, T2] := by
    simp [firstEntries, List.range_succ, hT1, hT2]
  obtain ⟨s1, hpush⟩ := lovrGraphicsPushLayer_returns P canvas 2 true s hmax (by omega)
    (fun _ => by rw [hentries]; exact hfb)
  obtain ⟨-, -, hlayer, hcount, -, hcanvas, -, -, -, -, htrace⟩ :=
    lovrGraphicsPushLayer_done P canvas 2 true s s1 hpush
  have hc0 : (s1.layers s1.layer).canvas 0 = T1 := by
    rw [hlayer, ← hT1]; exact hcanvas 0 (by norm_num)
  have hcnt : (s1.layers s1.layer).canvasCount > 0 := by
    rw [hlayer, hcount]; norm_num
  have hge : s1.layer - 1 ≥ 0 := by omega
  have hpop : lovrGraphicsPopLayer s1 =
      .done { emit (.lovrCanvasResolve T1) s1 with layer := s1.layer - 1 } := by
    simp only [lovrGraphicsPopLayer, hcnt, if_true, hc0]
    simp [emit, hge]
  refine ⟨s1, _, hpush, hpop, ?_, ?_, ?_, ?_⟩
  · simp [hlayer]
  · simp [emit, hc0, resolveCount_append, resolveCount, htrace]
  · intro hne
    simp [emit, hc0, resolveCount_append, resolveCount, htrace, hne.symm]
  · intro c hne
    simp [emit, hc0, resolveCount_append, resolveCount, htrace, hne.symm]


theorem lovrGraphicsPopLayer_done (s s' : GraphicsState)
    (h : lovrGraphicsPopLayer s = .done s') :
    s'.layer = s.layer - 1 ∧ 0 ≤ s'.layer ∧ s'.layers = s.layers ∧ s'.refs = s.refs := by
  unfold lovrGraphicsPopLayer at h
  by_cases hge : s.layer - 1 ≥ 0
  · by_cases hc : (s.layers s.layer).canvasCount > 0
    · simp only [hc, if_true, emit, hge, not_true, if_false] at h
      cases h
      exact ⟨rfl, hge, rfl, rfl⟩
    · simp only [hc, if_false, hge, not_true] at h
      cases h
      exact ⟨rfl, hge, rfl, rfl⟩
  · by_cases hc : (s.layers s.layer).canvasCount > 0
    · simp [hc, emit, hge] at h
    · simp [hc, hge] at h

@[simp] theorem lovrGraphicsSetColor_layers (c : Color) (s : GraphicsState) :
    (lovrGraphicsSetColor c s).layer = s.layer ∧ (lovrGraphicsSetColor c s).layers = s.layers := by
  simp [lovrGraphicsSetColor]

@[simp] theorem lovrGraphicsSetCullingEnabled_layers (b : Bool) (s : GraphicsState) :
    (lovrGraphicsSetCullingEnabled b s).layer = s.layer ∧
      (lovrGraphicsSetCullingEnabled b s).layers = s.layers := by
  unfold lovrGraphicsSetCullingEnabled; split_ifs <;> simp [emit]

@[simp] theorem lovrGraphicsSetDefaultFilter_layers (f : TextureFilter) (s : GraphicsState) :
    (lovrGraphicsSetDefaultFilter f s).layer = s.layer ∧
      (lovrGraphicsSetDefaultFilter f s).layers = s.layers := by
  simp [lovrGraphicsSetDefaultFilter]

@[simp] theorem lovrGraphicsSetDepthTest_layers (m : CompareMode) (w : Bool) (s : GraphicsState) :
    (lovrGraphicsSetDepthTest m w s).layer = s.layer ∧
      (lovrGraphicsSetDepthTest m w s).layers = s.layers := by
  unfold lovrGraphicsSetDepthTest; simp only; split_ifs <;> simp [emit]

@[simp] theorem lovrGraphicsSetFont_layers (f : Option Handle) (s : GraphicsState) :
    (lovrGraphicsSetFont f s).layer = s.layer ∧ (lovrGraphicsSetFont f s).layers = s.layers := by
  cases f <;> cases hf : s.font <;> simp [lovrGraphicsSetFont, lovrRetain, lovrRelease, hf]

@[simp] theorem lovrGraphicsSetLineWidth_layers (w : CFloat) (s : GraphicsState) :
    (lovrGraphicsSetLineWidth w s).layer = s.layer ∧
      (lovrGraphicsSetLineWidth w s).layers = s.layers := by
  simp [lovrGraphicsSetLineWidth, emit]

@[simp] theorem lovrGraphicsSetPointSize_layers (p : CFloat) (s : GraphicsState) :
    (lovrGraphicsSetPointSize p s).layer = s.layer ∧
      (lovrGraphicsSetPointSize p s).layers = s.layers := by
  simp [lovrGraphicsSetPointSize]

@[simp] theorem lovrGraphicsSetShader_layers (h : Option Handle) (s : GraphicsState) :
    (lovrGraphicsSetShader h s).layer = s.layer ∧
      (lovrGraphicsSetShader h s).layers = s.layers := by
  unfold lovrGraphicsSetShader
  split_ifs
  · cases h <;> cases hf : s.shader <;> simp [lovrRetain, lovrRelease, hf]
  · simp

@[simp] theorem lovrGraphicsSetStencilTest_layers (m : CompareMode) (v : Int)
    (s : GraphicsState) :
    (lovrGraphicsSetStencilTest m v s).layer = s.layer ∧
      (lovrGraphicsSetStencilTest m v s).layers = s.layers := by
  unfold lovrGraphicsSetStencilTest; simp only; split_ifs <;> simp [emit]

@[simp] theorem lovrGraphicsSetWinding_layers (w : Winding) (s : GraphicsState) :
    (lovrGraphicsSetWinding w s).layer = s.layer ∧
      (lovrGraphicsSetWinding w s).layers = s.layers := by
  unfold lovrGraphicsSetWinding; split_ifs <;> simp [emit]

@[simp] theorem lovrGraphicsSetWireframe_layers (w : Bool) (s : GraphicsState) :
    (lovrGraphicsSetWireframe w s).layer = s.layer ∧
      (lovrGraphicsSetWireframe w s).layers = s.layers := by
  unfold lovrGraphicsSetWireframe; split_ifs <;> simp [emit]

@[simp] theorem lovrGraphicsOrigin_layers (P : Platform) (s : GraphicsState) :
    (lovrGraphicsOrigin P s).layer = s.layer ∧ (lovrGraphicsOrigin P s).layers = s.layers := by
  simp [lovrGraphicsOrigin]

@[simp] theorem lovrGraphicsSetBackgroundColor_layers (P : Platform) (c : Color)
    (s : GraphicsState) :
    (lovrGraphicsSetBackgroundColor P c s).layer = s.layer ∧
      (lovrGraphicsSetBackgroundColor P c s).layers = s.layers := by
  simp [lovrGraphicsSetBackgroundColor, emit]

@[simp] theorem lovrGraphicsSetBlendMode_layers (m : BlendMode) (a : BlendAlphaMode)
    (s : GraphicsState) :
    (lovrGraphicsSetBlendMode m a s).layer = s.layer ∧
      (lovrGraphicsSetBlendMode m a s).layers = s.layers := by
  cases m <;> simp [lovrGraphicsSetBlendMode, emit]

/-- What a returning `lovrGraphicsPushLayer` leaves on top, seen from the new
state: a layer with the given count and user flag, the given canvases, and the
viewport and matrices of the layer beneath; the other layers are untouched. -/
theorem lovrGraphicsPushLayer_top (P : Platform) (canvas : Nat → Handle) (count : Int)
    (user : Bool) (s s' : GraphicsState)
    (h : lovrGraphicsPushLayer P canvas count user s = .done s') :
    s'.layer = s.layer + 1 ∧
    (s'.layers s'.layer).canvasCount = count ∧
    (s'.layers s'.layer).user = user ∧
    (∀ i : Nat, (i : Int) < count → (s'.layers s'.layer).canvas i = canvas i) ∧
    (s'.layers s'.layer).viewport = (s'.layers (s'.layer - 1)).viewport ∧
    (s'.layers s'.layer).projection = (s'.layers (s'.layer - 1)).projection ∧
    (s'.layers s'.layer).view = (s'.layers (s'.layer - 1)).view ∧
    (∀ j : Int, j ≠ s'.layer → s'.layers j = s.layers j) := by
  obtain ⟨-, -, hl, h1, h2, h3, h4, h5, h6, h7, -⟩ :=
    lovrGraphicsPushLayer_done P canvas count user s s' h
  have hb : s'.layers (s'.layer - 1) = s.layers s.layer := by
    rw [hl, add_sub_cancel_right]; exact h7 _ (by omega)
  rw [hb, hl]
  exact ⟨rfl, h1, h2, h3, h4, h5, h6, h7⟩

theorem lovrGraphicsSetCanvas_done (P : Platform) (canvas : Nat → Handle) (n : Int)
    (s s' : GraphicsState) (h : lovrGraphicsSetCanvas P canvas n s = .done s') :
    s'.layer = (if (s.layers s.layer).user = true then s.layer else s.layer + 1) ∧
    (s'.layers s'.layer).canvasCount = n ∧
    (s'.layers s'.layer).user = true ∧
    (∀ i : Nat, (i : Int) < n → (s'.layers s'.layer).canvas i = canvas i) ∧
    (s'.layers s'.layer).viewport = (s'.layers (s'.layer - 1)).viewport ∧
    (s'.layers s'.layer).projection = (s'.layers (s'.layer - 1)).projection ∧
    (s'.layers s'.layer).view = (s'.layers (s'.layer - 1)).view ∧
    (∀ j : Int, j ≠ s'.layer → s'.layers j = s.layers j) := by
  unfold lovrGraphicsSetCanvas at h
  by_cases hu : (s.layers s.layer).user = true
  · simp only [hu, if_true] at h
    cases hpop : lovrGraphicsPopLayer s with
    | fatal e s1 => rw [hpop] at h; simp [Outcome.andThen] at h
    | undefined s1 => rw [hpop] at h; simp [Outcome.andThen] at h
    | done s1 =>
      rw [hpop] at h
      simp only [Outcome.andThen] at h
      obtain ⟨p1, -, p3, -⟩ := lovrGraphicsPopLayer_done s s1 hpop
      obtain ⟨q1, q2, q3, q4, q5, q6, q7, q8⟩ := lovrGraphicsPushLayer_top P canvas n true s1 s' h
      refine ⟨?_, q2, q3, q4, q5, q6, q7, ?_⟩
      · rw [q1, p1]; simp [hu]
      · intro j hj; rw [q8 j hj, p3]
  · simp only [hu] at h
    simp only [Outcome.andThen] at h
    obtain ⟨q1, q2, q3, q4, q5, q6, q7, q8⟩ := lovrGraphicsPushLayer_top P canvas n true s s' h
    exact ⟨by simp [hu, q1], q2, q3, q4, q5, q6, q7, q8⟩


/-- A returning `lovrGraphicsSetCanvas` on a user layer has popped it, so the
depth was at least 1. -/
theorem lovrGraphicsSetCanvas_user_depth (P : Platform) (canvas : Nat → Handle) (n : Int)
    (s s' : GraphicsState) (h : lovrGraphicsSetCanvas P canvas n s = .done s')
    (hu : (s.layers s.layer).user = true) : 1 ≤ s.layer := by
  unfold lovrGraphicsSetCanvas at h
  simp only [hu, if_true] at h
  cases hpop : lovrGraphicsPopLayer s with
  | fatal e s1 => rw [hpop] at h; simp [Outcome.andThen] at h
  | undefined s1 => rw [hpop] at h; simp [Outcome.andThen] at h
  | done s1 =>
    obtain ⟨p1, p2, -, -⟩ := lovrGraphicsPopLayer_done s s1 hpop
    omega

/-- The state a returning `lovrGraphicsReset` leaves: depth 1 with an empty
user layer on top of a layer that is not a user layer. -/
theorem lovrGraphicsReset_done (P : Platform) (s0 s : GraphicsState)
    (h : lovrGraphicsReset P s0 = .done s) :
    s.layer = 1 ∧ (s.layers 1).user = true ∧ (s.layers 1).canvasCount = 0 ∧
      (s.layers 0).user = false := by
  unfold lovrGraphicsReset at h
  simp only at h
  generalize hx : lovrGraphicsSetBlendMode _ _ (lovrGraphicsSetBackgroundColor P _ _) = sx at h
  have hxl : sx.layer = 0 := by subst hx; simp
  cases hset : lovrGraphicsSetCanvas P (fun _ => 0) 0 sx with
  | fatal e s1 => rw [hset] at h; simp [Outcome.andThen] at h
  | undefined s1 => rw [hset] at h; simp [Outcome.andThen] at h
  | done s1 =>
    rw [hset] at h
    simp only [Outcome.andThen] at h
    cases h
    obtain ⟨q1, q2, q3, -, -, -, -, q8⟩ := lovrGraphicsSetCanvas_done P _ 0 sx s1 hset
    have hnu : (sx.layers sx.layer).user = false := by
      cases hb : (sx.layers sx.layer).user with
      | false => rfl
      | true =>
        have := lovrGraphicsSetCanvas_user_depth P _ 0 sx s1 hset hb
        omega
    rw [hxl] at hnu q1
    have hl1 : s1.layer = 1 := by rw [q1]; simp [hnu]
    simp only [lovrGraphicsOrigin_layers, lovrGraphicsSetWireframe_layers,
      lovrGraphicsSetWinding_layers, lovrGraphicsSetStencilTest_layers,
      lovrGraphicsSetShader_layers, lovrGraphicsSetPointSize_layers,
      lovrGraphicsSetLineWidth_layers, lovrGraphicsSetFont_layers,
      lovrGraphicsSetDepthTest_layers, lovrGraphicsSetDefaultFilter_layers,
      lovrGraphicsSetCullingEnabled_layers, lovrGraphicsSetColor_layers]
    rw [hl1] at q2 q3 q8
    refine ⟨hl1, q3, q2, ?_⟩
    rw [q8 0 (by norm_num)]
    exact hnu

theorem lovrGraphicsSetCanvas_keeps_reset_shape (P : Platform) (canvas : Nat → Handle) (n : Int)
    (r r' : GraphicsState) (h : lovrGraphicsSetCanvas P canvas n r = .done r')
    (h1 : r.layer = 1) (h2 : (r.layers 1).user = true) (h3 : (r.layers 0).user = false) :
    r'.layer = 1 ∧ (r'.layers 1).user = true ∧ (r'.layers 0).user = false := by
  obtain ⟨q1, -, q3, -, -, -, -, q8⟩ := lovrGraphicsSetCanvas_done P canvas n r r' h
  have hl : r'.layer = 1 := by rw [q1, h1]; simp [h2]
  rw [hl] at q3 q8
  exact ⟨hl, q3, by rw [q8 0 (by norm_num)]; exact h3⟩

theorem runSetCanvas_keeps_reset_shape (P : Platform) (calls : List ((Nat → Handle) × Int)) :
    ∀ r r' : GraphicsState, runSetCanvas P calls r = .done r' →
      r.layer = 1 → (r.layers 1).user = true → (r.layers 0).user = false →
      r'.layer = 1 ∧ (r'.layers 1).user = true ∧ (r'.layers 0).user = false := by
  induction calls with
  | nil =>
    intro r r' h h1 h2 h3
    simp only [runSetCanvas] at h
    cases h
    exact ⟨h1, h2, h3⟩
  | cons c cs ih =>
    intro r r' h h1 h2 h3
    obtain ⟨canvas, n⟩ := c
    simp only [runSetCanvas] at h
    cases hset : lovrGraphicsSetCanvas P canvas n r with
    | fatal e s1 => rw [hset] at h; simp [Outcome.andThen] at h
    | undefined s1 => rw [hset] at h; simp [Outcome.andThen] at h
    | done s1 =>
      rw [hset] at h
      simp only [Outcome.andThen] at h
      obtain ⟨a1, a2, a3⟩ := lovrGraphicsSetCanvas_keeps_reset_shape P canvas n r s1 hset h1 h2 h3
      exact ih s1 r' h a1 a2 a3

theorem firstEntries_congr (a b : Nat → Handle) (n : Nat) (h : ∀ i, i < n → a i = b i) :
    firstEntries a n = firstEntries b n := by
  unfold firstEntries
  apply List.map_congr_left
  intro i hi
  exact h i (List.mem_range.mp hi)

theorem Outcome.eq_done_of_isDone {σ : Type} (o : Outcome σ) (h : o.isDone = true) :
    o = .done o.state := by
  cases o with
  | done s => rfl
  | fatal e s => simp [Outcome.isDone] at h
  | undefined s => simp [Outcome.isDone] at h

/-- C8: a returning `lovrGraphicsSetCanvas(canvas, n)` leaves the depth where
it was when the top layer was a user layer and one higher otherwise; the new
top layer is a user layer holding the `n` given canvases in order, which is
what `lovrGraphicsGetCanvas` then returns, with the viewport, projection and
view of the layer beneath it.  Hence from the state after `lovrGraphicsReset`
any sequence of returning `lovrGraphicsSetCanvas` calls keeps the depth, and
among the layers up to the top the top layer is the only user layer. -/
theorem setCanvas_single_user_layer (P : Platform) (canvas : Nat → Handle) (n : Int)
    (s s' s0 r r' : GraphicsState) (calls : List ((Nat → Handle) × Int))
    (hdone : lovrGraphicsSetCanvas P canvas n s = .done s')
    (hreset : lovrGraphicsReset P s0 = .done r)
    (hseq : runSetCanvas P calls r = .done r') :
    s'.layer = (if (s.layers s.layer).user = true then s.layer else s.layer + 1) ∧
    (s'.layers s'.layer).user = true ∧
    (s'.layers s'.layer).canvasCount = n ∧
    (∀ i : Nat, (i : Int) < n → (s'.layers s'.layer).canvas i = canvas i) ∧
    lovrGraphicsGetCanvas s' = (firstEntries canvas n.toNat, n) ∧
    (s'.layers s'.layer).viewport = (s'.layers (s'.layer - 1)).viewport ∧
    (s'.layers s'.layer).projection = (s'.layers (s'.layer - 1)).projection ∧
    (s'.layers s'.layer).view = (s'.layers (s'.layer - 1)).view ∧
    r'.layer = r.layer ∧
    ∀ j : Int, 0 ≤ j → j ≤ r'.layer → ((r'.layers j).user = true ↔ j = r'.layer) := by
  obtain ⟨q1, q2, q3, q4, q5, q6, q7, -⟩ := lovrGraphicsSetCanvas_done P canvas n s s' hdone
  obtain ⟨r1, r2, -, r4⟩ := lovrGraphicsReset_done P s0 r hreset
  obtain ⟨t1, t2, t3⟩ := runSetCanvas_keeps_reset_shape P calls r r' hseq r1 r2 r4
  refine ⟨q1, q3, q2, q4, ?_, q5, q6, q7, by rw [t1, r1], ?_⟩
  · unfold lovrGraphicsGetCanvas
    simp only [q3, if_true, q2]
    congr 1
    apply firstEntries_congr
    intro i hi
    exact q4 i (by omega)
  · intro j hj0 hj1
    rw [t1] at hj1 ⊢
    have hj : j = 0 ∨ j = 1 := by omega
    rcases hj with hj | hj
    · subst hj; simp [t3]
    · subst hj; simp [t2]

theorem setCanvas_single_user_layer_witness :
    canvasSetState.layer = resetState.layer ∧
    (canvasSetState.layers canvasSetState.layer).user = true ∧
    lovrGraphicsGetCanvas canvasSetState = ([7], 1) ∧
    (runSetCanvas samplePlatform [(singleCanvas 7, 1), (fun _ => 0, 0), (singleCanvas 9, 2)]
      resetState).state.layer = resetState.layer :=
  have h := setCanvas_single_user_layer samplePlatform (singleCanvas 7) 1 resetState
    canvasSetState zeroState resetState
    (runSetCanvas samplePlatform [(singleCanvas 7, 1), (fun _ => 0, 0), (singleCanvas 9, 2)]
      resetState).state
    [(singleCanvas 7, 1), (fun _ => 0, 0), (singleCanvas 9, 2)]
    (Outcome.eq_done_of_isDone _ (by decide))
    (Outcome.eq_done_of_isDone _ (by decide))
    (Outcome.eq_done_of_isDone _ (by decide))
  ⟨h.1, h.2.1, h.2.2.2.2.1, h.2.2.2.2.2.2.2.2.1⟩


theorem pushLayer_popLayer_roundtrip_witness :
    ∃ s1 s2, lovrGraphicsPushLayer samplePlatform (fun i => if i = 0 then 7 else 9) 2 true
        resetState = .done s1 ∧
      lovrGraphicsPopLayer s1 = .done s2 ∧
      s2.layer = resetState.layer ∧
      resolveCount 7 s2.trace = resolveCount 7 resetState.trace + 1 ∧
      ((9 : Handle) ≠ 7 → resolveCount 9 s2.trace = resolveCount 9 resetState.trace) ∧
      ∀ c, c ≠ 7 → resolveCount c s2.trace = resolveCount c resetState.trace :=
  pushLayer_popLayer_roundtrip samplePlatform resetState (fun i => if i = 0 then 7 else 9) 7 9
    (by decide) (by decide) (by decide) rfl rfl rfl

/-- C6: `lovrGraphicsPopLayer` releases nothing.  After reset no reference is
held on canvas 7; setting it as the user canvas retains it once; popping that
layer returns and still leaves the reference, as does replacing the user
canvases by none with `lovrGraphicsSetCanvas`; and a push of `[7]` followed by
a pop leaves the count at 1 instead of 0. -/
theorem lovrGraphicsPopLayer_releases_nothing :
    resetState.refs 7 = 0 ∧
    canvasSetState.layer = 1 ∧
    (canvasSetState.layers 1).canvasCount = 1 ∧
    (canvasSetState.layers 1).canvas 0 = 7 ∧
    canvasSetState.refs 7 = 1 ∧
    (lovrGraphicsPopLayer canvasSetState).isDone = true ∧
    (lovrGraphicsPopLayer canvasSetState).state.refs 7 = 1 ∧
    (lovrGraphicsSetCanvas samplePlatform (fun _ => 0) 0 canvasSetState).isDone = true ∧
    (lovrGraphicsSetCanvas samplePlatform (fun _ => 0) 0 canvasSetState).state.refs 7 = 1 ∧
    ((lovrGraphicsPushLayer samplePlatform (singleCanvas 7) 1 false resetState).andThen
      lovrGraphicsPopLayer).isDone = true ∧
    ((lovrGraphicsPushLayer samplePlatform (singleCanvas 7) 1 false resetState).andThen
      lovrGraphicsPopLayer).state.refs 7 = 1 := by
  decide

/-- C7: `lovrGraphicsPushLayer` releases the canvases of the layer it nests
on.  With canvas 7 set as the user canvas (one reference held, layer 1),
pushing the layer `[9]` returns at depth 2, layer 1 still holds canvas 7, and
the reference on canvas 7 is gone. -/
theorem lovrGraphicsPushLayer_releases_layer_beneath :
    canvasSetState.layer = 1 ∧
    canvasSetState.refs 7 = 1 ∧
    (lovrGraphicsPushLayer samplePlatform (singleCanvas 9) 1 false canvasSetState).isDone = true ∧
    (lovrGraphicsPushLayer samplePlatform (singleCanvas 9) 1 false canvasSetState).state.layer = 2 ∧
    ((lovrGraphicsPushLayer samplePlatform (singleCanvas 9) 1 false canvasSetState).state.layers
      1).canvasCount = 1 ∧
    ((lovrGraphicsPushLayer samplePlatform (singleCanvas 9) 1 false canvasSetState).state.layers
      1).canvas 0 = 7 ∧
    (lovrGraphicsPushLayer samplePlatform (singleCanvas 9) 1 false canvasSetState).state.refs 7
      = 0 ∧
    (lovrGraphicsPushLayer samplePlatform (singleCanvas 9) 1 false canvasSetState).state.refs 9
      = 1 := by
  decide

/-! ## Theorems: the blend mode -/

/-- C9 (as amended): every `lovrGraphicsSetBlendMode(m, a)` issues exactly two
hardware calls, one `glBlendEquation` followed by one `glBlendFuncSeparate`,
whether or not `(m, a)` is the blend mode already in force. -/
theorem lovrGraphicsSetBlendMode_trace (m : BlendMode) (a : BlendAlphaMode) (s : GraphicsState) :
    ∃ e f1 f2 f3 f4, (lovrGraphicsSetBlendMode m a s).trace =
      s.trace ++ [.glBlendEquation e, .glBlendFuncSeparate f1 f2 f3 f4] := by
  cases m <;> simp [lovrGraphicsSetBlendMode, emit]

/-- The setter `lovrGraphicsSetBlendMode` writes neither `state.blendMode` nor
`state.blendAlphaMode`. -/
theorem lovrGraphicsSetBlendMode_keeps_cache (m : BlendMode) (a : BlendAlphaMode)
    (s : GraphicsState) :
    lovrGraphicsGetBlendMode (lovrGraphicsSetBlendMode m a s) = lovrGraphicsGetBlendMode s := by
  cases m <;> simp [lovrGraphicsSetBlendMode, lovrGraphicsGetBlendMode, emit]

/-- C9, as stated, fails: setting the blend mode to its current value still
issues the two hardware calls.  After reset the blend mode is (alpha, alpha-multiply);
setting it again issues two blend calls, and so does the second of two equal
`lovrGraphicsSetBlendMode(BLEND_ADD, BLEND_PREMULTIPLIED)` calls. -/
theorem lovrGraphicsSetBlendMode_repeated :
    lovrGraphicsGetBlendMode resetState = (.BLEND_ALPHA, .BLEND_ALPHA_MULTIPLY) ∧
    ((callsSince resetState
      (lovrGraphicsSetBlendMode .BLEND_ALPHA .BLEND_ALPHA_MULTIPLY resetState)).map
        Call.isBlendCall) = [true, true] ∧
    ((callsSince (lovrGraphicsSetBlendMode .BLEND_ADD .BLEND_PREMULTIPLIED resetState)
      (lovrGraphicsSetBlendMode .BLEND_ADD .BLEND_PREMULTIPLIED
        (lovrGraphicsSetBlendMode .BLEND_ADD .BLEND_PREMULTIPLIED resetState))).map
          Call.isBlendCall) = [true, true] := by
  decide

/-- C10: `lovrGraphicsGetBlendMode` does not return what was set.  After
`lovrGraphicsSetBlendMode(BLEND_ADD, BLEND_PREMULTIPLIED)` on the post-reset
state it returns `(BLEND_ALPHA, BLEND_ALPHA_MULTIPLY)`. -/
theorem lovrGraphicsGetBlendMode_after_set :
    lovrGraphicsGetBlendMode
      (lovrGraphicsSetBlendMode .BLEND_ADD .BLEND_PREMULTIPLIED resetState)
        = (.BLEND_ALPHA, .BLEND_ALPHA_MULTIPLY) := by
  decide

/-! ## Theorems: draw submission -/

/-- C1 (as amended): a request without mesh, material and transform that
carries `n > 0` inline vertices whose `n * 8 * sizeof(float)` bytes are fewer
than `2 ^ 32`, drawn while no shader is bound and the dynamic mesh has no
material, returns after copying the `n * 8` floats to the start of the dynamic
buffer and issuing exactly one call, a `gpuDraw` of the dynamic mesh whose
shader is the default shader of the selector (the cached one when there was
one), whose material is the default material (the cached one when there was
one), and whose instance count is the `instances` field of the request. -/
theorem lovrGraphicsDraw_inline_vertices (P : Platform) (s : GraphicsState) (draw : GraphicsDraw)
    (hmesh : draw.mesh = none) (hmat : draw.material = none) (hn : 0 < draw.vertexCount)
    (hb : draw.vertexCount * 8 * sizeofFloat < 2 ^ 32)
    (ht : draw.transform = none) (hsh : s.shader = none) (hmm : s.mesh.material = none) :
    ∃ s' cmd, lovrGraphicsDraw P draw s = .done s' ∧
      s'.trace = s.trace ++ [.gpuDraw cmd] ∧
      cmd.mesh = .dynamic ∧
      (∀ i, i < draw.vertexCount * 8 → s'.mesh.vertices i = draw.vertexData i) ∧
      s'.defaultShaders draw.shader = some cmd.shader ∧
      (∀ h, s.defaultShaders draw.shader = some h → cmd.shader = h) ∧
      s'.defaultMaterial = some cmd.material ∧
      (∀ m, s.defaultMaterial = some m → cmd.material = m) ∧
      cmd.instances = draw.instances := by
  have hn' : draw.vertexCount ≠ 0 := by omega
  have hv : draw.vertexCount % 4294967296 = draw.vertexCount :=
    Nat.mod_eq_of_lt (by simp only [sizeofFloat] at hb; omega)
  have hv8 : draw.vertexCount * 8 % 4294967296 = draw.vertexCount * 8 :=
    Nat.mod_eq_of_lt (by simp only [sizeofFloat] at hb; omega)
  unfold lovrGraphicsDraw
  simp only [ht, Outcome.andThen]
  cases hds : s.defaultShaders draw.shader <;> cases hdm : s.defaultMaterial <;>
    by_cases hi : draw.indexCount % 4294967296 = 0 <;>
    simp [resolveShader, resolveMesh, resolveMaterial, lovrGraphicsGetDefaultMaterial,
      createObject, lovrMeshGetMaterial, lovrGraphicsGetVertexPointer, lovrMeshResize,
      lovrMeshWriteIndices, lovrMeshSetDrawMode, lovrMeshSetDrawRange, copyInto, emit,
      hsh, hds, hdm, hmesh, hmat, hmm, hi, hn', hv, hv8] <;>
    (intro i h1 h2; omega)


theorem lovrGraphicsDraw_inline_vertices_witness :
    ∃ s' cmd, lovrGraphicsDraw samplePlatform triangleRequest resetState = .done s' ∧
      s'.trace = resetState.trace ++ [.gpuDraw cmd] ∧
      cmd.mesh = .dynamic ∧
      (∀ i, i < triangleRequest.vertexCount * 8 →
        s'.mesh.vertices i = triangleRequest.vertexData i) ∧
      s'.defaultShaders triangleRequest.shader = some cmd.shader ∧
      (∀ h, resetState.defaultShaders triangleRequest.shader = some h → cmd.shader = h) ∧
      s'.defaultMaterial = some cmd.material ∧
      (∀ m, resetState.defaultMaterial = some m → cmd.material = m) ∧
      cmd.instances = triangleRequest.instances :=
  lovrGraphicsDraw_inline_vertices samplePlatform resetState triangleRequest rfl rfl
    (by decide) (by decide) rfl (by decide) (by decide)

/-- C1, as stated, fails: the triangle request (no mesh, no material, three
inline vertices, no transform, instance count left unspecified) drawn on the
post-reset state (no shader bound, no material on the dynamic mesh) issues one
draw command, and its instance count is 0, not 1. -/
theorem lovrGraphicsDraw_instances_not_one :
    triangleRequest.mesh = none ∧ triangleRequest.material = none ∧
    triangleRequest.vertexCount = 3 ∧ triangleRequest.transform = none ∧
    resetState.shader = none ∧ resetState.mesh.material = none ∧
    (lovrGraphicsDraw samplePlatform triangleRequest resetState).isDone = true ∧
    (gpuDrawCommands (callsSince resetState
      (lovrGraphicsDraw samplePlatform triangleRequest resetState).state)).map
        (fun cmd => cmd.instances) = [0] ∧
    ¬ ∃ cmd, gpuDrawCommands (callsSince resetState
        (lovrGraphicsDraw samplePlatform triangleRequest resetState).state) = [cmd] ∧
      cmd.instances = 1 := by
  have h : (gpuDrawCommands (callsSince resetState
      (lovrGraphicsDraw samplePlatform triangleRequest resetState).state)).map
        (fun cmd => cmd.instances) = [0] := by decide
  refine ⟨rfl, rfl, rfl, rfl, by decide, by decide, by decide, h, ?_⟩
  rintro ⟨cmd, hc, hi⟩
  rw [hc] at h
  simp [hi] at h

/-! ## Theorems: getters, colours and the shader and font slots -/

/-- C13: `lovrGraphicsSetBackgroundColor(c)` stores `c` unchanged, so that
`lovrGraphicsGetBackgroundColor` returns exactly `c`, and issues one
`glClearColor`: with gamma-correct rendering enabled its red, green and blue
are `lovrMathGammaToLinear` of those of `c` and its alpha is that of `c`; with
gamma-correct rendering disabled it receives `c` unchanged. -/
theorem lovrGraphicsSetBackgroundColor_gamma (P : Platform) (c : Color) (s : GraphicsState) :
    lovrGraphicsGetBackgroundColor (lovrGraphicsSetBackgroundColor P c s) = c ∧
    (lovrGraphicsSetBackgroundColor P c s).trace = s.trace ++
      [if s.gammaCorrect = true then
        .glClearColor (P.lovrMathGammaToLinear c.r) (P.lovrMathGammaToLinear c.g)
          (P.lovrMathGammaToLinear c.b) c.a
      else .glClearColor c.r c.g c.b c.a] := by
  cases hg : s.gammaCorrect <;>
    simp [lovrGraphicsSetBackgroundColor, lovrGraphicsGetBackgroundColor, gammaCorrectColor,
      emit, hg]

theorem lovrRetain_refs (o : Option Handle) (s : GraphicsState) (h : Handle) :
    (lovrRetain o s).refs h = s.refs h + slotRetains o h := by
  cases o with
  | none => simp [lovrRetain, slotRetains]
  | some a =>
    by_cases hh : h = a
    · subst hh; simp [lovrRetain, slotRetains]
    · have : a ≠ h := fun e => hh e.symm
      simp [lovrRetain, slotRetains, Function.update, hh, this]

theorem lovrRelease_refs (o : Option Handle) (s : GraphicsState) (h : Handle) :
    (lovrRelease o s).refs h = s.refs h - slotRetains o h := by
  cases o with
  | none => simp [lovrRelease, slotRetains]
  | some a =>
    by_cases hh : h = a
    · subst hh; simp [lovrRelease, slotRetains]
    · have : a ≠ h := fun e => hh e.symm
      simp [lovrRelease, slotRetains, Function.update, hh, this]

theorem lovrRetain_slots (o : Option Handle) (s : GraphicsState) :
    (lovrRetain o s).shader = s.shader ∧ (lovrRetain o s).font = s.font := by
  cases o <;> simp [lovrRetain]

theorem lovrRelease_slots (o : Option Handle) (s : GraphicsState) :
    (lovrRelease o s).shader = s.shader ∧ (lovrRelease o s).font = s.font := by
  cases o <;> simp [lovrRelease]

theorem lovrGraphicsSetShader_refs (x : Option Handle) (s : GraphicsState) (h : Handle) :
    (lovrGraphicsSetShader x s).shader = x ∧
    (lovrGraphicsSetShader x s).font = s.font ∧
    (lovrGraphicsSetShader x s).refs h = s.refs h + slotRetains x h - slotRetains s.shader h := by
  unfold lovrGraphicsSetShader
  by_cases hx : x = s.shader
  · subst hx
    simp
  · simp only [ne_eq, hx, not_false_eq_true, if_true]
    refine ⟨by first | rfl | trivial, ?_, ?_⟩
    · simp [lovrRetain_slots, lovrRelease_slots]
    · simp [lovrRetain_refs, lovrRelease_refs, lovrRetain_slots]

theorem lovrGraphicsSetFont_refs (x : Option Handle) (s : GraphicsState) (h : Handle) :
    (lovrGraphicsSetFont x s).font = x ∧
    (lovrGraphicsSetFont x s).shader = s.shader ∧
    (lovrGraphicsSetFont x s).refs h = s.refs h + slotRetains x h - slotRetains s.font h := by
  unfold lovrGraphicsSetFont
  refine ⟨rfl, ?_, ?_⟩
  · simp [lovrRetain_slots, lovrRelease_slots]
  · simp [lovrRetain_refs, lovrRelease_refs, lovrRetain_slots]

theorem runSlotCalls_refs (cs : List SlotCall) :
    ∀ (s : GraphicsState) (h : Handle),
      (runSlotCalls cs s).refs h - slotRetains (runSlotCalls cs s).shader h
          - slotRetains (runSlotCalls cs s).font h
        = s.refs h - slotRetains s.shader h - slotRetains s.font h := by
  induction cs with
  | nil => intro s h; rfl
  | cons c cs ih =>
    intro s h
    cases c with
    | setShader x =>
      simp only [runSlotCalls]
      rw [ih]
      obtain ⟨h1, h2, h3⟩ := lovrGraphicsSetShader_refs x s h
      rw [h1, h2, h3]; ring
    | setFont x =>
      simp only [runSlotCalls]
      rw [ih]
      obtain ⟨h1, h2, h3⟩ := lovrGraphicsSetFont_refs x s h
      rw [h1, h2, h3]; ring

/-- C14: `lovrGraphicsSetShader(x)` and `lovrGraphicsSetFont(x)` leave their
slot holding `x`.  When `x` differs from the handle held before, `x` (if not
null) gains exactly one reference and the handle held before (if not null)
loses exactly one, and no other count changes; when `x` is the handle held
before, no count changes.  Hence over any sequence of such calls the count of
an object changes by the retains the two slots hold on it afterwards minus
those they held before, a slot holding one retain on the object it holds and
none on any other. -/
theorem shader_font_slot_retains (x : Option Handle) (s : GraphicsState) (h : Handle)
    (cs : List SlotCall) :
    (lovrGraphicsSetShader x s).shader = x ∧
    (lovrGraphicsSetFont x s).font = x ∧
    (x ≠ s.shader →
      (x = some h → (lovrGraphicsSetShader x s).refs h = s.refs h + 1) ∧
      (s.shader = some h → (lovrGraphicsSetShader x s).refs h = s.refs h - 1) ∧
      (x ≠ some h → s.shader ≠ some h → (lovrGraphicsSetShader x s).refs h = s.refs h)) ∧
    (x = s.shader → (lovrGraphicsSetShader x s).refs h = s.refs h) ∧
    (x ≠ s.font →
      (x = some h → (lovrGraphicsSetFont x s).refs h = s.refs h + 1) ∧
      (s.font = some h → (lovrGraphicsSetFont x s).refs h = s.refs h - 1) ∧
      (x ≠ some h → s.font ≠ some h → (lovrGraphicsSetFont x s).refs h = s.refs h)) ∧
    (x = s.font → (lovrGraphicsSetFont x s).refs h = s.refs h) ∧
    (runSlotCalls cs s).refs h =
      s.refs h + (slotRetains (runSlotCalls cs s).shader h - slotRetains s.shader h)
        + (slotRetains (runSlotCalls cs s).font h - slotRetains s.font h) := by
  obtain ⟨a1, -, a3⟩ := lovrGraphicsSetShader_refs x s h
  obtain ⟨b1, -, b3⟩ := lovrGraphicsSetFont_refs x s h
  have hseq := runSlotCalls_refs cs s h
  refine ⟨a1, b1, ?_, ?_, ?_, ?_, by omega⟩
  · intro hne
    refine ⟨?_, ?_, ?_⟩
    · intro hx
      have : s.shader ≠ some h := fun e => hne (hx.trans e.symm)
      rw [a3]; simp [slotRetains, hx, this]
    · intro hs
      have : x ≠ some h := fun e => hne (e.trans hs.symm)
      rw [a3]; simp [slotRetains, hs, this]
    · intro hx hs
      rw [a3]; simp [slotRetains, hx, hs]
  · intro he
    rw [a3, he]; ring
  · intro hne
    refine ⟨?_, ?_, ?_⟩
    · intro hx
      have : s.font ≠ some h := fun e => hne (hx.trans e.symm)
      rw [b3]; simp [slotRetains, hx, this]
    · intro hs
      have : x ≠ some h := fun e => hne (e.trans hs.symm)
      rw [b3]; simp [slotRetains, hs, this]
    · intro hx hs
      rw [b3]; simp [slotRetains, hx, hs]
  · intro he
    rw [b3, he]; ring

theorem shader_font_slot_retains_witness :
    (lovrGraphicsSetShader (some 5) resetState).shader = some 5 ∧
    (lovrGraphicsSetShader (some 5) resetState).refs 5 = resetState.refs 5 + 1 ∧
    (lovrGraphicsSetFont (some 5) resetState).refs 5 = resetState.refs 5 + 1 ∧
    (runSlotCalls [.setShader (some 5), .setFont (some 6), .setShader (some 6), .setShader none]
      resetState).refs 5 = resetState.refs 5 :=
  have h := shader_font_slot_retains (some 5) resetState 5
    [.setShader (some 5), .setFont (some 6), .setShader (some 6), .setShader none]
  ⟨h.1, (h.2.2.1 (by decide)).1 rfl, (h.2.2.2.2.1 (by decide)).1 rfl,
    h.2.2.2.2.2.2.trans (by decide)⟩

/-- C11 (as amended): `lovrGraphicsGetFont` changes nothing when a font is
active; when none is active it makes the default font the active font and
retains it (with no default font yet it first creates one), and returns it.
`lovrGraphicsGetLimits` changes nothing once the limits are cached; the first
call asks the driver with four `glGet` calls and stores the answers, marked
initialized, in `state.limits`.  Each of the other fourteen state getters
leaves the state it was called in, in every state: no field changes, no
retain count changes, no object is created and no call is issued; and the
state a call of `lovrGraphicsGetFont` or `lovrGraphicsGetLimits` leaves is the
one described above. -/
theorem getFont_getLimits_effects (P : Platform) (s1 s2 s3 s4 : GraphicsState)
    (h1 : s1.font ≠ none) (h2 : s2.font = none)
    (h3 : s3.limits.initialized = true) (h4 : s4.limits.initialized = false) :
    lovrGraphicsGetFont s1 = (s1.font, s1) ∧
    (lovrGraphicsGetFont s2).1 = (lovrGraphicsGetFont s2).2.font ∧
    (lovrGraphicsGetFont s2).2.font = (lovrGraphicsGetFont s2).2.defaultFont ∧
    (lovrGraphicsGetFont s2).2.font ≠ none ∧
    (∀ f, s2.defaultFont = some f →
      lovrGraphicsGetFont s2 =
        (some f, { s2 with font := some f, refs := Function.update s2.refs f (s2.refs f + 1) })) ∧
    (s2.defaultFont = none →
      (lovrGraphicsGetFont s2).2.font = some (s2.nextHandle + 1) ∧
      (lovrGraphicsGetFont s2).2.refs (s2.nextHandle + 1) = 2 ∧
      (lovrGraphicsGetFont s2).2.nextHandle = s2.nextHandle + 2) ∧
    lovrGraphicsGetLimits P s3 = (s3.limits, s3) ∧
    (lovrGraphicsGetLimits P s4).1 = (lovrGraphicsGetLimits P s4).2.limits ∧
    (lovrGraphicsGetLimits P s4).2.limits =
      { initialized := true
        pointSizes := P.pointSizeRange
        textureSize := P.maxTextureSize
        textureMSAA := P.maxSamples
        textureAnisotropy := P.maxAnisotropy } ∧
    (lovrGraphicsGetLimits P s4).2.trace = s4.trace ++
      [.glGetFloatv .GL_POINT_SIZE_RANGE, .glGetIntegerv .GL_MAX_TEXTURE_SIZE,
        .glGetIntegerv .GL_MAX_SAMPLES, .glGetFloatv .GL_MAX_TEXTURE_MAX_ANISOTROPY_EXT] ∧
    (∀ (g : Getter) (s : GraphicsState), g ≠ .GetFont → g ≠ .GetLimits →
      (g.call P s).2 = s) ∧
    (∀ s : GraphicsState, (Getter.call P .GetFont s).2 = (lovrGraphicsGetFont s).2 ∧
      (Getter.call P .GetLimits s).2 = (lovrGraphicsGetLimits P s).2) := by
  refine ⟨?_, ?_, ?_, ?_, ?_, ?_, ?_, ?_, ?_, ?_, ?_, fun s => ⟨rfl, rfl⟩⟩
  · simp [lovrGraphicsGetFont, h1]
  · simp [lovrGraphicsGetFont, h2]
  · cases hd : s2.defaultFont <;>
      simp [lovrGraphicsGetFont, h2, hd, lovrGraphicsSetFont, lovrRetain, lovrRelease,
        createObject]
  · cases hd : s2.defaultFont <;>
      simp [lovrGraphicsGetFont, h2, hd, lovrGraphicsSetFont, lovrRetain, lovrRelease,
        createObject]
  · intro f hd
    simp [lovrGraphicsGetFont, h2, hd, lovrGraphicsSetFont, lovrRetain, lovrRelease]
  · intro hd
    simp [lovrGraphicsGetFont, h2, hd, lovrGraphicsSetFont, lovrRetain, lovrRelease,
      createObject, Function.update]
  · simp [lovrGraphicsGetLimits, h3]
  · simp [lovrGraphicsGetLimits, h4]
  · simp [lovrGraphicsGetLimits, h4, emit]
  · simp [lovrGraphicsGetLimits, h4, emit]
  · intro g s hf hl
    cases g <;> first | rfl | exact absurd rfl hf | exact absurd rfl hl

theorem getFont_getLimits_effects_witness :
    lovrGraphicsGetFont (lovrGraphicsGetFont resetState).2
      = ((lovrGraphicsGetFont resetState).2.font, (lovrGraphicsGetFont resetState).2) ∧
    (lovrGraphicsGetFont resetState).2.font ≠ none ∧
    lovrGraphicsGetLimits samplePlatform (lovrGraphicsGetLimits samplePlatform resetState).2
      = ((lovrGraphicsGetLimits samplePlatform resetState).2.limits,
          (lovrGraphicsGetLimits samplePlatform resetState).2) ∧
    (lovrGraphicsGetLimits samplePlatform resetState).2.limits.textureSize = 4096 ∧
    (Getter.call samplePlatform .GetCanvas canvasSetState).2 = canvasSetState ∧
    (Getter.call samplePlatform .GetStencilTest resetState).2 = resetState :=
  have h := getFont_getLimits_effects samplePlatform (lovrGraphicsGetFont resetState).2
    resetState (lovrGraphicsGetLimits samplePlatform resetState).2 resetState
    (by decide) (by decide) (by decide) (by decide)
  ⟨h.1, h.2.2.2.1, h.2.2.2.2.2.2.1, by rw [h.2.2.2.2.2.2.2.2.1]; rfl,
    h.2.2.2.2.2.2.2.2.2.2.1 .GetCanvas canvasSetState (by decide) (by decide),
    h.2.2.2.2.2.2.2.2.2.2.1 .GetStencilTest resetState (by decide) (by decide)⟩

/-- C11, as stated, fails: on the post-reset state, where no font is active
and no default font exists, `lovrGraphicsGetFont` creates two objects, sets
the active and the default font, and leaves two references on the new font;
and `lovrGraphicsGetLimits` marks the limits initialized and issues four
driver queries. -/
theorem getters_change_state :
    resetState.font = none ∧ resetState.defaultFont = none ∧
    (lovrGraphicsGetFont resetState).2.font = some 2 ∧
    (lovrGraphicsGetFont resetState).2.defaultFont = some 2 ∧
    resetState.refs 2 = 0 ∧
    (lovrGraphicsGetFont resetState).2.refs 2 = 2 ∧
    resetState.nextHandle = 1 ∧
    (lovrGraphicsGetFont resetState).2.nextHandle = 3 ∧
    resetState.limits.initialized = false ∧
    (lovrGraphicsGetLimits samplePlatform resetState).2.limits.initialized = true ∧
    (callsSince resetState (lovrGraphicsGetLimits samplePlatform resetState).2).length = 4 := by
  decide

/-! ## Theorems: the transform of a draw -/

theorem PipelineEq.refl (s : GraphicsState) : PipelineEq s s := by
  constructor <;> rfl

theorem PipelineEq.trans {s1 s2 s3 : GraphicsState} (h : PipelineEq s1 s2)
    (h' : PipelineEq s2 s3) : PipelineEq s1 s3 := by
  constructor
  · exact h'.initialized.trans h.initialized
  · exact h'.gammaCorrect.trans h.gammaCorrect
  · exact h'.defaultFont.trans h.defaultFont
  · exact h'.defaultFilter.trans h.defaultFilter
  · exact h'.transforms.trans h.transforms
  · exact h'.transform.trans h.transform
  · exact h'.layers.trans h.layers
  · exact h'.layer.trans h.layer
  · exact h'.backgroundColor.trans h.backgroundColor
  · exact h'.blendMode.trans h.blendMode
  · exact h'.blendAlphaMode.trans h.blendAlphaMode
  · exact h'.color.trans h.color
  · exact h'.culling.trans h.culling
  · exact h'.depthTest.trans h.depthTest
  · exact h'.depthWrite.trans h.depthWrite
  · exact h'.font.trans h.font
  · exact h'.limits.trans h.limits
  · exact h'.lineWidth.trans h.lineWidth
  · exact h'.pointSize.trans h.pointSize
  · exact h'.shader.trans h.shader
  · exact h'.stencilEnabled.trans h.stencilEnabled
  · exact h'.stencilWriting.trans h.stencilWriting
  · exact h'.stencilMode.trans h.stencilMode
  · exact h'.stencilValue.trans h.stencilValue
  · exact h'.winding.trans h.winding
  · exact h'.wireframe.trans h.wireframe
  · exact h'.meshMaterial.trans h.meshMaterial

theorem resolveShader_frame (selector : DefaultShader) (s : GraphicsState) :
    PipelineEq s (resolveShader selector s).2 ∧ (resolveShader selector s).2.trace = s.trace := by
  unfold resolveShader
  cases hs : s.shader <;> cases hd : s.defaultShaders selector <;>
    exact ⟨by constructor <;> rfl, rfl⟩

theorem resolveMesh_frame (draw : GraphicsDraw) (s : GraphicsState) :
    PipelineEq s (resolveMesh draw s).2 ∧ (resolveMesh draw s).2.trace = s.trace := by
  unfold resolveMesh
  cases hm : draw.mesh with
  | some h => exact ⟨PipelineEq.refl s, rfl⟩
  | none =>
    simp only
    split_ifs <;> exact ⟨by constructor <;> rfl, rfl⟩

theorem resolveMaterial_frame (draw : GraphicsDraw) (mesh : MeshRef) (s : GraphicsState) :
    PipelineEq s (resolveMaterial draw mesh s).2 ∧
      (resolveMaterial draw mesh s).2.trace = s.trace ∧
      ∀ m, draw.material = some m → (resolveMaterial draw mesh s).1 = m := by
  unfold resolveMaterial
  cases hm : draw.material with
  | some m => exact ⟨PipelineEq.refl s, rfl, fun m' h => by cases h; rfl⟩
  | none =>
    simp only
    cases hg : lovrMeshGetMaterial mesh s with
    | some m => exact ⟨PipelineEq.refl s, rfl, fun m' h => by cases h⟩
    | none =>
      simp only [lovrGraphicsGetDefaultMaterial]
      cases hd : s.defaultMaterial with
      | some m => exact ⟨PipelineEq.refl s, rfl, fun m' h => by cases h⟩
      | none => exact ⟨by constructor <;> rfl, rfl, fun m' h => by cases h⟩

/-- A draw without a transform returns after issuing one `gpuDraw` that
carries the top matrix of the state and the instance count of the request
(and its material, when it has one); it writes only the dynamic mesh, the
default shader and material, the retain counts and the allocator. -/
theorem lovrGraphicsDraw_no_transform (P : Platform) (draw : GraphicsDraw) (s : GraphicsState)
    (ht : draw.transform = none) :
    ∃ s' cmd, lovrGraphicsDraw P draw s = .done s' ∧
      s'.trace = s.trace ++ [.gpuDraw cmd] ∧
      cmd.transform = s.transforms s.transform ∧
      cmd.instances = draw.instances ∧
      (∀ m, draw.material = some m → cmd.material = m) ∧
      PipelineEq s s' := by
  unfold lovrGraphicsDraw
  simp only [ht, Outcome.andThen]
  obtain ⟨a1, a2⟩ := resolveShader_frame draw.shader s
  obtain ⟨b1, b2⟩ := resolveMesh_frame draw (resolveShader draw.shader s).2
  obtain ⟨c1, c2, c3⟩ := resolveMaterial_frame draw
    (resolveMesh draw (resolveShader draw.shader s).2).1
    (resolveMesh draw (resolveShader draw.shader s).2).2
  have hp := (a1.trans b1).trans c1
  have htr := (c2.trans b2).trans a2
  refine ⟨_, ?cmd, rfl, ?tr, ?_, ?_, ?_, ?_⟩
  case tr =>
    show (emit _ _).trace = _
    simp only [emit]
    rw [htr]
    exact rfl
  · rw [hp.transforms, hp.transform]
  · rfl
  · exact c3
  · exact hp.trans (by constructor <;> rfl)


/-- A draw with a transform is a push, the multiplication of the new top by
the transform, the same draw without its transform, and a pop. -/
theorem lovrGraphicsDraw_with_transform (P : Platform) (draw : GraphicsDraw) (s : GraphicsState)
    (M : Mat) (ht : draw.transform = some M) :
    lovrGraphicsDraw P draw s =
      (lovrGraphicsPush P s).andThen fun s1 =>
        (lovrGraphicsDraw P { draw with transform := none }
          (lovrGraphicsMatrixTransform P M s1)).andThen lovrGraphicsPop := by
  unfold lovrGraphicsDraw
  simp only [ht]
  cases lovrGraphicsPush P s with
  | fatal e s1 => rfl
  | undefined s1 => rfl
  | done s1 => rfl

/-- Below the bound of the copy, at a depth `d` with `0 ≤ d` and
`d + 2 < MAX_TRANSFORMS`, a draw carrying the transform `M` returns after
issuing one `gpuDraw` whose matrix is `mat4_multiply` of the top matrix and
`M`; afterwards the depth is `d` again and every matrix at an index up to `d`
is what it was. -/
theorem lovrGraphicsDraw_scoped (P : Platform) (s : GraphicsState) (draw : GraphicsDraw)
    (M : Mat) (h0 : 0 ≤ s.transform) (hd : s.transform + 2 < MAX_TRANSFORMS)
    (hM : draw.transform = some M) :
    ∃ s' cmd, lovrGraphicsDraw P draw s = .done s' ∧
      s'.trace = s.trace ++ [.gpuDraw cmd] ∧
      cmd.transform = P.mat4_multiply (s.transforms s.transform) M ∧
      s'.transform = s.transform ∧
      ∀ i : Int, i ≤ s.transform → s'.transforms i = s.transforms i := by
  obtain ⟨sp, hp, hpd, hpt, hpk⟩ := lovrGraphicsPush_below_bound P s hd
  obtain ⟨sd, cmd, hdraw, htr, hct, -, -, hpe⟩ :=
    lovrGraphicsDraw_no_transform P { draw with transform := none }
      (lovrGraphicsMatrixTransform P M sp) rfl
  have hpop : lovrGraphicsPop sd = .done { sd with transform := sd.transform - 1 } := by
    have : ¬ sd.transform - 1 < 0 := by
      rw [hpe.transform]
      simp only [lovrGraphicsMatrixTransform]
      omega
    simp only [lovrGraphicsPop, this, if_false]
  refine ⟨{ sd with transform := sd.transform - 1 }, cmd, ?_, ?_, ?_, ?_, ?_⟩
  · rw [lovrGraphicsDraw_with_transform P draw s M hM, hp]
    simp only [Outcome.andThen, hdraw]
    exact hpop
  · simp only [htr, lovrGraphicsMatrixTransform]
    rw [show sp.trace = s.trace from by rw [lovrGraphicsPush_frame P s sp hp]]
  · rw [hct]
    simp only [lovrGraphicsMatrixTransform, Function.update_same, hpd, hpt]
  · simp only [hpe.transform, lovrGraphicsMatrixTransform, hpd]
    omega
  · intro i hi
    simp only [hpe.transforms, lovrGraphicsMatrixTransform, hpd]
    rw [Function.update_noteq (by omega)]
    exact hpk i (Or.inl hi)

/-- At depth `MAX_TRANSFORMS - 2` the push of a draw carrying a transform
copies a row past the array: the draw raises no error and its behaviour is
undefined. -/
theorem lovrGraphicsDraw_past_array (P : Platform) (s : GraphicsState) (draw : GraphicsDraw)
    (M : Mat) (h : s.transform = MAX_TRANSFORMS - 2) (hM : draw.transform = some M) :
    lovrGraphicsDraw P draw s = .undefined { s with transform := MAX_TRANSFORMS - 1 } := by
  rw [lovrGraphicsDraw_with_transform P draw s M hM, lovrGraphicsPush_past_array P s h]
  rfl

/-- C15: at a depth `d` with `0 ≤ d < MAX_TRANSFORMS - 2`, a draw carrying the
transform `M` returns after issuing one `gpuDraw` whose matrix is
`mat4_multiply` of the top matrix and `M`; afterwards the depth is `d` again
and every matrix at an index up to `d` is what it was.  A draw without a
transform returns after issuing one `gpuDraw` with the top matrix and leaves
the depth and every matrix of the stack as they were.  At the depth
`d = MAX_TRANSFORMS - 2`, which the claim includes, the push inside a draw
carrying a transform copies a row past the array: the draw raises no error and
its behaviour is undefined. -/
theorem lovrGraphicsDraw_transform_scoped (P : Platform) (s1 s2 s3 : GraphicsState)
    (draw1 draw2 draw3 : GraphicsDraw) (M M3 : Mat)
    (h0 : 0 ≤ s1.transform) (hd : s1.transform < MAX_TRANSFORMS - 2)
    (hM : draw1.transform = some M) (hN : draw2.transform = none)
    (h3 : s3.transform = MAX_TRANSFORMS - 2) (hM3 : draw3.transform = some M3) :
    (∃ s' cmd, lovrGraphicsDraw P draw1 s1 = .done s' ∧
      s'.trace = s1.trace ++ [.gpuDraw cmd] ∧
      cmd.transform = P.mat4_multiply (s1.transforms s1.transform) M ∧
      s'.transform = s1.transform ∧
      ∀ i : Int, i ≤ s1.transform → s'.transforms i = s1.transforms i) ∧
    (∃ s' cmd, lovrGraphicsDraw P draw2 s2 = .done s' ∧
      s'.trace = s2.trace ++ [.gpuDraw cmd] ∧
      cmd.transform = s2.transforms s2.transform ∧
      s'.transform = s2.transform ∧
      s'.transforms = s2.transforms) ∧
    lovrGraphicsDraw P draw3 s3 = .undefined { s3 with transform := MAX_TRANSFORMS - 1 } := by
  refine ⟨lovrGraphicsDraw_scoped P s1 draw1 M h0 (by omega) hM, ?_,
    lovrGraphicsDraw_past_array P s3 draw3 M3 h3 hM3⟩
  obtain ⟨sd, cmd, hdraw, htr, hct, -, -, hpe⟩ := lovrGraphicsDraw_no_transform P draw2 s2 hN
  exact ⟨sd, cmd, hdraw, htr, hct, hpe.transform, hpe.transforms⟩

theorem lovrGraphicsDraw_transform_scoped_witness :
    (∃ s' cmd,
      lovrGraphicsDraw samplePlatform { triangleRequest with transform := some identityMat }
        resetState = .done s' ∧
      s'.trace = resetState.trace ++ [.gpuDraw cmd] ∧
      cmd.transform =
        samplePlatform.mat4_multiply (resetState.transforms resetState.transform) identityMat ∧
      s'.transform = resetState.transform ∧
      ∀ i : Int, i ≤ resetState.transform → s'.transforms i = resetState.transforms i) ∧
    (∃ s' cmd, lovrGraphicsDraw samplePlatform triangleRequest resetState = .done s' ∧
      s'.trace = resetState.trace ++ [.gpuDraw cmd] ∧
      cmd.transform = resetState.transforms resetState.transform ∧
      s'.transform = resetState.transform ∧
      s'.transforms = resetState.transforms) ∧
    (runStackCalls samplePlatform (List.replicate 62 .push) resetState).isDone = true ∧
    (lovrGraphicsDraw samplePlatform { triangleRequest with transform := some identityMat }
      deepState).isUndefined = true :=
  have h := lovrGraphicsDraw_transform_scoped samplePlatform resetState resetState deepState
    { triangleRequest with transform := some identityMat } triangleRequest
    { triangleRequest with transform := some identityMat } identityMat identityMat
    (by decide) (by decide) rfl rfl deepState_depth.2 rfl
  ⟨h.1, h.2.1, deepState_depth.1, by rw [h.2.2]; rfl⟩

/-! ## Theorems: the mesh of a draw -/

theorem toUInt32_of_range (n : Int) (h0 : 0 ≤ n) (h1 : n < 2 ^ 32) :
    ((toUInt32 n : Nat) : Int) = n := by
  unfold toUInt32
  rw [Int.emod_eq_of_lt h0 h1]
  exact Int.toNat_of_nonneg h0

theorem toInt32_of_range (n : Int) (h0 : -2 ^ 31 ≤ n) (h1 : n < 2 ^ 31) : toInt32 n = n := by
  unfold toInt32
  rw [Int.emod_eq_of_lt (by omega) (by omega)]
  ring

theorem toInt32_range (n : Int) : -2 ^ 31 ≤ toInt32 n ∧ toInt32 n < 2 ^ 31 := by
  unfold toInt32
  have h1 := Int.emod_nonneg (n + 2 ^ 31) (by norm_num : (2 : Int) ^ 32 ≠ 0)
  have h2 := Int.emod_lt_of_pos (n + 2 ^ 31) (by norm_num : (0 : Int) < 2 ^ 32)
  constructor <;> omega

theorem toInt32_toUInt32 (n : Int) : toInt32 ((toUInt32 n : Nat) : Int) = toInt32 n := by
  unfold toUInt32
  rw [Int.toNat_of_nonneg (Int.emod_nonneg n (by norm_num))]
  unfold toInt32
  rw [Int.emod_add_emod]

theorem toInt32_idem (n : Int) : toInt32 (toInt32 n) = toInt32 n :=
  toInt32_of_range _ (toInt32_range n).1 (toInt32_range n).2

/-- The mesh resolution of a request that names no mesh, carries no inline
data and has a range count that was converted to `int`: the dynamic mesh gets
the draw mode and the range of the request. -/
theorem resolveMesh_range (draw : GraphicsDraw) (s : GraphicsState) (x : Int)
    (hm : draw.mesh = none) (hv : draw.vertexCount = 0) (hi : draw.indexCount = 0)
    (hr : draw.rangeCount = toInt32 x) :
    (resolveMesh draw s).2.mesh
      = lovrMeshSetDrawRange (lovrMeshSetDrawMode s.mesh draw.mode) draw.rangeStart
          (toInt32 x) := by
  unfold resolveMesh
  simp only [hm, hv, hi, hr, Nat.zero_mod, ne_eq, not_true_eq_false, if_false]
  by_cases h0 : toInt32 x = 0
  · simp only [h0, not_true_eq_false, if_false]
    rfl
  · simp only [h0, not_false_eq_true, if_true, toInt32_toUInt32, toInt32_idem]

theorem resolveShader_mesh (selector : DefaultShader) (s : GraphicsState) :
    (resolveShader selector s).2.mesh = s.mesh := by
  unfold resolveShader
  cases hs : s.shader <;> cases hd : s.defaultShaders selector <;> rfl

theorem resolveMaterial_mesh (draw : GraphicsDraw) (mesh : MeshRef) (s : GraphicsState) :
    (resolveMaterial draw mesh s).2.mesh = s.mesh := by
  unfold resolveMaterial
  cases hm : draw.material with
  | some m => rfl
  | none =>
    simp only
    cases hg : lovrMeshGetMaterial mesh s with
    | some m => rfl
    | none =>
      simp only [lovrGraphicsGetDefaultMaterial]
      cases hd : s.defaultMaterial <;> rfl

theorem resolveMesh_congr (draw : GraphicsDraw) (M : Option Mat) (s t : GraphicsState)
    (hm : s.mesh = t.mesh) :
    (resolveMesh { draw with transform := M } s).2.mesh = (resolveMesh draw t).2.mesh := by
  unfold resolveMesh
  cases hmesh : draw.mesh with
  | some h => simpa using hm
  | none =>
    simp only [lovrGraphicsGetVertexPointer, hm]
    split_ifs <;> rfl

/-- The dynamic mesh a returning draw leaves is the one its mesh resolution
builds from the dynamic mesh before the call. -/
theorem lovrGraphicsDraw_mesh (P : Platform) (draw : GraphicsDraw) (s s' : GraphicsState)
    (h : lovrGraphicsDraw P draw s = .done s') :
    s'.mesh = (resolveMesh draw s).2.mesh := by
  have key : ∀ (d : GraphicsDraw) (t t' : GraphicsState), d.transform = none →
      lovrGraphicsDraw P d t = .done t' → t'.mesh = (resolveMesh d t).2.mesh := by
    intro d t t' hn ht
    unfold lovrGraphicsDraw at ht
    simp only [hn, Outcome.andThen] at ht
    cases ht
    show (resolveMaterial _ _ _).2.mesh = _
    rw [resolveMaterial_mesh]
    have := resolveMesh_congr d d.transform (resolveShader d.shader t).2 t (resolveShader_mesh _ _)
    exact this
  cases ht : draw.transform with
  | none => exact key draw s s' ht h
  | some M =>
    rw [lovrGraphicsDraw_with_transform P draw s M ht] at h
    cases hp : lovrGraphicsPush P s with
    | fatal e sp => rw [hp] at h; simp [Outcome.andThen] at h
    | undefined sp => rw [hp] at h; simp [Outcome.andThen] at h
    | done sp =>
      rw [hp] at h
      simp only [Outcome.andThen] at h
      cases hdr : lovrGraphicsDraw P { draw with transform := none }
          (lovrGraphicsMatrixTransform P M sp) with
      | fatal e sd => rw [hdr] at h; simp at h
      | undefined sd => rw [hdr] at h; simp at h
      | done sd =>
        rw [hdr] at h
        simp only at h
        have h1 := key _ _ _ rfl hdr
        have hpop : s'.mesh = sd.mesh := by
          unfold lovrGraphicsPop at h
          simp only at h
          split at h
          · cases h
          · cases h; rfl
        have hpm : sp.mesh = s.mesh := by
          rw [lovrGraphicsPush_frame P s sp hp]
        rw [hpop, h1]
        exact resolveMesh_congr draw none _ _ hpm


/-- What `lovrGraphicsTriangle` requests.  In line mode: a line loop of three
vertices with zero normals.  In fill mode: three vertices that all carry
`vec3_cross` of the first two points, taken as vectors from the origin. -/
theorem triangleDraw_normals (points : Nat → CFloat) (v : Nat) (hv : v < 3) :
    (triangleDraw .DRAW_MODE_LINE points).mode = .MESH_LINE_LOOP ∧
    (triangleDraw .DRAW_MODE_LINE points).vertexCount = 3 ∧
    vertexNormal (triangleDraw .DRAW_MODE_LINE points).vertexData v = ⟨0, 0, 0⟩ ∧
    vertexPosition (triangleDraw .DRAW_MODE_LINE points).vertexData v
      = ⟨points (3 * v), points (3 * v + 1), points (3 * v + 2)⟩ ∧
    (triangleDraw .DRAW_MODE_FILL points).mode = .MESH_TRIANGLES ∧
    (triangleDraw .DRAW_MODE_FILL points).vertexCount = 3 ∧
    vertexNormal (triangleDraw .DRAW_MODE_FILL points).vertexData v
      = vec3_cross ⟨points 0, points 1, points 2⟩ ⟨points 3, points 4, points 5⟩ ∧
    vertexPosition (triangleDraw .DRAW_MODE_FILL points).vertexData v
      = ⟨points (3 * v), points (3 * v + 1), points (3 * v + 2)⟩ := by
  interval_cases v <;>
    simp [triangleDraw, vertexNormal, vertexPosition, arrayOf, vec3_init]

theorem lovrGraphicsTriangle_mesh (P : Platform) (material : Option Handle)
    (points : Nat → CFloat) (s s' : GraphicsState)
    (h : lovrGraphicsTriangle P .DRAW_MODE_FILL material points s = .done s') (v : Nat)
    (hv : v < 3) :
    vertexNormal s'.mesh.vertices v
      = vec3_cross ⟨points 0, points 1, points 2⟩ ⟨points 3, points 4, points 5⟩ ∧
    vertexPosition s'.mesh.vertices v
      = ⟨points (3 * v), points (3 * v + 1), points (3 * v + 2)⟩ := by
  have hm := lovrGraphicsDraw_mesh P _ s s' h
  obtain ⟨-, -, -, -, -, -, t1, t2⟩ := triangleDraw_normals points v hv
  have hvert : s'.mesh.vertices
      = copyInto s.mesh.vertices (triangleDraw .DRAW_MODE_FILL points).vertexData (3 * 8) := by
    rw [hm]
    simp [resolveMesh, triangleDraw, lovrGraphicsGetVertexPointer, lovrMeshResize,
      lovrMeshWriteIndices, lovrMeshSetDrawMode, lovrMeshSetDrawRange]
  rw [← t1, ← t2]
  simp only [vertexNormal, vertexPosition, hvert, copyInto]
  rw [if_pos (by omega), if_pos (by omega), if_pos (by omega), if_pos (by omega),
    if_pos (by omega), if_pos (by omega)]
  exact ⟨rfl, rfl⟩

/-- C20: the normal `lovrGraphicsTriangle` writes in fill mode is not
perpendicular to the triangle and changes under translation.  For the corners
(1,0,0), (0,1,0), (0,0,1) every vertex gets the normal (0,0,1), the cross
product of the first two corners, whose dot product with the edge from the
first to the third corner is 1; for the same triangle translated by (1,1,1)
every vertex gets (-1,-1,3). -/
theorem lovrGraphicsTriangle_normal_of_points :
    (lovrGraphicsTriangle samplePlatform .DRAW_MODE_FILL none cornerTriangle
      resetState).isDone = true ∧
    (∀ v, v < 3 → vertexNormal (lovrGraphicsTriangle samplePlatform .DRAW_MODE_FILL none
      cornerTriangle resetState).state.mesh.vertices v = ⟨0, 0, 1⟩) ∧
    (vertexNormal (lovrGraphicsTriangle samplePlatform .DRAW_MODE_FILL none
      cornerTriangle resetState).state.mesh.vertices 0).dot
      ((vertexPosition (lovrGraphicsTriangle samplePlatform .DRAW_MODE_FILL none
        cornerTriangle resetState).state.mesh.vertices 2).sub
       (vertexPosition (lovrGraphicsTriangle samplePlatform .DRAW_MODE_FILL none
        cornerTriangle resetState).state.mesh.vertices 0)) = 1 ∧
    (∀ v, v < 3 → vertexNormal (lovrGraphicsTriangle samplePlatform .DRAW_MODE_FILL none
      shiftedTriangle resetState).state.mesh.vertices v = ⟨-1, -1, 3⟩) := by
  have hc := lovrGraphicsTriangle_mesh samplePlatform none cornerTriangle resetState _
    (Outcome.eq_done_of_isDone _ (by decide))
  have hs := lovrGraphicsTriangle_mesh samplePlatform none shiftedTriangle resetState _
    (Outcome.eq_done_of_isDone _ (by decide))
  refine ⟨by decide, ?_, ?_, ?_⟩
  · intro v hv
    rw [(hc v hv).1]
    simp [vec3_cross, cornerTriangle, arrayOf]
  · rw [(hc 0 (by norm_num)).1, (hc 0 (by norm_num)).2, (hc 2 (by norm_num)).2]
    simp [vec3_cross, cornerTriangle, arrayOf, Vec3.dot, Vec3.sub]
  · intro v hv
    rw [(hs v hv).1]
    simp [vec3_cross, shiftedTriangle, arrayOf]
    norm_num

/-! ## Theorems: writes through an advancing pointer -/

theorem storeStrided_below {α : Type} (stride : Nat) (cs : List (List α)) :
    ∀ (buf : Nat → α) (off j : Nat), j < off → storeStrided buf off stride cs j = buf j := by
  induction cs with
  | nil => intro buf off j _; rfl
  | cons c cs ih =>
    intro buf off j hj
    show storeStrided (storeAt buf off c) (off + stride) stride cs j = buf j
    rw [ih _ _ _ (by omega)]
    simp only [storeAt]
    rw [if_neg (by omega)]

/-- The element `k` of chunk `i` is found at `off + stride * i + k` when `k` is
less than the stride. -/
theorem storeStrided_get {α : Type} (stride : Nat) (cs : List (List α)) :
    ∀ (buf : Nat → α) (off i k : Nat) (chunk : List α) (x : α), cs[i]? = some chunk →
      chunk[k]? = some x →
      k < stride → storeStrided buf off stride cs (off + stride * i + k) = x := by
  induction cs with
  | nil => intro buf off i k chunk x hc; simp at hc
  | cons c0 cs ih =>
    intro buf off i k chunk x hc hx hk
    cases i with
    | zero =>
      simp only [List.getElem?_cons_zero, Option.some.injEq] at hc
      subst hc
      show storeStrided (storeAt buf off c0) (off + stride) stride cs (off + stride * 0 + k) = x
      rw [storeStrided_below stride cs _ _ _ (by omega)]
      simp only [storeAt]
      rw [if_pos (by omega)]
      simp [hx]
    | succ i =>
      simp only [List.getElem?_cons_succ] at hc
      show storeStrided (storeAt buf off c0) (off + stride) stride cs
        (off + stride * (i + 1) + k) = x
      have e : off + stride * (i + 1) + k = (off + stride) + stride * i + k := by ring
      rw [e]
      exact ih _ _ _ _ _ _ hc hx hk

/-! ## Theorems: arcs -/

theorem loopWrites_length {α : Type} (body : Nat → List α) (m : Nat)
    (hbody : ∀ i, (body i).length = m) :
    ∀ start n, (loopWrites body start n).length = m * n := by
  intro start n
  induction n generalizing start with
  | zero => rfl
  | succ n ih =>
    show (body start ++ loopWrites body (start + 1) n).length = m * (n + 1)
    rw [List.length_append, hbody, ih]
    ring

theorem storeAt_zero_lt {α : Type} (buf : Nat → α) (vals : List α) (d : α) (i : Nat)
    (hi : i < vals.length) : storeAt buf 0 vals i = vals.getD i d := by
  simp [storeAt, List.getD, List.getElem?_eq_getElem hi]

theorem capFlag_cases (capped : Bool) (r : CFloat) :
    (capFlag capped r = 0 ∧ ¬ (capped = true ∧ r ≠ 0)) ∨
    (capFlag capped r = 1 ∧ (capped = true ∧ r ≠ 0)) := by
  unfold capFlag
  by_cases h : capped = true ∧ r ≠ 0
  · right; exact ⟨if_pos h, h⟩
  · left; exact ⟨if_neg h, h⟩

theorem cylinderVertices_length (P : Platform) (x1 y1 z1 x2 y2 z2 r1 r2 : CFloat)
    (capped : Bool) (segments : Int) (hs : 0 ≤ segments) :
    ((cylinderVertices P x1 y1 z1 x2 y2 z2 r1 r2 capped segments).length : Int)
      = 8 * (capFlag capped r1 * (segments + 2) + capFlag capped r2 * (segments + 2)
          + 2 * (segments + 1)) := by
  have hn : (((segments + 1).toNat : Nat) : Int) = segments + 1 := Int.toNat_of_nonneg (by omega)
  have hring : ∀ p q start k, (loopWrites
      (cylinderRingVertices P x1 y1 z1 x2 y2 z2 r1 r2 segments p q) start k).length = 16 * k :=
    fun p q => loopWrites_length _ 16 (fun i => rfl)
  have hcap : ∀ (f g h : Nat → CFloat) (a b c : CFloat) start k, (loopWrites
      (fun i => pushCylinderVertex (f i) (g i) (h i) a b c) start k).length = 8 * k :=
    fun f g h a b c => loopWrites_length _ 8 (fun i => rfl)
  unfold cylinderVertices
  simp only [List.length_append, hring]
  rcases capFlag_cases capped r1 with ⟨e1, h1⟩ | ⟨e1, h1⟩ <;>
  rcases capFlag_cases capped r2 with ⟨e2, h2⟩ | ⟨e2, h2⟩ <;>
  · rw [e1, e2]
    (first | rw [if_pos h1] | rw [if_neg h1])
    (first | rw [if_pos h2] | rw [if_neg h2])
    simp only [List.length_append, List.length_nil, hcap]
    try simp only [pushCylinderVertex, List.length_cons, List.length_nil]
    push_cast
    omega

theorem cylinderIndices_length (r1 r2 : CFloat) (capped : Bool) (segments : Int)
    (hs : 0 ≤ segments) :
    ((cylinderIndices r1 r2 capped segments).length : Int)
      = 3 * segments * (capFlag capped r1 + capFlag capped r2 + 2) := by
  have hn : ((segments.toNat : Nat) : Int) = segments := Int.toNat_of_nonneg hs
  have hbody : ∀ i, ((cylinderSegmentIndices r1 r2 capped segments i).length : Int)
      = 3 * (capFlag capped r1 + capFlag capped r2 + 2) := by
    intro i
    unfold cylinderSegmentIndices
    rcases capFlag_cases capped r1 with ⟨e1, h1⟩ | ⟨e1, h1⟩ <;>
    rcases capFlag_cases capped r2 with ⟨e2, h2⟩ | ⟨e2, h2⟩ <;>
    · rw [e1, e2]
      simp only [List.length_append]
      (first | rw [if_pos h1] | rw [if_neg h1])
      (first | rw [if_pos h2] | rw [if_neg h2])
      simp only [pushCylinderTriangle, List.length_cons, List.length_nil]
      norm_num
  obtain ⟨m, hm⟩ : ∃ m : Nat, (m : Int) = 3 * (capFlag capped r1 + capFlag capped r2 + 2) :=
    ⟨(3 * (capFlag capped r1 + capFlag capped r2 + 2)).toNat, Int.toNat_of_nonneg (by
      rcases capFlag_cases capped r1 with ⟨e1, -⟩ | ⟨e1, -⟩ <;>
      rcases capFlag_cases capped r2 with ⟨e2, -⟩ | ⟨e2, -⟩ <;> rw [e1, e2] <;> norm_num)⟩
  unfold cylinderIndices
  rw [loopWrites_length _ m (fun i => by have := hbody i; omega)]
  push_cast
  rw [hn, hm]
  ring

theorem cylinderCounts (r1 r2 : CFloat) (capped : Bool) (segments : Int)
    (hs : 0 ≤ segments) (hb : 12 * segments < 2 ^ 31) :
    ((cylinderVertexCount r1 r2 capped segments : Nat) : Int)
      = (capFlag capped r1 + capFlag capped r2) * (segments + 2) + 2 * (segments + 1) ∧
    ((cylinderIndexCount r1 r2 capped segments : Nat) : Int)
      = 3 * segments * (capFlag capped r1 + capFlag capped r2 + 2) ∧
    toInt32 (cylinderIndexCount r1 r2 capped segments)
      = 3 * segments * (capFlag capped r1 + capFlag capped r2 + 2) := by
  unfold cylinderVertexCount cylinderIndexCount
  rcases capFlag_cases capped r1 with ⟨e1, -⟩ | ⟨e1, -⟩ <;>
  rcases capFlag_cases capped r2 with ⟨e2, -⟩ | ⟨e2, -⟩ <;>
  · rw [e1, e2]
    refine ⟨?_, ?_, ?_⟩
    · rw [toUInt32_of_range _ (by omega) (by omega)]
      ring
    · rw [toUInt32_of_range _ (by omega) (by omega)]
    · rw [toUInt32_of_range _ (by omega) (by omega), toInt32_of_range _ (by omega) (by omega)]

/-- The mesh a returning `lovrGraphicsCylinder` leaves. -/
theorem lovrGraphicsCylinder_mesh (P : Platform) (material : Option Handle)
    (x1 y1 z1 x2 y2 z2 r1 r2 : CFloat) (capped : Bool) (segments : Int) (s s' : GraphicsState)
    (h : lovrGraphicsCylinder P material x1 y1 z1 x2 y2 z2 r1 r2 capped segments s = .done s') :
    s'.mesh.drawMode = .MESH_TRIANGLES ∧ s'.mesh.rangeStart = 0 ∧
    s'.mesh.rangeCount = toInt32 (cylinderIndexCount r1 r2 capped segments) ∧
    s'.mesh.indexCount = cylinderIndexCount r1 r2 capped segments ∧
    s'.mesh.indexSize = sizeofUInt32 ∧
    s'.mesh.count = max s.mesh.count (cylinderVertexCount r1 r2 capped segments) ∧
    s'.mesh.vertices = storeAt s.mesh.vertices 0
      (cylinderVertices P x1 y1 z1 x2 y2 z2 r1 r2 capped segments) ∧
    s'.mesh.indices = storeAt s.mesh.indices 0 (cylinderIndices r1 r2 capped segments) := by
  unfold lovrGraphicsCylinder at h
  have hm := lovrGraphicsDraw_mesh P _ _ s' h
  rw [hm, resolveMesh_range _ _ (cylinderIndexCount r1 r2 capped segments) (by rfl) (by rfl)
    (by rfl) (by rfl)]
  exact ⟨rfl, rfl, rfl, rfl, rfl, rfl, rfl, rfl⟩

theorem storeStrided_gap {α : Type} (stride m : Nat) (cs : List (List α)) :
    (∀ chunk ∈ cs, chunk.length ≤ m) → ∀ (buf : Nat → α) (off j : Nat), off ≤ j →
      m ≤ (j - off) % stride → storeStrided buf off stride cs j = buf j := by
  induction cs with
  | nil => intro _ buf off j _ _; rfl
  | cons c0 cs ih =>
    intro hlen buf off j hj hm
    have hc0 : c0.length ≤ j - off :=
      le_trans (hlen c0 (List.mem_cons_self _ _)) (le_trans hm (Nat.mod_le _ _))
    have hstore : storeAt buf off c0 j = buf j := by
      simp only [storeAt]
      rw [if_pos hj, List.getElem?_eq_none hc0]
      rfl
    show storeStrided (storeAt buf off c0) (off + stride) stride cs j = buf j
    by_cases hlt : j < off + stride
    · rw [storeStrided_below stride cs _ _ _ hlt, hstore]
    · have hge : off + stride ≤ j := by omega
      rw [ih (fun chunk hc => hlen chunk (List.mem_cons_of_mem _ hc)) _ _ _ hge, hstore]
      have e : j - (off + stride) = (j - off) - stride := by omega
      rw [e, ← Nat.mod_eq_sub_mod (by omega)]
      exact hm

theorem loopWrites_mem {α : Type} (body : Nat → List α) (x : α) :
    ∀ start n, x ∈ loopWrites body start n → ∃ i, x ∈ body i := by
  intro start n
  induction n generalizing start with
  | zero => intro h; simp [loopWrites] at h
  | succ n ih =>
    intro h
    simp only [loopWrites, List.mem_append] at h
    rcases h with h | h
    · exact ⟨start, h⟩
    · exact ih _ h

theorem sphereVertices_chunk (P : Platform) (segments : Int) :
    ∀ chunk ∈ sphereVertices P segments, chunk.length ≤ 8 := by
  intro chunk hc
  obtain ⟨i, hi⟩ := loopWrites_mem _ _ _ _ hc
  obtain ⟨j, hj⟩ := loopWrites_mem _ _ _ _ hi
  rw [List.mem_singleton.1 hj]
  exact le_of_eq rfl

theorem sphereIndices_chunk (segments : Int) :
    ∀ chunk ∈ sphereIndices segments, chunk.length ≤ 6 := by
  intro chunk hc
  obtain ⟨i, hi⟩ := loopWrites_mem _ _ _ _ hc
  obtain ⟨j, hj⟩ := loopWrites_mem _ _ _ _ hi
  rw [List.mem_singleton.1 hj]
  exact le_of_eq rfl

/-- The mesh a returning `lovrGraphicsSphere` leaves: the chunks of 8 floats lie
`8 * sizeof(float)` = 32 floats apart, the chunks of 6 indices
`6 * sizeof(uint32_t)` = 24 indices apart. -/
theorem lovrGraphicsSphere_mesh (P : Platform) (material : Option Handle)
    (transform : Option Mat) (segments : Int) (s s' : GraphicsState)
    (h : lovrGraphicsSphere P material transform segments s = .done s') :
    s'.mesh.count = max s.mesh.count (toUInt32 ((segments + 1) * (segments + 1))) ∧
    s'.mesh.indexCount = toUInt32 (segments * segments * 6) ∧
    s'.mesh.vertices = storeStrided s.mesh.vertices 0 32 (sphereVertices P segments) ∧
    s'.mesh.indices = storeStrided s.mesh.indices 0 24 (sphereIndices segments) := by
  unfold lovrGraphicsSphere at h
  have hm := lovrGraphicsDraw_mesh P _ _ s' h
  rw [hm]
  simp [resolveMesh, lovrGraphicsGetVertexPointer, lovrMeshResize, lovrMeshWriteIndices,
    lovrMeshSetDrawMode, lovrMeshSetDrawRange, sizeofFloat, sizeofUInt32]

/-- C19: the writes of `lovrGraphicsSphere` are not consecutive and leave the
reserved part of the buffers.  With 1 segment the vertex of grid point (0, 1),
whose texture coordinate `u` is 1, is written at the floats 32..39, so float 38
becomes 1 while float 14, the `u` of vertex slot 1, keeps its old value 0.  With
8 segments the mesh is resized to 81 vertices, 648 floats, and the vertex of
grid point (2, 3), whose last float is 3/4, is written at the floats 672..679.
With 2 segments 24 indices are reserved; the quad (0, 1), whose indices are
1, 4, 2, 4, 5, 2, is written at the indices 24..29, so index 25 becomes 4 while
index 7 keeps its old value 0. -/
theorem lovrGraphicsSphere_pointer_stride :
    (lovrGraphicsSphere samplePlatform none none 1 resetState).isDone = true ∧
    (lovrGraphicsSphere samplePlatform none none 1 resetState).state.mesh.vertices 38 = 1 ∧
    resetState.mesh.vertices 14 = 0 ∧
    (lovrGraphicsSphere samplePlatform none none 1 resetState).state.mesh.vertices 14 = 0 ∧
    (lovrGraphicsSphere samplePlatform none none 8 resetState).isDone = true ∧
    (lovrGraphicsSphere samplePlatform none none 8 resetState).state.mesh.count = 81 ∧
    (lovrGraphicsSphere samplePlatform none none 8 resetState).state.mesh.vertices 679 = 3 / 4 ∧
    (lovrGraphicsSphere samplePlatform none none 2 resetState).isDone = true ∧
    (lovrGraphicsSphere samplePlatform none none 2 resetState).state.mesh.indexCount = 24 ∧
    sphereQuad 2 0 1 = [1, 4, 2, 4, 5, 2] ∧
    (lovrGraphicsSphere samplePlatform none none 2 resetState).state.mesh.indices 25 = 4 ∧
    resetState.mesh.indices 7 = 0 ∧
    (lovrGraphicsSphere samplePlatform none none 2 resetState).state.mesh.indices 7 = 0 := by
  obtain ⟨-, -, a3, -⟩ := lovrGraphicsSphere_mesh samplePlatform none none 1 resetState _
    (Outcome.eq_done_of_isDone _ (by decide))
  obtain ⟨-, b2, -, b4⟩ := lovrGraphicsSphere_mesh samplePlatform none none 2 resetState _
    (Outcome.eq_done_of_isDone _ (by decide))
  obtain ⟨c1, -, c3, -⟩ := lovrGraphicsSphere_mesh samplePlatform none none 8 resetState _
    (Outcome.eq_done_of_isDone _ (by decide))
  refine ⟨by decide, ?_, ?_, ?_, by decide, ?_, ?_, by decide, ?_, by decide, ?_, ?_, ?_⟩
  · rw [a3]
    have := storeStrided_get 32 (sphereVertices samplePlatform 1) resetState.mesh.vertices 0 1 6
      (sphereVertex samplePlatform 1 0 1) (((1 : Nat) : CFloat) / ((1 : Int) : CFloat)) rfl rfl
      (by norm_num)
    simpa using this
  · rfl
  · rw [a3, storeStrided_gap 32 8 _ (sphereVertices_chunk _ _) _ 0 14 (by norm_num)
      (by norm_num)]
    rfl
  · rw [c1]; decide
  · rw [c3]
    have := storeStrided_get 32 (sphereVertices samplePlatform 8) resetState.mesh.vertices 0 21 7
      (sphereVertex samplePlatform 8 2 3) (1 - ((2 : Nat) : CFloat) / ((8 : Int) : CFloat))
      rfl rfl (by norm_num)
    norm_num at this
    exact this
  · rw [b2]; decide
  · rw [b4]
    have := storeStrided_get 24 (sphereIndices 2) resetState.mesh.indices 0 1 1
      (sphereQuad 2 0 1) 4 rfl rfl (by norm_num)
    simpa using this
  · rfl
  · rw [b4, storeStrided_gap 24 6 _ (sphereIndices_chunk _) _ 0 7 (by norm_num) (by norm_num)]
    rfl


/-! ## Theorems: the stencil write scope -/

theorem lovrGraphicsPush_stencil (P : Platform) (s sp : GraphicsState)
    (h : lovrGraphicsPush P s = .done sp) :
    sp.stencilWriting = s.stencilWriting ∧ sp.stencilEnabled = s.stencilEnabled ∧
    sp.stencilMode = s.stencilMode ∧ sp.stencilValue = s.stencilValue ∧
    sp.trace = s.trace := by
  rw [lovrGraphicsPush_frame P s sp h]
  exact ⟨rfl, rfl, rfl, rfl, rfl⟩

theorem lovrGraphicsPop_stencil (s sp : GraphicsState) (h : lovrGraphicsPop s = .done sp) :
    sp.stencilWriting = s.stencilWriting ∧ sp.stencilEnabled = s.stencilEnabled ∧
    sp.stencilMode = s.stencilMode ∧ sp.stencilValue = s.stencilValue ∧
    sp.trace = s.trace := by
  unfold lovrGraphicsPop at h
  simp only at h
  split at h
  · cases h
  · cases h
    exact ⟨rfl, rfl, rfl, rfl, rfl⟩

/-- A returning draw whose request names a material issues one `gpuDraw`, and
the command carries that material. -/
theorem lovrGraphicsDraw_material (P : Platform) (draw : GraphicsDraw) (s s' : GraphicsState)
    (m : Handle) (h : lovrGraphicsDraw P draw s = .done s') (hm : draw.material = some m) :
    ∃ cmd, s'.trace = s.trace ++ [.gpuDraw cmd] ∧ cmd.material = m := by
  cases hT : draw.transform with
  | none =>
    obtain ⟨s2, cmd, hd, htr, -, -, hmat, -⟩ := lovrGraphicsDraw_no_transform P draw s hT
    rw [hd] at h
    cases h
    exact ⟨cmd, htr, hmat m hm⟩
  | some M =>
    rw [lovrGraphicsDraw_with_transform P draw s M hT] at h
    cases hp : lovrGraphicsPush P s with
    | fatal e sp => rw [hp] at h; simp [Outcome.andThen] at h
    | undefined sp => rw [hp] at h; simp [Outcome.andThen] at h
    | done sp =>
      rw [hp] at h
      simp only [Outcome.andThen] at h
      obtain ⟨sd, cmd, hd, htr, -, -, hmat, -⟩ := lovrGraphicsDraw_no_transform P
        { draw with transform := none } (lovrGraphicsMatrixTransform P M sp) rfl
      rw [hd] at h
      simp only at h
      obtain ⟨-, -, -, -, p5⟩ := lovrGraphicsPush_stencil P s sp hp
      obtain ⟨-, -, -, -, q5⟩ := lovrGraphicsPop_stencil sd s' h
      refine ⟨cmd, ?_, hmat m hm⟩
      rw [q5, htr]
      show sp.trace ++ _ = _
      rw [p5]

/-- The primitives other than `lovrGraphicsTriangle` hand their material to
`lovrGraphicsDraw`: when the call returns, it has issued one `gpuDraw`, and the
command carries the material. -/
theorem primitives_forward_material (P : Platform) (m : Handle) (s s' : GraphicsState)
    (mode : DrawMode) (arcMode : ArcMode) (transform : Option Mat)
    (theta1 theta2 x1 y1 z1 x2 y2 z2 r1 r2 : CFloat) (capped : Bool) (segments : Int) :
    (lovrGraphicsPlane P mode (some m) transform s = .done s' →
      ∃ cmd, s'.trace = s.trace ++ [.gpuDraw cmd] ∧ cmd.material = m) ∧
    (lovrGraphicsBox P mode (some m) transform s = .done s' →
      ∃ cmd, s'.trace = s.trace ++ [.gpuDraw cmd] ∧ cmd.material = m) ∧
    (lovrGraphicsArc P mode arcMode (some m) transform theta1 theta2 segments s = .done s' →
      ∃ cmd, s'.trace = s.trace ++ [.gpuDraw cmd] ∧ cmd.material = m) ∧
    (lovrGraphicsCircle P mode (some m) transform segments s = .done s' →
      ∃ cmd, s'.trace = s.trace ++ [.gpuDraw cmd] ∧ cmd.material = m) ∧
    (lovrGraphicsCylinder P (some m) x1 y1 z1 x2 y2 z2 r1 r2 capped segments s = .done s' →
      ∃ cmd, s'.trace = s.trace ++ [.gpuDraw cmd] ∧ cmd.material = m) ∧
    (lovrGraphicsSphere P (some m) transform segments s = .done s' →
      ∃ cmd, s'.trace = s.trace ++ [.gpuDraw cmd] ∧ cmd.material = m) := by
  refine ⟨?_, ?_, ?_, ?_, ?_, ?_⟩
  · intro h
    unfold lovrGraphicsPlane at h
    cases mode
    · simp only [reduceCtorEq, if_false, if_true] at h
      have key := lovrGraphicsDraw_material P _ _ _ m h (by rfl)
      exact key
    · simp only [if_true] at h
      have key := lovrGraphicsDraw_material P _ _ _ m h (by rfl)
      exact key
  · intro h
    unfold lovrGraphicsBox at h
    refine lovrGraphicsDraw_material P _ _ _ m h ?_
    cases mode <;> rfl
  · intro h
    unfold lovrGraphicsArc at h
    have key := lovrGraphicsDraw_material P _ _ _ m h (by rfl)
    exact key
  · intro h
    unfold lovrGraphicsCircle lovrGraphicsArc at h
    have key := lovrGraphicsDraw_material P _ _ _ m h (by rfl)
    exact key
  · intro h
    unfold lovrGraphicsCylinder at h
    have key := lovrGraphicsDraw_material P _ _ _ m h (by rfl)
    exact key
  · intro h
    unfold lovrGraphicsSphere at h
    have key := lovrGraphicsDraw_material P _ _ _ m h (by rfl)
    exact key

/-- C23: `lovrGraphicsTriangle` does not use its material.  The request it
builds names no material, the call with a material is the call without one, and
on the post-reset state the triangle drawn with material 9 issues one `gpuDraw`
whose material is the default material 2, created for this draw. -/
theorem lovrGraphicsTriangle_ignores_material :
    (∀ (mode : DrawMode) (points : Nat → CFloat), (triangleDraw mode points).material = none) ∧
    (∀ (P : Platform) (mode : DrawMode) (m : Handle) (points : Nat → CFloat)
      (s : GraphicsState),
      lovrGraphicsTriangle P mode (some m) points s = lovrGraphicsTriangle P mode none points s) ∧
    resetState.defaultMaterial = none ∧
    (lovrGraphicsTriangle samplePlatform .DRAW_MODE_FILL (some 9) cornerTriangle
      resetState).isDone = true ∧
    (gpuDrawCommands (callsSince resetState
      (lovrGraphicsTriangle samplePlatform .DRAW_MODE_FILL (some 9) cornerTriangle
        resetState).state)).map (fun cmd => cmd.material) = [2] ∧
    (lovrGraphicsTriangle samplePlatform .DRAW_MODE_FILL (some 9) cornerTriangle
      resetState).state.defaultMaterial = some 2 := by
  refine ⟨?_, fun _ _ _ _ _ => rfl, by decide, by decide, by decide, by decide⟩
  intro mode points
  cases mode <;> rfl


/-! ## Theorems: the indices of a cylinder -/

theorem cylinderVertices_parts (P : Platform) (x1 y1 z1 x2 y2 z2 r1 r2 : CFloat)
    (capped : Bool) (segments : Int) :
    cylinderVertices P x1 y1 z1 x2 y2 z2 r1 r2 capped segments
      = cylinderRing P x1 y1 z1 x2 y2 z2 r1 r2 segments
        ++ cylinderTopCap P x1 y1 z1 x2 y2 z2 r1 r2 capped segments
        ++ cylinderBottomCap P x1 y1 z1 x2 y2 z2 r1 r2 capped segments :=
  rfl

theorem cylinderSegmentIndices_parts (r1 r2 : CFloat) (capped : Bool) (segments : Int)
    (i : Nat) :
    cylinderSegmentIndices r1 r2 capped segments i
      = cylinderRingTriangles i
        ++ (if capped = true ∧ r1 ≠ 0 then cylinderTopTriangle segments i else [])
        ++ (if capped = true ∧ r2 ≠ 0 then cylinderBottomTriangle r1 capped segments i
            else []) :=
  rfl

theorem loopWrites_mem_bound {α : Type} (body : Nat → List α) (x : α) :
    ∀ start n, x ∈ loopWrites body start n → ∃ i, start ≤ i ∧ i < start + n ∧ x ∈ body i := by
  intro start n
  induction n generalizing start with
  | zero => intro h; simp [loopWrites] at h
  | succ n ih =>
    intro h
    simp only [loopWrites, List.mem_append] at h
    rcases h with h | h
    · exact ⟨start, le_refl _, by omega, h⟩
    · obtain ⟨i, h1, h2, h3⟩ := ih _ h
      exact ⟨i, by omega, by omega, h3⟩

/-- The three indices a `PUSH_CYLINDER_TRIANGLE` writes lie in `[lo, hi)` when
its arguments do. -/
theorem pushCylinderTriangle_range (a b c lo hi : Int) (x : Nat)
    (hx : x ∈ pushCylinderTriangle a b c) (h0 : 0 ≤ lo) (h1 : hi ≤ 2 ^ 32)
    (ha : lo ≤ a ∧ a < hi) (hb : lo ≤ b ∧ b < hi) (hc : lo ≤ c ∧ c < hi) :
    lo ≤ (x : Int) ∧ (x : Int) < hi := by
  simp only [pushCylinderTriangle, List.mem_cons, List.mem_singleton, List.not_mem_nil,
    or_false] at hx
  rcases hx with hx | hx | hx <;> subst hx
  · rw [toUInt32_of_range a (by omega) (by omega)]; exact ha
  · rw [toUInt32_of_range b (by omega) (by omega)]; exact hb
  · rw [toUInt32_of_range c (by omega) (by omega)]; exact hc

theorem cylinderRingTriangles_range (segments : Int) (i : Nat) (hi : (i : Int) < segments)
    (hb : 12 * segments < 2 ^ 31) (x : Nat) (hx : x ∈ cylinderRingTriangles i) :
    (x : Int) < 2 * (segments + 1) := by
  simp only [cylinderRingTriangles, List.mem_append] at hx
  rcases hx with hx | hx
  · exact (pushCylinderTriangle_range _ _ _ 0 (2 * (segments + 1)) x hx (le_refl _) (by omega)
      (by omega) (by omega) (by omega)).2
  · exact (pushCylinderTriangle_range _ _ _ 0 (2 * (segments + 1)) x hx (le_refl _) (by omega)
      (by omega) (by omega) (by omega)).2

theorem cylinderTopTriangle_range (segments : Int) (i : Nat) (hi : (i : Int) < segments)
    (hb : 12 * segments < 2 ^ 31) (x : Nat) (hx : x ∈ cylinderTopTriangle segments i) :
    2 * (segments + 1) ≤ (x : Int) ∧ (x : Int) < 2 * (segments + 1) + (segments + 2) := by
  simp only [cylinderTopTriangle, cylinderTopOffset] at hx
  exact pushCylinderTriangle_range _ _ _ _ _ x hx (by omega) (by omega) (by omega) (by omega)
    (by omega)

theorem cylinderBottomTriangle_range (r1 : CFloat) (capped : Bool) (segments : Int) (i : Nat)
    (hi : (i : Int) < segments) (hb : 12 * segments < 2 ^ 31) (x : Nat)
    (hx : x ∈ cylinderBottomTriangle r1 capped segments i) :
    cylinderBottomOffset r1 capped segments ≤ (x : Int) ∧
    (x : Int) < cylinderBottomOffset r1 capped segments + (segments + 2) := by
  have hoff : cylinderBottomOffset r1 capped segments = 2 * (segments + 1) ∨
      cylinderBottomOffset r1 capped segments = 2 * (segments + 1) + (segments + 2) := by
    unfold cylinderBottomOffset
    rcases capFlag_cases capped r1 with ⟨e1, -⟩ | ⟨e1, -⟩ <;> rw [e1]
    · left; ring
    · right; ring
  simp only [cylinderBottomTriangle] at hx
  generalize cylinderBottomOffset r1 capped segments = off at hx hoff ⊢
  exact pushCylinderTriangle_range _ _ _ _ _ x hx (by omega) (by omega) (by omega) (by omega)
    (by omega)

/-- The vertex slots of the three blocks: the ring ends at `topOffset`, the
top cap ends at `bottomOffset`, and a cap has `segments + 2` vertices. -/
theorem cylinderParts_length (P : Platform) (x1 y1 z1 x2 y2 z2 r1 r2 : CFloat)
    (capped : Bool) (segments : Int) (hs : 0 ≤ segments) :
    ((cylinderRing P x1 y1 z1 x2 y2 z2 r1 r2 segments).length : Int)
      = 8 * cylinderTopOffset segments ∧
    ((cylinderTopCap P x1 y1 z1 x2 y2 z2 r1 r2 capped segments).length : Int)
      = 8 * (capFlag capped r1 * (segments + 2)) ∧
    ((cylinderBottomCap P x1 y1 z1 x2 y2 z2 r1 r2 capped segments).length : Int)
      = 8 * (capFlag capped r2 * (segments + 2)) ∧
    ((cylinderRing P x1 y1 z1 x2 y2 z2 r1 r2 segments).length : Int)
      + ((cylinderTopCap P x1 y1 z1 x2 y2 z2 r1 r2 capped segments).length : Int)
      = 8 * cylinderBottomOffset r1 capped segments := by
  have hn : (((segments + 1).toNat : Nat) : Int) = segments + 1 := Int.toNat_of_nonneg (by omega)
  have hring : ∀ p q start k, (loopWrites
      (cylinderRingVertices P x1 y1 z1 x2 y2 z2 r1 r2 segments p q) start k).length = 16 * k :=
    fun p q => loopWrites_length _ 16 (fun i => rfl)
  have hcap : ∀ (f g h : Nat → CFloat) (a b c : CFloat) start k, (loopWrites
      (fun i => pushCylinderVertex (f i) (g i) (h i) a b c) start k).length = 8 * k :=
    fun f g h a b c => loopWrites_length _ 8 (fun i => rfl)
  have h1 : ((cylinderRing P x1 y1 z1 x2 y2 z2 r1 r2 segments).length : Int)
      = 8 * cylinderTopOffset segments := by
    unfold cylinderRing cylinderTopOffset
    simp only [hring]
    push_cast
    omega
  have h2 : ((cylinderTopCap P x1 y1 z1 x2 y2 z2 r1 r2 capped segments).length : Int)
      = 8 * (capFlag capped r1 * (segments + 2)) := by
    unfold cylinderTopCap
    rcases capFlag_cases capped r1 with ⟨e1, c1⟩ | ⟨e1, c1⟩
    · rw [e1, if_neg c1]; simp
    · rw [e1, if_pos c1]
      simp only [List.length_append, hcap]
      simp only [pushCylinderVertex, List.length_cons, List.length_nil]
      push_cast
      omega
  have h3 : ((cylinderBottomCap P x1 y1 z1 x2 y2 z2 r1 r2 capped segments).length : Int)
      = 8 * (capFlag capped r2 * (segments + 2)) := by
    unfold cylinderBottomCap
    rcases capFlag_cases capped r2 with ⟨e2, c2⟩ | ⟨e2, c2⟩
    · rw [e2, if_neg c2]; simp
    · rw [e2, if_pos c2]
      simp only [List.length_append, hcap]
      simp only [pushCylinderVertex, List.length_cons, List.length_nil]
      push_cast
      omega
  refine ⟨h1, h2, h3, ?_⟩
  rw [h1, h2]
  unfold cylinderTopOffset cylinderBottomOffset
  ring

/-- Every index of the index loop is less than the vertex count. -/
theorem cylinderIndices_lt (r1 r2 : CFloat) (capped : Bool) (segments : Int)
    (hs : 0 ≤ segments) (hb : 12 * segments < 2 ^ 31) (x : Nat)
    (hx : x ∈ cylinderIndices r1 r2 capped segments) :
    x < cylinderVertexCount r1 r2 capped segments := by
  obtain ⟨c1, -, -⟩ := cylinderCounts r1 r2 capped segments hs hb
  unfold cylinderIndices at hx
  obtain ⟨i, -, hi, hxi⟩ := loopWrites_mem_bound _ _ _ _ hx
  have hi' : (i : Int) < segments := by omega
  rw [cylinderSegmentIndices_parts] at hxi
  have goal : (x : Int) < (cylinderVertexCount r1 r2 capped segments : Nat) := by
    rw [c1]
    simp only [List.mem_append] at hxi
    rcases hxi with (hxi | hxi) | hxi
    · have := cylinderRingTriangles_range segments i hi' hb x hxi
      rcases capFlag_cases capped r1 with ⟨e1, -⟩ | ⟨e1, -⟩ <;>
      rcases capFlag_cases capped r2 with ⟨e2, -⟩ | ⟨e2, -⟩ <;> rw [e1, e2] <;> omega
    · rcases capFlag_cases capped r1 with ⟨e1, k1⟩ | ⟨e1, k1⟩
      · rw [if_neg k1] at hxi; simp at hxi
      · rw [if_pos k1] at hxi
        have := cylinderTopTriangle_range segments i hi' hb x hxi
        rcases capFlag_cases capped r2 with ⟨e2, -⟩ | ⟨e2, -⟩ <;> rw [e1, e2] <;> omega
    · rcases capFlag_cases capped r2 with ⟨e2, k2⟩ | ⟨e2, k2⟩
      · rw [if_neg k2] at hxi; simp at hxi
      · rw [if_pos k2] at hxi
        have := cylinderBottomTriangle_range r1 capped segments i hi' hb x hxi
        unfold cylinderBottomOffset at this
        rcases capFlag_cases capped r1 with ⟨e1, -⟩ | ⟨e1, -⟩ <;> rw [e1] at this ⊢ <;>
          rw [e2] <;> omega
  exact_mod_cast goal

/-- C22: for `1 ≤ s` segments, small enough that the count arithmetic on `int`
does not overflow, every index `lovrGraphicsCylinder` writes is less than the
number of vertices it writes.  The vertices are the ring (slots below
`topOffset = 2 * (s + 1)`), then the top cap (up to `bottomOffset`), then the
bottom cap (up to the vertex count), a cap having `s + 2` vertices.  In each
iteration of the index loop the ring triangles hold indices below
`2 * (s + 1)`, the top-cap triangle indices in
`[2 * (s + 1), 2 * (s + 1) + s + 2)`, and the bottom-cap triangle indices in
`[bottomOffset, bottomOffset + s + 2)`.  The call returns, and every index of
the dynamic mesh below its index count is less than the vertex count, for which
the mesh has room. -/
theorem lovrGraphicsCylinder_indices_valid (P : Platform) (material : Option Handle)
    (x1 y1 z1 x2 y2 z2 r1 r2 : CFloat) (capped : Bool) (segments : Int) (s : GraphicsState)
    (hs : 1 ≤ segments) (hb : 12 * segments < 2 ^ 31) :
    (∀ x ∈ cylinderIndices r1 r2 capped segments,
      x < cylinderVertexCount r1 r2 capped segments) ∧
    cylinderVertices P x1 y1 z1 x2 y2 z2 r1 r2 capped segments
      = cylinderRing P x1 y1 z1 x2 y2 z2 r1 r2 segments
        ++ cylinderTopCap P x1 y1 z1 x2 y2 z2 r1 r2 capped segments
        ++ cylinderBottomCap P x1 y1 z1 x2 y2 z2 r1 r2 capped segments ∧
    ((cylinderRing P x1 y1 z1 x2 y2 z2 r1 r2 segments).length : Int)
      = 8 * (2 * (segments + 1)) ∧
    ((cylinderTopCap P x1 y1 z1 x2 y2 z2 r1 r2 capped segments).length : Int)
      = 8 * (capFlag capped r1 * (segments + 2)) ∧
    ((cylinderBottomCap P x1 y1 z1 x2 y2 z2 r1 r2 capped segments).length : Int)
      = 8 * (capFlag capped r2 * (segments + 2)) ∧
    ((cylinderRing P x1 y1 z1 x2 y2 z2 r1 r2 segments).length : Int)
      + ((cylinderTopCap P x1 y1 z1 x2 y2 z2 r1 r2 capped segments).length : Int)
      = 8 * cylinderBottomOffset r1 capped segments ∧
    (cylinderVertices P x1 y1 z1 x2 y2 z2 r1 r2 capped segments).length
      = 8 * cylinderVertexCount r1 r2 capped segments ∧
    (∀ i : Nat, (i : Int) < segments →
      cylinderSegmentIndices r1 r2 capped segments i
        = cylinderRingTriangles i
          ++ (if capped = true ∧ r1 ≠ 0 then cylinderTopTriangle segments i else [])
          ++ (if capped = true ∧ r2 ≠ 0 then cylinderBottomTriangle r1 capped segments i
              else []) ∧
      (∀ x ∈ cylinderRingTriangles i, (x : Int) < 2 * (segments + 1)) ∧
      (∀ x ∈ cylinderTopTriangle segments i,
        2 * (segments + 1) ≤ (x : Int) ∧ (x : Int) < 2 * (segments + 1) + (segments + 2)) ∧
      (∀ x ∈ cylinderBottomTriangle r1 capped segments i,
        cylinderBottomOffset r1 capped segments ≤ (x : Int) ∧
        (x : Int) < cylinderBottomOffset r1 capped segments + (segments + 2))) ∧
    ∃ s', lovrGraphicsCylinder P material x1 y1 z1 x2 y2 z2 r1 r2 capped segments s = .done s' ∧
      cylinderVertexCount r1 r2 capped segments ≤ s'.mesh.count ∧
      ∀ k, k < s'.mesh.indexCount →
        s'.mesh.indices k < cylinderVertexCount r1 r2 capped segments := by
  have hs0 : 0 ≤ segments := by omega
  obtain ⟨c1, c2, -⟩ := cylinderCounts r1 r2 capped segments hs0 hb
  obtain ⟨p1, p2, p3, p4⟩ := cylinderParts_length P x1 y1 z1 x2 y2 z2 r1 r2 capped segments hs0
  have hv : (cylinderVertices P x1 y1 z1 x2 y2 z2 r1 r2 capped segments).length
      = 8 * cylinderVertexCount r1 r2 capped segments := by
    have := cylinderVertices_length P x1 y1 z1 x2 y2 z2 r1 r2 capped segments hs0
    have e : capFlag capped r1 * (segments + 2) + capFlag capped r2 * (segments + 2)
        + 2 * (segments + 1)
        = (capFlag capped r1 + capFlag capped r2) * (segments + 2) + 2 * (segments + 1) := by
      ring
    rw [e, ← c1] at this
    exact_mod_cast this
  have hi : (cylinderIndices r1 r2 capped segments).length
      = cylinderIndexCount r1 r2 capped segments := by
    have := cylinderIndices_length r1 r2 capped segments hs0
    rw [← c2] at this
    exact_mod_cast this
  have hret : ∃ s', lovrGraphicsCylinder P material x1 y1 z1 x2 y2 z2 r1 r2 capped segments s
      = .done s' := by
    unfold lovrGraphicsCylinder
    exact (lovrGraphicsDraw_no_transform P _ _ (by rfl)).imp fun s' hx => hx.choose_spec.1
  obtain ⟨s', h⟩ := hret
  obtain ⟨-, -, -, m4, -, m6, -, m8⟩ := lovrGraphicsCylinder_mesh P material x1 y1 z1 x2 y2
    z2 r1 r2 capped segments s s' h
  refine ⟨fun x hx => cylinderIndices_lt r1 r2 capped segments hs0 hb x hx,
    cylinderVertices_parts _ _ _ _ _ _ _ _ _ _ _, ?_, p2, p3, p4, hv, ?_, s', h, ?_, ?_⟩
  · rw [p1]; unfold cylinderTopOffset; ring
  · intro i hi'
    exact ⟨cylinderSegmentIndices_parts _ _ _ _ _,
      fun x hx => cylinderRingTriangles_range segments i hi' hb x hx,
      fun x hx => cylinderTopTriangle_range segments i hi' hb x hx,
      fun x hx => cylinderBottomTriangle_range r1 capped segments i hi' hb x hx⟩
  · rw [m6]; exact le_max_right _ _
  · intro k hk
    rw [m4] at hk
    rw [m8, storeAt_zero_lt _ _ 0 k (by omega)]
    apply cylinderIndices_lt r1 r2 capped segments hs0 hb
    rw [List.getD_eq_getElem _ _ (by omega)]
    exact List.getElem_mem _

theorem lovrGraphicsCylinder_indices_valid_witness :
    (∀ x ∈ cylinderIndices 0 1 true 8, x < cylinderVertexCount 0 1 true 8) ∧
    ∃ s', lovrGraphicsCylinder samplePlatform none 0 0 0 0 1 0 0 1 true 8 resetState = .done s' ∧
      ∀ k, k < s'.mesh.indexCount → s'.mesh.indices k < cylinderVertexCount 0 1 true 8 :=
  have h := lovrGraphicsCylinder_indices_valid samplePlatform none 0 0 0 0 1 0 0 1 true 8
    resetState (by decide) (by decide)
  ⟨h.1, h.2.2.2.2.2.2.2.2.choose, h.2.2.2.2.2.2.2.2.choose_spec.1,
    h.2.2.2.2.2.2.2.2.choose_spec.2.2⟩


/-! ## Theorems: skybox and text -/

theorem lovrGraphicsSkybox_eq (P : Platform) (texture : Handle) (angle ax ay az : CFloat)
    (s : GraphicsState)
    (ht : P.lovrTextureGetType texture = .TEXTURE_CUBE ∨
      P.lovrTextureGetType texture = .TEXTURE_2D) :
    lovrGraphicsSkybox P texture angle ax ay az s
      = (lovrGraphicsDraw P (skyboxDraw (P.lovrTextureGetType texture))
          (skyboxDrawState P texture s)).andThen fun sd =>
          .done (lovrGraphicsSetWinding s.winding
            (emit (.lovrMaterialSetTexture
              (lovrGraphicsGetDefaultMaterial
                (lovrGraphicsSetWinding .WINDING_COUNTERCLOCKWISE s)).1
              (if P.lovrTextureGetType texture = .TEXTURE_CUBE
                then MaterialTexture.TEXTURE_ENVIRONMENT_MAP
                else MaterialTexture.TEXTURE_DIFFUSE) none) sd)) := by
  unfold lovrGraphicsSkybox
  simp only [not_not.2 ht, if_false]
  rfl

theorem lovrGraphicsPrint_eq (P : Platform) (str : String) (transform : Mat) (wrap : CFloat)
    (halign : HorizontalAlign) (valign : VerticalAlign) (s : GraphicsState) :
    lovrGraphicsPrint P str transform wrap halign valign s
      = (lovrGraphicsPush P (printRendered P str wrap halign valign s)).andThen fun sp =>
          (lovrGraphicsDraw P
            (printDraw (printMaterial P str transform wrap halign valign s sp)
              (printRender P str wrap halign valign s).2.2)
            (printDrawState P str transform wrap halign valign s sp)).andThen fun sd =>
            lovrGraphicsPop
              (emit (.lovrMaterialSetTexture
                  (printMaterial P str transform wrap halign valign s sp) .TEXTURE_DIFFUSE none)
                (lovrGraphicsSetDepthTest
                  (printPrepared P str transform wrap halign valign s sp).depthTest
                  (printPrepared P str transform wrap halign valign s sp).depthWrite sd)) :=
  rfl

theorem hardwareFrontFace_append (l1 l2 : List Call) :
    hardwareFrontFace (l1 ++ l2) = (hardwareFrontFace l2).or (hardwareFrontFace l1) := by
  induction l1 with
  | nil => simp [hardwareFrontFace]
  | cons c cs ih =>
    rw [List.cons_append]
    cases c <;> simp only [hardwareFrontFace, ih, Option.or_assoc]

theorem hardwareDepthMask_append (l1 l2 : List Call) :
    hardwareDepthMask (l1 ++ l2) = (hardwareDepthMask l2).or (hardwareDepthMask l1) := by
  induction l1 with
  | nil => simp [hardwareDepthMask]
  | cons c cs ih =>
    rw [List.cons_append]
    cases c <;> simp only [hardwareDepthMask, ih, Option.or_assoc]

/-- What `lovrGraphicsSetWinding` does: the cached winding is the argument, a
`glFrontFace` is issued when it differs from the cached one, and a front face
that matched the cache before matches it afterwards. -/
theorem lovrGraphicsSetWinding_scoped (winding : Winding) (s : GraphicsState) :
    (lovrGraphicsSetWinding winding s).winding = winding ∧
    (lovrGraphicsSetWinding winding s).trace
      = s.trace ++ (if winding ≠ s.winding then [.glFrontFace (glWindingOf winding)] else []) ∧
    (hardwareFrontFace s.trace = some (glWindingOf s.winding) →
      hardwareFrontFace (lovrGraphicsSetWinding winding s).trace
        = some (glWindingOf winding)) := by
  unfold lovrGraphicsSetWinding
  by_cases h : winding = s.winding
  · simp only [ne_eq, h, not_true_eq_false, if_false, List.append_nil, true_and]
    exact fun hc => hc
  · simp only [ne_eq, h, not_false_eq_true, if_true, emit, true_and]
    refine ⟨rfl, fun _ => ?_⟩
    rw [hardwareFrontFace_append]
    rfl

theorem lovrGraphicsGetDefaultMaterial_frame (s : GraphicsState) :
    PipelineEq s (lovrGraphicsGetDefaultMaterial s).2 ∧
    (lovrGraphicsGetDefaultMaterial s).2.trace = s.trace := by
  unfold lovrGraphicsGetDefaultMaterial
  cases s.defaultMaterial with
  | some m => exact ⟨by constructor <;> rfl, rfl⟩
  | none => exact ⟨by constructor <;> rfl, rfl⟩

/-- What `lovrGraphicsSkybox` does with a 2D or cube texture: the winding is
counter-clockwise at the draw and restored on return. -/
theorem lovrGraphicsSkybox_scoped (P : Platform) (texture : Handle) (angle ax ay az : CFloat)
    (s : GraphicsState)
    (ht : P.lovrTextureGetType texture = .TEXTURE_CUBE ∨
      P.lovrTextureGetType texture = .TEXTURE_2D) :
    (skyboxDrawState P texture s).winding = .WINDING_COUNTERCLOCKWISE ∧
    (hardwareFrontFace s.trace = some (glWindingOf s.winding) →
      hardwareFrontFace (skyboxDrawState P texture s).trace = some .GL_CCW) ∧
    ∃ s1 cmd s',
      lovrGraphicsDraw P (skyboxDraw (P.lovrTextureGetType texture))
        (skyboxDrawState P texture s) = .done s1 ∧
      s1.trace = (skyboxDrawState P texture s).trace ++ [.gpuDraw cmd] ∧
      lovrGraphicsSkybox P texture angle ax ay az s = .done s' ∧
      (∃ post, s'.trace = s1.trace ++ post) ∧
      s'.winding = s.winding ∧
      (hardwareFrontFace s.trace = some (glWindingOf s.winding) →
        hardwareFrontFace s'.trace = some (glWindingOf s.winding)) := by
  obtain ⟨w1, w2, w3⟩ := lovrGraphicsSetWinding_scoped .WINDING_COUNTERCLOCKWISE s
  obtain ⟨m1, m2⟩ := lovrGraphicsGetDefaultMaterial_frame
    (lovrGraphicsSetWinding .WINDING_COUNTERCLOCKWISE s)
  have hdw : (skyboxDrawState P texture s).winding = .WINDING_COUNTERCLOCKWISE := by
    show (lovrGraphicsGetDefaultMaterial _).2.winding = _
    rw [m1.winding, w1]
  have hdt : ∀ hc : hardwareFrontFace s.trace = some (glWindingOf s.winding),
      hardwareFrontFace (skyboxDrawState P texture s).trace = some .GL_CCW := by
    intro hc
    show hardwareFrontFace ((lovrGraphicsGetDefaultMaterial _).2.trace ++ [_]) = _
    rw [hardwareFrontFace_append, m2, w3 hc]
    rfl
  obtain ⟨s1, cmd, hd, htr, -, -, -, hpe⟩ := lovrGraphicsDraw_no_transform P
    (skyboxDraw (P.lovrTextureGetType texture)) (skyboxDrawState P texture s) rfl
  obtain ⟨r1, r2, r3⟩ := lovrGraphicsSetWinding_scoped s.winding
    (emit (.lovrMaterialSetTexture
      (lovrGraphicsGetDefaultMaterial (lovrGraphicsSetWinding .WINDING_COUNTERCLOCKWISE s)).1
      (if P.lovrTextureGetType texture = .TEXTURE_CUBE
        then MaterialTexture.TEXTURE_ENVIRONMENT_MAP
        else MaterialTexture.TEXTURE_DIFFUSE) none) s1)
  have hpost : (emit (.lovrMaterialSetTexture
      (lovrGraphicsGetDefaultMaterial (lovrGraphicsSetWinding .WINDING_COUNTERCLOCKWISE s)).1
      (if P.lovrTextureGetType texture = .TEXTURE_CUBE
        then MaterialTexture.TEXTURE_ENVIRONMENT_MAP
        else MaterialTexture.TEXTURE_DIFFUSE) none) s1).winding = .WINDING_COUNTERCLOCKWISE := by
    show s1.winding = _
    rw [hpe.winding, hdw]
  have hrun : lovrGraphicsSkybox P texture angle ax ay az s
      = .done (lovrGraphicsSetWinding s.winding (emit (.lovrMaterialSetTexture
          (lovrGraphicsGetDefaultMaterial (lovrGraphicsSetWinding .WINDING_COUNTERCLOCKWISE s)).1
          (if P.lovrTextureGetType texture = .TEXTURE_CUBE
            then MaterialTexture.TEXTURE_ENVIRONMENT_MAP
            else MaterialTexture.TEXTURE_DIFFUSE) none) s1)) := by
    rw [lovrGraphicsSkybox_eq P texture angle ax ay az s ht, hd]
    rfl
  generalize lovrGraphicsSetWinding s.winding (emit (.lovrMaterialSetTexture
      (lovrGraphicsGetDefaultMaterial (lovrGraphicsSetWinding .WINDING_COUNTERCLOCKWISE s)).1
      (if P.lovrTextureGetType texture = .TEXTURE_CUBE
        then MaterialTexture.TEXTURE_ENVIRONMENT_MAP
        else MaterialTexture.TEXTURE_DIFFUSE) none) s1) = sE at r1 r2 r3 hrun
  refine ⟨hdw, hdt, s1, cmd, sE, hd, htr, hrun, ?_, r1, ?_⟩
  · rw [r2]
    simp only [emit, List.append_assoc]
    exact ⟨_, rfl⟩
  · intro hc
    apply r3
    show hardwareFrontFace (s1.trace ++ [_]) = some (glWindingOf s1.winding)
    rw [hardwareFrontFace_append, htr, hardwareFrontFace_append, hdt hc, hpe.winding, hdw]
    rfl

theorem lovrGraphicsSkybox_rejects (P : Platform) (texture : Handle) (angle ax ay az : CFloat)
    (s : GraphicsState)
    (ht : ¬ (P.lovrTextureGetType texture = .TEXTURE_CUBE ∨
      P.lovrTextureGetType texture = .TEXTURE_2D)) :
    lovrGraphicsSkybox P texture angle ax ay az s = .fatal .skyboxTextureType s := by
  unfold lovrGraphicsSkybox
  simp only [ht, not_false_eq_true, if_true]

theorem DepthFrame.compose {s t u : GraphicsState} (h1 : DepthFrame s t) (h2 : DepthFrame t u) :
    DepthFrame s u :=
  ⟨h2.depthTest.trans h1.depthTest, h2.depthWrite.trans h1.depthWrite,
    h2.transform.trans h1.transform, h2.trace.trans h1.trace⟩

theorem lovrRetain_depth (o : Option Handle) (s : GraphicsState) :
    DepthFrame s (lovrRetain o s) := by
  cases o <;> exact ⟨rfl, rfl, rfl, rfl⟩

theorem lovrRelease_depth (o : Option Handle) (s : GraphicsState) :
    DepthFrame s (lovrRelease o s) := by
  cases o <;> exact ⟨rfl, rfl, rfl, rfl⟩

theorem lovrGraphicsSetFont_depth (font : Option Handle) (s : GraphicsState) :
    DepthFrame s (lovrGraphicsSetFont font s) := by
  have h1 := lovrRetain_depth font s
  have h2 := lovrRelease_depth (lovrRetain font s).font (lovrRetain font s)
  exact h1.compose (h2.compose ⟨rfl, rfl, rfl, rfl⟩)

theorem lovrGraphicsGetFont_depth (s : GraphicsState) :
    DepthFrame s (lovrGraphicsGetFont s).2 := by
  unfold lovrGraphicsGetFont
  by_cases hf : s.font = none
  · simp only [hf, if_true]
    by_cases hdf : s.defaultFont = none
    · simp only [hdf, if_true]
      refine DepthFrame.compose ?_ (lovrGraphicsSetFont_depth _ _)
      refine DepthFrame.compose ?_ (lovrRelease_depth _ _)
      exact ⟨rfl, rfl, rfl, rfl⟩
    · simp only [hdf, if_false]
      exact lovrGraphicsSetFont_depth _ _
  · simp only [hf, if_false]
    exact ⟨rfl, rfl, rfl, rfl⟩

theorem printRendered_depth (P : Platform) (str : String) (wrap : CFloat)
    (halign : HorizontalAlign) (valign : VerticalAlign) (s : GraphicsState) :
    DepthFrame s (printRendered P str wrap halign valign s) :=
  (lovrGraphicsGetFont_depth s).compose ⟨rfl, rfl, rfl, rfl⟩

theorem lovrGraphicsPush_depth_test (P : Platform) (s sp : GraphicsState)
    (h : lovrGraphicsPush P s = .done sp) :
    sp.depthTest = s.depthTest ∧ sp.depthWrite = s.depthWrite ∧
    sp.transform = s.transform + 1 ∧ sp.trace = s.trace := by
  rw [lovrGraphicsPush_frame P s sp h]
  exact ⟨rfl, rfl, rfl, rfl⟩

theorem printPrepared_depth (P : Platform) (str : String) (transform : Mat) (wrap : CFloat)
    (halign : HorizontalAlign) (valign : VerticalAlign) (s sp : GraphicsState) :
    (printPrepared P str transform wrap halign valign s sp).depthTest = sp.depthTest ∧
    (printPrepared P str transform wrap halign valign s sp).depthWrite = sp.depthWrite ∧
    (printPrepared P str transform wrap halign valign s sp).transform = sp.transform ∧
    ∃ c, (printPrepared P str transform wrap halign valign s sp).trace = sp.trace ++ [c] ∧
      hardwareDepthMask [c] = none := by
  obtain ⟨m1, m2⟩ := lovrGraphicsGetDefaultMaterial_frame
    (printTransformed P str transform wrap halign valign s sp)
  refine ⟨?_, ?_, ?_, .lovrMaterialSetTexture
    (printMaterial P str transform wrap halign valign s sp) .TEXTURE_DIFFUSE
    (P.fontTexture (lovrGraphicsGetFont s).1), ?_, ?_⟩
  · show (lovrGraphicsGetDefaultMaterial _).2.depthTest = _
    rw [m1.depthTest]; rfl
  · show (lovrGraphicsGetDefaultMaterial _).2.depthWrite = _
    rw [m1.depthWrite]; rfl
  · show (lovrGraphicsGetDefaultMaterial _).2.transform = _
    rw [m1.transform]; rfl
  · show (lovrGraphicsGetDefaultMaterial _).2.trace ++ [_] = _
    rw [m2]; rfl
  · rfl

/-- What `lovrGraphicsSetDepthTest` does when the mode is the cached one: only
the depth-write flag changes, with a `glDepthMask` when it differs from the
cached flag. -/
theorem lovrGraphicsSetDepthTest_same (mode : CompareMode) (write : Bool) (s : GraphicsState)
    (hm : s.depthTest = mode) :
    (lovrGraphicsSetDepthTest mode write s).depthTest = mode ∧
    (lovrGraphicsSetDepthTest mode write s).depthWrite = write ∧
    (lovrGraphicsSetDepthTest mode write s).transform = s.transform ∧
    (lovrGraphicsSetDepthTest mode write s).trace
      = s.trace ++ (if s.depthWrite ≠ write then [.glDepthMask write] else []) ∧
    (hardwareDepthMask s.trace = some s.depthWrite →
      hardwareDepthMask (lovrGraphicsSetDepthTest mode write s).trace = some write) := by
  subst hm
  unfold lovrGraphicsSetDepthTest
  by_cases hw : s.depthWrite = write
  · simp only [ne_eq, not_true_eq_false, if_false, hw, List.append_nil, true_and]
    exact fun hc => hw ▸ hc
  · simp only [ne_eq, not_true_eq_false, if_false, hw, not_false_eq_true, if_true, emit,
      true_and]
    intro _
    rw [hardwareDepthMask_append]
    rfl

/-- At depth `MAX_TRANSFORMS - 2` the push of `lovrGraphicsPrint` copies a row
past the array: the call raises no error and its behaviour is undefined. -/
theorem lovrGraphicsPrint_past_array (P : Platform) (str : String) (transform : Mat)
    (wrap : CFloat) (halign : HorizontalAlign) (valign : VerticalAlign) (s : GraphicsState)
    (h : s.transform = MAX_TRANSFORMS - 2) :
    (lovrGraphicsPrint P str transform wrap halign valign s).isUndefined = true := by
  have r := printRendered_depth P str wrap halign valign s
  rw [lovrGraphicsPrint_eq, lovrGraphicsPush_past_array P _ (r.transform.trans h)]
  rfl

/-- What `lovrGraphicsPrint` does at a depth `d` with
`0 ≤ d < MAX_TRANSFORMS - 2`: depth-write is off at the draw, and the depth
test, the depth-write flag and the depth are restored on return. -/
theorem lovrGraphicsPrint_scoped (P : Platform) (str : String) (transform : Mat) (wrap : CFloat)
    (halign : HorizontalAlign) (valign : VerticalAlign) (s : GraphicsState)
    (h0 : 0 ≤ s.transform) (hd : s.transform < MAX_TRANSFORMS - 2) :
    ∃ sp s1 cmd s',
      lovrGraphicsPush P (printRendered P str wrap halign valign s) = .done sp ∧
      (printDrawState P str transform wrap halign valign s sp).depthWrite = false ∧
      (printDrawState P str transform wrap halign valign s sp).depthTest = s.depthTest ∧
      (hardwareDepthMask s.trace = some s.depthWrite →
        hardwareDepthMask (printDrawState P str transform wrap halign valign s sp).trace
          = some false) ∧
      lovrGraphicsDraw P
        (printDraw (printMaterial P str transform wrap halign valign s sp)
          (printRender P str wrap halign valign s).2.2)
        (printDrawState P str transform wrap halign valign s sp) = .done s1 ∧
      s1.trace = (printDrawState P str transform wrap halign valign s sp).trace
        ++ [.gpuDraw cmd] ∧
      lovrGraphicsPrint P str transform wrap halign valign s = .done s' ∧
      (∃ post, s'.trace = s1.trace ++ post) ∧
      s'.depthTest = s.depthTest ∧ s'.depthWrite = s.depthWrite ∧
      s'.transform = s.transform ∧
      (hardwareDepthMask s.trace = some s.depthWrite →
        hardwareDepthMask s'.trace = some s.depthWrite) := by
  have r := printRendered_depth P str wrap halign valign s
  obtain ⟨sp, hp, -⟩ := lovrGraphicsPush_below_bound P (printRendered P str wrap halign valign s)
    (by rw [r.transform]; omega)
  obtain ⟨p1, p2, p3, p4⟩ := lovrGraphicsPush_depth_test P _ sp hp
  obtain ⟨q1, q2, q3, c, q4, q5⟩ := printPrepared_depth P str transform wrap halign valign s sp
  have hprep : ∀ hc : hardwareDepthMask s.trace = some s.depthWrite,
      hardwareDepthMask (printPrepared P str transform wrap halign valign s sp).trace
        = some (printPrepared P str transform wrap halign valign s sp).depthWrite := by
    intro hc
    rw [q4, hardwareDepthMask_append, q5, p4, r.trace, hc, q2, p2, r.depthWrite]
    rfl
  obtain ⟨d1, d2, d3, d4, d5⟩ := lovrGraphicsSetDepthTest_same
    (printPrepared P str transform wrap halign valign s sp).depthTest false
    (printPrepared P str transform wrap halign valign s sp) rfl
  obtain ⟨s1, cmd, hdraw, htr, -, -, -, hpe⟩ := lovrGraphicsDraw_no_transform P
    (printDraw (printMaterial P str transform wrap halign valign s sp)
      (printRender P str wrap halign valign s).2.2)
    (printDrawState P str transform wrap halign valign s sp) rfl
  have hs1t : s1.depthTest = (printPrepared P str transform wrap halign valign s sp).depthTest :=
    hpe.depthTest.trans d1
  have hs1w : s1.depthWrite = false := hpe.depthWrite.trans d2
  obtain ⟨e1, e2, e3, e4, e5⟩ := lovrGraphicsSetDepthTest_same
    (printPrepared P str transform wrap halign valign s sp).depthTest
    (printPrepared P str transform wrap halign valign s sp).depthWrite s1 hs1t
  have hrun : lovrGraphicsPrint P str transform wrap halign valign s
      = lovrGraphicsPop
          (emit (.lovrMaterialSetTexture
              (printMaterial P str transform wrap halign valign s sp) .TEXTURE_DIFFUSE none)
            (lovrGraphicsSetDepthTest
              (printPrepared P str transform wrap halign valign s sp).depthTest
              (printPrepared P str transform wrap halign valign s sp).depthWrite s1)) := by
    rw [lovrGraphicsPrint_eq, hp]
    simp only [Outcome.andThen, hdraw]
  generalize lovrGraphicsSetDepthTest
    (printPrepared P str transform wrap halign valign s sp).depthTest
    (printPrepared P str transform wrap halign valign s sp).depthWrite s1 = sr
    at e1 e2 e3 e4 e5 hrun
  have htf : sr.transform = s.transform + 1 := by
    rw [e3, hpe.transform]
    show (printDrawState P str transform wrap halign valign s sp).transform = _
    rw [show (printDrawState P str transform wrap halign valign s sp).transform
      = (printPrepared P str transform wrap halign valign s sp).transform from d3,
      q3, p3, r.transform]
  have hpop : lovrGraphicsPop (emit (.lovrMaterialSetTexture
      (printMaterial P str transform wrap halign valign s sp) .TEXTURE_DIFFUSE none) sr)
      = .done { emit (.lovrMaterialSetTexture
          (printMaterial P str transform wrap halign valign s sp) .TEXTURE_DIFFUSE none) sr with
          transform := sr.transform - 1 } := by
    have hneg : ¬ sr.transform - 1 < 0 := by omega
    simp only [lovrGraphicsPop, emit, hneg, if_false]
  refine ⟨sp, s1, cmd, _, hp, d2, ?_, ?_, hdraw, htr, hrun.trans hpop, ?_, ?_, ?_, ?_, ?_⟩
  · show (printDrawState P str transform wrap halign valign s sp).depthTest = _
    rw [show (printDrawState P str transform wrap halign valign s sp).depthTest
      = (printPrepared P str transform wrap halign valign s sp).depthTest from d1,
      q1, p1, r.depthTest]
  · intro hc
    exact d5 (hprep hc)
  · show ∃ post, (sr.trace ++ [_]) = s1.trace ++ post
    rw [e4, List.append_assoc]
    exact ⟨_, rfl⟩
  · show sr.depthTest = _
    rw [e1, q1, p1, r.depthTest]
  · show sr.depthWrite = _
    rw [e2, q2, p2, r.depthWrite]
  · show sr.transform - 1 = _
    omega
  · intro hc
    show hardwareDepthMask (sr.trace ++ [_]) = _
    have hs1 : hardwareDepthMask s1.trace = some s1.depthWrite := by
      rw [htr, hardwareDepthMask_append, hs1w]
      exact d5 (hprep hc)
    rw [hardwareDepthMask_append, e5 hs1, q2, p2, r.depthWrite]
    rfl

/-- C21: scoped pipeline overrides are restored.
(a) `lovrGraphicsSkybox` on any state `s`: with a cube or 2D texture it calls
`lovrGraphicsDraw` in a state whose cached winding is counter-clockwise (and
whose last `glFrontFace` is `GL_CCW`, when the front face matched the cache
before the call), the draw issues its `gpuDraw`, and the call returns with the
cached winding of `s` (and the last `glFrontFace` matching it); with any other
texture type it throws in the state `s` itself.
(b) `lovrGraphicsPrint` on a state `t` at a depth `d` with
`0 ≤ d < MAX_TRANSFORMS - 2`: it calls `lovrGraphicsDraw` in a state whose
depth-write flag is false and whose depth-test mode is that of `t` (and whose
last `glDepthMask` is false, when the depth mask matched the cache before the
call), the draw issues its `gpuDraw`, and the call returns with the depth-test
mode, the depth-write flag and the transform depth of `t` (and the last
`glDepthMask` matching the flag).  On a state `u` at the depth
`MAX_TRANSFORMS - 2` the push of `lovrGraphicsPrint` copies a row past the
array: the call raises no error and its behaviour is undefined, so nothing is
restored there. -/
theorem scoped_overrides_restored (P : Platform) (texture : Handle) (angle ax ay az : CFloat)
    (str : String) (transform : Mat) (wrap : CFloat) (halign : HorizontalAlign)
    (valign : VerticalAlign) (s t u : GraphicsState)
    (h0 : 0 ≤ t.transform) (hd : t.transform < MAX_TRANSFORMS - 2)
    (hu : u.transform = MAX_TRANSFORMS - 2) :
    ((P.lovrTextureGetType texture = .TEXTURE_CUBE ∨
        P.lovrTextureGetType texture = .TEXTURE_2D) →
      (skyboxDrawState P texture s).winding = .WINDING_COUNTERCLOCKWISE ∧
      (hardwareFrontFace s.trace = some (glWindingOf s.winding) →
        hardwareFrontFace (skyboxDrawState P texture s).trace = some .GL_CCW) ∧
      ∃ s1 cmd s',
        lovrGraphicsDraw P (skyboxDraw (P.lovrTextureGetType texture))
          (skyboxDrawState P texture s) = .done s1 ∧
        s1.trace = (skyboxDrawState P texture s).trace ++ [.gpuDraw cmd] ∧
        lovrGraphicsSkybox P texture angle ax ay az s = .done s' ∧
        (∃ post, s'.trace = s1.trace ++ post) ∧
        s'.winding = s.winding ∧
        (hardwareFrontFace s.trace = some (glWindingOf s.winding) →
          hardwareFrontFace s'.trace = some (glWindingOf s.winding))) ∧
    (¬ (P.lovrTextureGetType texture = .TEXTURE_CUBE ∨
        P.lovrTextureGetType texture = .TEXTURE_2D) →
      lovrGraphicsSkybox P texture angle ax ay az s = .fatal .skyboxTextureType s) ∧
    (∃ tp t1 cmd t',
      lovrGraphicsPush P (printRendered P str wrap halign valign t) = .done tp ∧
      (printDrawState P str transform wrap halign valign t tp).depthWrite = false ∧
      (printDrawState P str transform wrap halign valign t tp).depthTest = t.depthTest ∧
      (hardwareDepthMask t.trace = some t.depthWrite →
        hardwareDepthMask (printDrawState P str transform wrap halign valign t tp).trace
          = some false) ∧
      lovrGraphicsDraw P
        (printDraw (printMaterial P str transform wrap halign valign t tp)
          (printRender P str wrap halign valign t).2.2)
        (printDrawState P str transform wrap halign valign t tp) = .done t1 ∧
      t1.trace = (printDrawState P str transform wrap halign valign t tp).trace
        ++ [.gpuDraw cmd] ∧
      lovrGraphicsPrint P str transform wrap halign valign t = .done t' ∧
      (∃ post, t'.trace = t1.trace ++ post) ∧
      t'.depthTest = t.depthTest ∧ t'.depthWrite = t.depthWrite ∧
      t'.transform = t.transform ∧
      (hardwareDepthMask t.trace = some t.depthWrite →
        hardwareDepthMask t'.trace = some t.depthWrite)) ∧
    (lovrGraphicsPrint P str transform wrap halign valign u).isUndefined = true :=
  ⟨fun ht => lovrGraphicsSkybox_scoped P texture angle ax ay az s ht,
    fun ht => lovrGraphicsSkybox_rejects P texture angle ax ay az s ht,
    lovrGraphicsPrint_scoped P str transform wrap halign valign t h0 hd,
    lovrGraphicsPrint_past_array P str transform wrap halign valign u hu⟩

theorem scoped_overrides_restored_witness :
    (∃ s', lovrGraphicsSkybox samplePlatform 21 0 0 1 0 resetState = .done s' ∧
      s'.winding = resetState.winding) ∧
    lovrGraphicsSkybox samplePlatform 5 0 0 1 0 resetState
      = .fatal .skyboxTextureType resetState ∧
    (∃ t', lovrGraphicsPrint samplePlatform "lovr" identityMat 0 0 0 resetState = .done t' ∧
      t'.depthTest = resetState.depthTest ∧ t'.depthWrite = resetState.depthWrite ∧
      t'.transform = resetState.transform) ∧
    (runStackCalls samplePlatform (List.replicate 62 .push) resetState).isDone = true ∧
    (lovrGraphicsPrint samplePlatform "lovr" identityMat 0 0 0 deepState).isUndefined = true :=
  have h := scoped_overrides_restored samplePlatform 21 0 0 1 0 "lovr" identityMat 0 0 0
    resetState resetState deepState (by decide) (by decide) deepState_depth.2
  have h5 := scoped_overrides_restored samplePlatform 5 0 0 1 0 "lovr" identityMat 0 0 0
    resetState resetState deepState (by decide) (by decide) deepState_depth.2
  have ha := (h.1 (Or.inl rfl)).2.2
  have hb := h.2.2.1
  ⟨⟨ha.choose_spec.choose_spec.choose, ha.choose_spec.choose_spec.choose_spec.2.2.1,
      ha.choose_spec.choose_spec.choose_spec.2.2.2.2.1⟩,
    h5.2.1 (by decide),
    ⟨hb.choose_spec.choose_spec.choose_spec.choose,
      hb.choose_spec.choose_spec.choose_spec.choose_spec.2.2.2.2.2.2.1,
      hb.choose_spec.choose_spec.choose_spec.choose_spec.2.2.2.2.2.2.2.2.1,
      hb.choose_spec.choose_spec.choose_spec.choose_spec.2.2.2.2.2.2.2.2.2.1,
      hb.choose_spec.choose_spec.choose_spec.choose_spec.2.2.2.2.2.2.2.2.2.2.1⟩,
    deepState_depth.1, h.2.2.2⟩

/-- After `lovrGraphicsReset` the last `glFrontFace` and the last `glDepthMask`
match the cached winding and depth-write flag. -/
theorem resetState_hardware_matches_cache :
    hardwareFrontFace resetState.trace = some (glWindingOf resetState.winding) ∧
    hardwareDepthMask resetState.trace = some resetState.depthWrite := by
  decide

end Lovr
